import Mathlib

/-- A possibly-NaN numeric cell: `none` models numpy NaN. -/
abbrev Val := Option ℚ


/-- NaN-propagating addition, as in IEEE arithmetic. -/
def vAdd : Val → Val → Val
  | some a, some b => some (a + b)
  | _, _ => none


/-- NaN-propagating subtraction. -/
def vSub : Val → Val → Val
  | some a, some b => some (a - b)
  | _, _ => none


/-- NaN-propagating multiplication (NaN times anything is NaN, even 0). -/
def vMul : Val → Val → Val
  | some a, some b => some (a * b)
  | _, _ => none


/-- NaN-propagating division.  A division by zero is also sent to `none`:
in the source the only place a zero denominator can arise feeds a mask
that invalidates the entry anyway (see `storiesOf`). -/
def vDiv : Val → Val → Val
  | some a, some b => if b = 0 then none else some (a / b)
  | _, _ => none


/-- Strict order on `Val` in which `none` is below every rational.  This is
the order used for profit selection after the source replaces NaN profit
cells by `-np.inf` (`profit[np.isnan(profit)] = -np.inf`). -/
def vLt (a b : Val) : Prop :=
  match a, b with
  | _, none => False
  | none, some _ => True
  | some x, some y => x < y


instance (a b : Val) : Decidable (vLt a b) :=
  match a, b with
  | _, none => isFalse (by cases a <;> simp [vLt])
  | none, some _ => isTrue (by simp [vLt])
  | some x, some y => if h : x < y then isTrue h else isFalse h


/-- Reflexive closure of `vLt`. -/
def vLe (a b : Val) : Prop := vLt a b ∨ a = b


/-- Comparison `some a > some b + c` with NaN semantics: any comparison
against NaN is false (numpy `x > y` with a NaN operand).  Used for the
zoning masks. -/
def vGtPlus (a b : Val) (c : ℚ) : Prop :=
  match a, b with
  | some x, some y => x > y + c
  | _, _ => False


instance (a b : Val) (c : ℚ) : Decidable (vGtPlus a b c) :=
  match a, b with
  | some x, some y => if h : x > y + c then isTrue h else isFalse h
  | some _, none => isFalse (by simp [vGtPlus])
  | none, some _ => isFalse (by simp [vGtPlus])
  | none, none => isFalse (by simp [vGtPlus])


/-- Is a `Val` strictly positive?  NaN counts as not positive, matching a
pandas `query` comparison on a NaN cell. -/
def vPos (a : Val) : Prop :=
  match a with
  | some x => 0 < x
  | none => False


instance (a : Val) : Decidable (vPos a) :=
  match a with
  | some x => if h : 0 < x then isTrue h else isFalse h
  | none => isFalse (by simp [vPos])


/-- Skip-NaN minimum of a list of cells, as in pandas `.min(axis=1)`:
NaN entries are ignored and the minimum of all NaN entries is NaN. -/
def vMinSkipNa : List Val → Val
  | [] => none
  | none :: t => vMinSkipNa t
  | some x :: t =>
      match vMinSkipNa t with
      | none => some x
      | some y => some (min x y)


/-- Dot product of a row of possibly-NaN cells with a vector of weights,
with IEEE propagation: a NaN cell poisons the sum even at weight 0
(numpy `np.dot`). -/
def vDot : List Val → List ℚ → Val
  | [], _ => some 0
  | _, [] => some 0
  | a :: as_, w :: ws => vAdd (vMul a (some w)) (vDot as_ ws)


/-- Dot product of two rational vectors (`np.dot` on clean data). -/
def dotQ (a b : List ℚ) : ℚ := (List.zipWith (· * ·) a b).sum


/-- Association-list access with a default, modelling `dict.get(k, d)`. -/
def lookupD {α : Type} : List (String × α) → String → α → α
  | [], _, d => d
  | (k, v) :: t, k2, d => if k = k2 then v else lookupD t k2 d


/-- A rational extended with the infinite breakpoint `np.inf`. -/
inductive QInf : Type
  | inf : QInf
  | val : ℚ → QInf
deriving DecidableEq


/-- Is a breakpoint strictly below a rational (an infinite breakpoint
never is)? -/
def qinfLt (b : QInf) (v : ℚ) : Prop :=
  match b with
  | QInf.inf => False
  | QInf.val q => q < v


instance (b : QInf) (v : ℚ) : Decidable (qinfLt b v) :=
  match b with
  | QInf.inf => isFalse (by simp [qinfLt])
  | QInf.val q => if h : q < v then isTrue h else isFalse h


/-- `np.searchsorted(bps, v)` with the default side `left`: on a sorted
breakpoint list this is the number of breakpoints strictly below `v`,
i.e. the index of the first breakpoint that is `≥ v`. -/
def searchsorted (bps : List QInf) (v : ℚ) : ℕ :=
  match bps with
  | [] => 0
  | b :: t => (if qinfLt b v then 1 else 0) + searchsorted t v


/-- `np.ceil` on an exact rational. -/
def np_ceil (q : ℚ) : ℚ := ⌈q⌉


/-- The three parking configurations.  The source keys its parking
dictionaries by the strings deck, surface and underground. -/
inductive PC : Type
  | surface : PC
  | deck : PC
  | underground : PC
deriving DecidableEq


/-- The parking configurations in the lexicographic order of their names
(deck, surface, underground).  `pandas.pivot` sorts its columns by name,
so this is the column order over which the parking selector scans. -/
def pcSorted : List PC := [PC.deck, PC.surface, PC.underground]


/-- The declarative parameter bundle, as handed to the `SqFtProForma`
constructor (and as produced by its `to_dict`).  Field names follow the
source. -/
structure RawConfig : Type where
  parcel_sizes : List ℚ
  fars : List ℚ
  uses : List String
  residential_uses : List Bool
  forms : List (String × List (String × ℚ))
  profit_factor : ℚ
  building_efficiency : ℚ
  parcel_coverage : ℚ
  cap_rate : ℚ
  parking_rates : List (String × ℚ)
  sqft_per_rate : ℚ
  parking_configs : List PC
  costs : List (String × List ℚ)
  heights_for_costs : List QInf
  parking_sqft_d : List (PC × ℚ)
  parking_cost_d : List (PC × ℚ)
  height_per_story : ℚ
  max_retail_height : ℚ
  max_industrial_height : ℚ
  construction_months : List (String × List ℚ)
  construction_sqft_for_months : List QInf
  loan_to_cost_ratio : ℚ
  drawdown_factor : ℚ
  interest_rate : ℚ
  loan_fees : ℚ
  residential_to_yearly : Bool
  forms_to_test : Option (List String)
  only_built : Bool
  pass_through : List String
  simple_zoning : Bool
  parcel_filter : Option String
deriving DecidableEq


/-- Range check for one height breakpoint: `np.isinf(v)` is skipped,
otherwise `0 <= v <= 1000`. -/
def heightBpOk (h : QInf) : Prop :=
  match h with
  | QInf.inf => True
  | QInf.val q => 0 ≤ q ∧ q ≤ 1000


instance (h : QInf) : Decidable (heightBpOk h) :=
  match h with
  | QInf.inf => isTrue (by simp [heightBpOk])
  | QInf.val q => if hq : 0 ≤ q ∧ q ≤ 1000 then isTrue hq else isFalse hq


/-- `SqFtProForma.check_is_reasonable`, translated assert for assert.
The `isinstance` type asserts vanish in a typed embedding.  Note that the
second loop over `parking_sqft_d.items()` in the source re-checks the
values of `parking_sqft_d` against the range `[10, 300]` (and checks that
its keys index `parking_cost_d`); the values of `parking_cost_d` are
never range-checked. -/
def checkIsReasonable (c : RawConfig) : Prop :=
  (∀ f ∈ c.fars, ¬ (f > 20)) ∧
  (∀ f ∈ c.fars, ¬ (f ≤ 0)) ∧
  (∀ p ∈ c.parking_rates, p.1 ∈ c.uses ∧ 0 ≤ p.2 ∧ p.2 < 5) ∧
  (∀ p ∈ c.parking_sqft_d, p.1 ∈ c.parking_configs ∧ 50 ≤ p.2 ∧ p.2 ≤ 1000) ∧
  (∀ p ∈ c.parking_sqft_d,
    p.1 ∈ c.parking_cost_d.map Prod.fst ∧ 10 ≤ p.2 ∧ p.2 ≤ 300) ∧
  (∀ h ∈ c.heights_for_costs, heightBpOk h) ∧
  (∀ p ∈ c.costs, p.1 ∈ c.uses ∧ ∀ i ∈ p.2, 10 < i ∧ i < 1000)


instance (c : RawConfig) : Decidable (checkIsReasonable c) := by
  unfold checkIsReasonable
  infer_instance


/-- The validation the specification describes for the parking cost
dictionary: every cost-per-area value of `parking_cost_d` lies in
`[10, 300]`.  Stated from the words of the spec, for comparison with
`checkIsReasonable`. -/
def parkingCostRangeSpec (c : RawConfig) : Prop :=
  ∀ p ∈ c.parking_cost_d, 10 ≤ p.2 ∧ p.2 ≤ 300


instance (c : RawConfig) : Decidable (parkingCostRangeSpec c) := by
  unfold parkingCostRangeSpec
  infer_instance


/-- Normalize a use-fraction vector to sum to one
(`self.forms[k] /= self.forms[k].sum()`). -/
def normalizeVec (v : List ℚ) : List ℚ := v.map (fun x => x / v.sum)


/-- Sum of the entries of `v` selected by a boolean mask, modelling
`pd.Series(v)[residential_uses].sum()`. -/
def maskedSum (v : List ℚ) (mask : List Bool) : ℚ :=
  (List.zipWith (fun x b => if b then x else 0) v mask).sum


/-- The use-fraction vector of one form, aligned to the canonical use
order (`self.forms[k].get(use, 0.0)` for each use). -/
def formVec (uses : List String) (f : List (String × ℚ)) : List ℚ :=
  uses.map (fun u => lookupD f u 0)


/-- Association-list access for the parking dictionaries (a missing key
would be a `KeyError` in the source; it is totalized with 0 here). -/
def pcLookup (l : List (PC × ℚ)) (k : PC) : ℚ :=
  match l with
  | [] => 0
  | (k2, v) :: t => if k2 = k then v else pcLookup t k


/-- Key list of the forms dictionary, sorted as by Python `sorted`. -/
def sortedStrings (l : List String) : List String :=
  l.mergeSort (fun a b => if a ≤ b then true else false)


/-- `forms_to_test or sorted(self.forms.keys())`: Python `or` replaces
both `None` and the empty list by the sorted form names. -/
def resolveFormsToTest (given : Option (List String)) (sortedKeys : List String) :
    List String :=
  match given with
  | none => sortedKeys
  | some l => if l = [] then sortedKeys else l


/-- The state of a constructed `SqFtProForma` after `_convert_types`:
use-keyed dictionaries have become vectors and matrices aligned to the
canonical use order, forms are normalized, and per-form residential
ratios are derived.  The cost and construction-month matrices are kept
in use-major layout (one list per use, in use order); the source stores
their transpose and reads breakpoint-major rows, which `costRow` below
reproduces. -/
structure ProForma : Type where
  parcel_sizes : List ℚ
  fars : List ℚ
  uses : List String
  residential_uses : List Bool
  forms : List (String × List ℚ)
  res_ratios : List (String × ℚ)
  profit_factor : ℚ
  building_efficiency : ℚ
  parcel_coverage : ℚ
  cap_rate : ℚ
  parking_rates : List ℚ
  sqft_per_rate : ℚ
  parking_configs : List PC
  costs : List (List ℚ)
  heights_for_costs : List QInf
  parking_sqft_d : List (PC × ℚ)
  parking_cost_d : List (PC × ℚ)
  height_per_story : ℚ
  max_retail_height : ℚ
  max_industrial_height : ℚ
  construction_months : List (List ℚ)
  construction_sqft_for_months : List QInf
  loan_to_cost_ratio : ℚ
  drawdown_factor : ℚ
  interest_rate : ℚ
  loan_fees : ℚ
  residential_to_yearly : Bool
  forms_to_test : List String
  only_built : Bool
  pass_through : List String
  simple_zoning : Bool
  parcel_filter : Option String
deriving DecidableEq


attribute [ext] ProForma


/-- The breakpoint-major row `self.costs[idx]` of a use-major matrix:
entry `idx` of every per-use list, in use order. -/
def costRow (byUse : List (List ℚ)) (idx : ℕ) : List ℚ :=
  byUse.map (fun l => l.getD idx 0)


/-- Construction of the engine state from the declarative bundle
(`SqFtProForma.__init__` together with `_convert_types`).  Dictionary
accesses that would raise `KeyError` in the source are totalized with
zero defaults. -/
def mkProForma (c : RawConfig) : ProForma where
  parcel_sizes := c.parcel_sizes
  fars := c.fars
  uses := c.uses
  residential_uses := c.residential_uses
  forms := c.forms.map (fun p => (p.1, normalizeVec (formVec c.uses p.2)))
  res_ratios := c.forms.map
    (fun p => (p.1, maskedSum (normalizeVec (formVec c.uses p.2)) c.residential_uses))
  profit_factor := c.profit_factor
  building_efficiency := c.building_efficiency
  parcel_coverage := c.parcel_coverage
  cap_rate := c.cap_rate
  parking_rates := c.uses.map (fun u => lookupD c.parking_rates u 0)
  sqft_per_rate := c.sqft_per_rate
  parking_configs := c.parking_configs
  costs := c.uses.map (fun u => lookupD c.costs u [])
  heights_for_costs := c.heights_for_costs
  parking_sqft_d := c.parking_sqft_d
  parking_cost_d := c.parking_cost_d
  height_per_story := c.height_per_story
  max_retail_height := c.max_retail_height
  max_industrial_height := c.max_industrial_height
  construction_months := c.uses.map (fun u => lookupD c.construction_months u [])
  construction_sqft_for_months := c.construction_sqft_for_months
  loan_to_cost_ratio := c.loan_to_cost_ratio
  drawdown_factor := c.drawdown_factor
  interest_rate := c.interest_rate
  loan_fees := c.loan_fees
  residential_to_yearly := c.residential_to_yearly
  forms_to_test := resolveFormsToTest c.forms_to_test
    (sortedStrings (c.forms.map Prod.fst))
  only_built := c.only_built
  pass_through := c.pass_through
  simple_zoning := c.simple_zoning
  parcel_filter := c.parcel_filter


/-- `SqFtProForma.to_dict`: the declarative dump of a constructed engine.
Converted fields are un-converted (vectors are re-keyed by use, zero form
fractions are dropped, the cost matrices are emitted per use). -/
def toDict (m : ProForma) : RawConfig where
  parcel_sizes := m.parcel_sizes
  fars := m.fars
  uses := m.uses
  residential_uses := m.residential_uses
  forms := m.forms.map
    (fun p => (p.1, (m.uses.zip p.2).filter (fun q => if q.2 = 0 then false else true)))
  profit_factor := m.profit_factor
  building_efficiency := m.building_efficiency
  parcel_coverage := m.parcel_coverage
  cap_rate := m.cap_rate
  parking_rates := m.uses.zip m.parking_rates
  sqft_per_rate := m.sqft_per_rate
  parking_configs := m.parking_configs
  costs := m.uses.zip m.costs
  heights_for_costs := m.heights_for_costs
  parking_sqft_d := m.parking_sqft_d
  parking_cost_d := m.parking_cost_d
  height_per_story := m.height_per_story
  max_retail_height := m.max_retail_height
  max_industrial_height := m.max_industrial_height
  construction_months := m.uses.zip m.construction_months
  construction_sqft_for_months := m.construction_sqft_for_months
  loan_to_cost_ratio := m.loan_to_cost_ratio
  drawdown_factor := m.drawdown_factor
  interest_rate := m.interest_rate
  loan_fees := m.loan_fees
  residential_to_yearly := m.residential_to_yearly
  forms_to_test := some m.forms_to_test
  only_built := m.only_built
  pass_through := m.pass_through
  simple_zoning := m.simple_zoning
  parcel_filter := m.parcel_filter


/-- The single configured parcel size, broadcast by the source across the
far grid (`tiled_parcel_sizes`; the reference computation only works with
one configured parcel size). -/
def ProForma.parcelSize (m : ProForma) : ℚ := m.parcel_sizes.headI


/-- `SqFtProFormaReference._building_bulk` at one far value: parcel size
times far, with the deck-parking self-consistency division. -/
def buildingBulkAt (m : ProForma) (use_mix : List ℚ) (pc : PC) (f : ℚ) : ℚ :=
  let bulk := m.parcelSize * f
  if pc = PC.deck then
    bulk / (1 + dotQ use_mix m.parking_rates *
      pcLookup m.parking_sqft_d PC.deck / m.sqft_per_rate)
  else bulk


/-- `SqFtProFormaReference._stories` at one far value.  For surface
parking the source first invalidates negative story counts, then story
counts above 5, and only then divides the survivors by the parcel
coverage.  A zero surface denominator gives `np.inf` in the source, which
the greater-than-5 mask then invalidates; it is sent to `none` directly
here. -/
def storiesOf (m : ProForma) (pc : PC) (bulk stalls : ℚ) : Val :=
  match pc with
  | PC.underground => some (bulk / m.parcelSize / m.parcel_coverage)
  | PC.deck => some ((bulk + stalls * pcLookup m.parking_sqft_d PC.deck)
      / m.parcelSize / m.parcel_coverage)
  | PC.surface =>
    let denom := m.parcelSize - stalls * pcLookup m.parking_sqft_d PC.surface
    if denom = 0 then none
    else
      let s := bulk / denom
      if s < 0 then none
      else if s > 5 then none
      else some (s / m.parcel_coverage)


/-- `SqFtProFormaReference._building_cost` at one entry: the height used
for the cost bracket is the raw (un-ceiled) story count times the
height-per-story; invalid stories give invalid cost. -/
def buildingCost (m : ProForma) (use_mix : List ℚ) (storiesRaw : Val) : Val :=
  match storiesRaw with
  | none => none
  | some s => some (dotQ
      (costRow m.costs (searchsorted m.heights_for_costs (s * m.height_per_story)))
      use_mix)


/-- `SqFtProFormaReference._construction_time` at one entry. -/
def constructionTime (m : ProForma) (use_mix : List ℚ) (total : ℚ) : ℚ :=
  dotQ
    (costRow m.construction_months
      (searchsorted m.construction_sqft_for_months total))
    use_mix


/-- One row of the reference table (`_reference_dataframe`), keyed by far.
`storiesRaw` is the un-ceiled story array the source keeps in a local
variable and feeds to `_building_cost`; the `stories` column itself is
its ceiling. -/
structure RefRow : Type where
  far : ℚ
  pclsz : ℚ
  building_sqft : ℚ
  spaces : ℚ
  park_sqft : ℚ
  total_built_sqft : ℚ
  parking_sqft_ratio : ℚ
  storiesRaw : Val
  stories : Val
  height : Val
  build_cost_sqft : Val
  build_cost : Val
  park_cost : ℚ
  cost : Val
  ave_cost_sqft : Val
  construction_months : ℚ
deriving DecidableEq


/-- `SqFtProFormaReference._reference_dataframe`, one far at a time. -/
def refRow (m : ProForma) (name : String) (use_mix : List ℚ) (pc : PC) (f : ℚ) :
    RefRow :=
  let bulk := buildingBulkAt m use_mix pc f
  let stalls := bulk * dotQ use_mix m.parking_rates / m.sqft_per_rate
  let sRaw := storiesOf m pc bulk stalls
  let psq : ℚ :=
    match pc with
    | PC.surface => 0
    | _ => stalls * pcLookup m.parking_sqft_d pc
  let pcost := pcLookup m.parking_cost_d pc * stalls * pcLookup m.parking_sqft_d pc
  let bcs := buildingCost m use_mix sRaw
  let total := bulk + psq
  let months := constructionTime m use_mix total
  let stories := sRaw.map np_ceil
  let height := stories.map (fun s => s * m.height_per_story)
  let bcost := bcs.map (fun x => x * bulk)
  let cost := bcost.map (fun x => x + pcost)
  let ave0 := cost.map (fun cst => cst / total * m.profit_factor)
  let ave := if (name = "retail" ∧ f > m.max_retail_height) ∨
      (name = "industrial" ∧ f > m.max_industrial_height) then none else ave0
  { far := f
    pclsz := m.parcelSize
    building_sqft := bulk
    spaces := stalls
    park_sqft := psq
    total_built_sqft := total
    parking_sqft_ratio := psq / total
    storiesRaw := sRaw
    stories := stories
    height := height
    build_cost_sqft := bcs
    build_cost := bcost
    park_cost := pcost
    cost := cost
    ave_cost_sqft := ave
    construction_months := months }


/-- The reference table for one form and parking configuration: one
`RefRow` per far of the configured grid. -/
def refTable (m : ProForma) (name : String) (pc : PC) : List RefRow :=
  m.fars.map (refRow m name (lookupD m.forms name []) pc)


/-- The full reference dictionary `reference_dict`, keyed by
(form, parking configuration); forms are visited in sorted key order as
in `_generate_reference`. -/
def reference (m : ProForma) : List ((String × PC) × List RefRow) :=
  ((sortedStrings (m.forms.map Prod.fst)).map
    (fun n => m.parking_configs.map (fun pc => ((n, pc), refTable m n pc)))).flatten


/-- A pandas DataFrame of per-site inputs: an index of site identifiers
and named columns of possibly-NaN cells. -/
structure DF : Type where
  ids : List String
  cols : List (String × List Val)
deriving DecidableEq


/-- Column names, as `df.columns`. -/
def DF.colNames (df : DF) : List String := df.cols.map Prod.fst


/-- Column membership, as `c in df.columns`. -/
def DF.hasCol (df : DF) (c : String) : Prop := c ∈ df.colNames


instance (df : DF) (c : String) : Decidable (df.hasCol c) := by
  unfold DF.hasCol
  infer_instance


/-- A whole column; a missing column is totalized to the empty column
(the source would raise a `KeyError`). -/
def DF.col (df : DF) (c : String) : List Val := lookupD df.cols c []


/-- One cell, by column name and site position. -/
def DF.cell (df : DF) (c : String) (i : ℕ) : Val := (df.col c).getD i none


/-- Overwrite a column in place, or append it if new, as pandas column
assignment `df[c] = v` does on the object itself. -/
def setCol : List (String × List Val) → String → List Val →
    List (String × List Val)
  | [], c, v => [(c, v)]
  | (k, w) :: t, c, v => if k = c then (c, v) :: t else (k, w) :: setCol t c v


/-- Column assignment on a DataFrame. -/
def DF.set (df : DF) (c : String) (v : List Val) : DF :=
  ⟨df.ids, setCol df.cols c v⟩


/-- `SqFtProForma._simple_zoning`: assigning `pd.Series()` to a column of
a non-empty frame fills it with NaN.  These assignments happen on the
very DataFrame object the caller passed to `lookup` (the internal copy is
only taken later, inside `_lookup_parking_cfg`). -/
def simpleZoning (form : String) (df : DF) : DF :=
  let empty : List Val := df.ids.map (fun _ => none)
  if form = "residential" then (df.set "max_far" empty).set "max_height" empty
  else (df.set "max_dua" empty).set "max_height" empty


/-- The error taxonomy of the engine, named as in the specification.  The
source realizes `MissingInputError` as a bare `assert` in
`_min_max_fars`. -/
inductive DevError : Type
  | MissingInputError : DevError
deriving DecidableEq


/-- `max_far_from_heights = max_height / height_per_story *
parcel_coverage`. -/
def maxFarFromHeights (m : ProForma) (df : DF) (i : ℕ) : Val :=
  vMul (vDiv (df.cell "max_height" i) (some m.height_per_story))
    (some m.parcel_coverage)


/-- `max_far_from_dua`: the zoning density cap converted to a far, as in
`_min_max_fars` (units per acre times parcel acreage times average unit
size, over efficiency, residential ratio and parcel size). -/
def maxFarFromDua (m : ProForma) (resratio : ℚ) (df : DF) (i : ℕ) : Val :=
  vDiv
    (vDiv
      (vDiv
        (vMul
          (vMul (df.cell "max_dua" i) (vDiv (df.cell "parcel_size" i) (some 43560)))
          (df.cell "ave_unit_size" i))
        (some m.building_efficiency))
      (some resratio))
    (df.cell "parcel_size" i)


/-- The branch condition of `_min_max_fars`: a density-cap column is
present and the form has a positive residential ratio. -/
def duaApplies (resratio : ℚ) (df : DF) : Prop :=
  df.hasCol "max_dua" ∧ resratio > 0


instance (resratio : ℚ) (df : DF) :
    Decidable (duaApplies resratio df) := by
  unfold duaApplies
  infer_instance


/-- The input-validation step of `_min_max_fars`: when the density-cap
branch applies, an average-unit-size column must be present
(the assert on the ave_unit_size column membership). -/
def duaCheck (resratio : ℚ) (df : DF) : Except DevError Unit :=
  if duaApplies resratio df then
    if df.hasCol "ave_unit_size" then Except.ok () else
      Except.error DevError.MissingInputError
  else Except.ok ()


/-- `min_max_fars` for one site: the skip-NaN minimum of the applicable
zoning caps. -/
def minMaxFars (m : ProForma) (resratio : ℚ) (df : DF) (i : ℕ) : Val :=
  if duaApplies resratio df then
    vMinSkipNa [maxFarFromHeights m df i, df.cell "max_far" i,
      maxFarFromDua m resratio df i]
  else
    vMinSkipNa [maxFarFromHeights m df i, df.cell "max_far" i]


/-- One candidate far for one site: the grid value, invalidated when it
exceeds the effective max far by more than the 0.01 tolerance or when the
reference height exceeds the zoned max height by more than 0.01 (each
comparison against a NaN is false and leaves the candidate alone). -/
def farCell (df : DF) (minmax : Val) (i : ℕ) (r : RefRow) : Val :=
  let f1 := if vGtPlus (some r.far) minmax (1/100) then none else some r.far
  if vGtPlus r.height (df.cell "max_height" i) (1/100) then none else f1


/-- All per-(far, site) intermediate arrays of `_lookup_parking_cfg`, for
one cell. -/
structure Cell : Type where
  far : Val
  bulk : Val
  bcost : Val
  tcc : Val
  fin : Val
  tdc : Val
  rev : Val
  profit : Val
  ratio : ℚ
  height : Val
  months : ℚ
deriving DecidableEq


/-- A cell of nothing, used only to totalize list indexing. -/
def dummyCell : Cell :=
  ⟨none, none, none, none, none, none, none, none, 0, none, 0⟩


/-- The profit computation of `_lookup_parking_cfg` for one far candidate
and one site. -/
def mkCell (m : ProForma) (df : DF) (i : ℕ) (minmax wrent : Val) (r : RefRow) :
    Cell :=
  let far := farCell df minmax i r
  let bulk := vMul far (df.cell "parcel_size" i)
  let bcost := vMul bulk r.ave_cost_sqft
  let tcc := vAdd bcost (df.cell "land_cost" i)
  let loan := vMul tcc (some m.loan_to_cost_ratio)
  let interest := vMul (vMul loan (some m.drawdown_factor))
    (some (m.interest_rate / 12 * r.construction_months))
  let points := vMul loan (some m.loan_fees)
  let fin := vAdd interest points
  let tdc := vAdd tcc fin
  let rev := vDiv
    (vMul (vMul (vMul bulk (some (1 - r.parking_sqft_ratio)))
      (some m.building_efficiency)) wrent)
    (some m.cap_rate)
  let profit := vSub rev tdc
  { far := far, bulk := bulk, bcost := bcost, tcc := tcc, fin := fin,
    tdc := tdc, rev := rev, profit := profit, ratio := r.parking_sqft_ratio,
    height := r.height, months := r.construction_months }


/-- `np.argmax` along the far axis after NaN profits were replaced by
negative infinity: the first index attaining the maximum, where `none`
(negative infinity) is below every rational.  On a tie the earlier index
wins, as in `np.argmax`; an all-bottom column selects index 0. -/
def argmaxProfit : List Val → ℕ
  | [] => 0
  | x :: t =>
      if vLt x (t.getD (argmaxProfit t) none) then argmaxProfit t + 1 else 0


/-- One output row per surviving site, with the columns emitted by
`_lookup_parking_cfg` (plus the pass-through fields). -/
structure OutRow : Type where
  id : String
  building_sqft : Val
  building_cost : Val
  parking_ratio : ℚ
  stories : Val
  total_cost : Val
  building_revenue : Val
  max_profit_far : Val
  max_profit : Val
  parking_config : PC
  construction_time : ℚ
  financing_cost : Val
  residential_sqft : Val
  non_residential_sqft : Val
  passThrough : List (String × Val)
deriving DecidableEq


/-- The output row of `_lookup_parking_cfg` for one site: all arrays are
indexed at the profit-maximizing far candidate. -/
def siteRow (m : ProForma) (pc : PC) (df : DF) (tbl : List RefRow)
    (mix : List ℚ) (resratio : ℚ) (i : ℕ) : OutRow :=
  let wrent := vDot (m.uses.map (fun u => df.cell u i)) mix
  let minmax := minMaxFars m resratio df i
  let cells := tbl.map (mkCell m df i minmax wrent)
  let j := argmaxProfit (cells.map (fun c => c.profit))
  let c := cells.getD j dummyCell
  { id := df.ids.getD i ""
    building_sqft := c.bulk
    building_cost := c.bcost
    parking_ratio := c.ratio
    stories := vDiv c.height (some m.height_per_story)
    total_cost := c.tdc
    building_revenue := c.rev
    max_profit_far := c.far
    max_profit := c.profit
    parking_config := pc
    construction_time := c.months
    financing_cost := c.fin
    residential_sqft := vMul (vMul c.bulk (some m.building_efficiency))
      (some resratio)
    non_residential_sqft := vMul (vMul c.bulk (some m.building_efficiency))
      (some (1 - resratio))
    passThrough := m.pass_through.map (fun cn => (cn, df.cell cn i)) }


/-- The final row filter of `_lookup_parking_cfg`: under `only_built`,
keep rows with positive profit; otherwise drop only rows whose profit is
still negative infinity (every candidate infeasible). -/
def keepRow (m : ProForma) (r : OutRow) : Bool :=
  if m.only_built then (if vPos r.max_profit then true else false)
  else r.max_profit.isSome


/-- `SqFtProForma._lookup_parking_cfg` (without caller hooks): compute the
zoning caps, apply the economically-built site filter, pick the best far
per site, and filter the rows.  The source computes the weighted rent
(from the per-use rent columns) and the height-derived far cap (from
`max_height`) before the density-cap check of `_min_max_fars`, and later
dereferences `max_far`, `parcel_size` and `land_cost`; on a table missing
one of those columns it raises a `KeyError`/`AttributeError` that this
embedding does not model (`DF.col` totalizes a missing column to NaN).
The embedding is therefore faithful only on tables that carry those
columns, and the input-validation claims below are stated under exactly
that proviso. -/
def lookupParkingCfg (m : ProForma) (form : String) (pc : PC) (df : DF) :
    Except DevError (List OutRow) :=
  let mix := lookupD m.forms form []
  let resratio := lookupD m.res_ratios form 0
  let tbl := refTable m form pc
  match duaCheck resratio df with
  | Except.error e => Except.error e
  | Except.ok _ =>
    let sites0 := List.range df.ids.length
    let sites := if m.only_built then
        sites0.filter (fun i =>
          if vPos (minMaxFars m resratio df i) ∧ vPos (df.cell "parcel_size" i)
          then true else false)
      else sites0
    Except.ok ((sites.map (siteRow m pc df tbl mix resratio)).filter (keepRow m))


/-- The candidate rows of one site across parking configurations, in the
lexicographic configuration order that `pandas.pivot` gives its columns. -/
def candRows (rows : List OutRow) (id : String) : List OutRow :=
  pcSorted.filterMap (fun pc =>
    rows.find? (fun r =>
      if r.id = id ∧ r.parking_config = pc then true else false))


/-- One step of the `idxmax` scan over the parking-configuration columns:
keep the current best row unless the next row has strictly larger
profit. -/
def pickBest (best : Option OutRow) (r : OutRow) : Option OutRow :=
  match best with
  | none => some r
  | some b => if vLt b.max_profit r.max_profit then some r else some b


/-- `idxmax` over the parking-configuration columns for one site: the
first row (in sorted configuration order) attaining the maximal profit. -/
def bestRowFor (rows : List OutRow) (id : String) : Option OutRow :=
  (candRows rows id).foldl pickBest none


/-- `SqFtProForma._max_profit_parking`: per site (the pivot sorts the
site index), keep the row of the profit-maximizing parking
configuration. -/
def maxProfitParking (rows : List OutRow) : List OutRow :=
  (sortedStrings (rows.map (fun r => r.id)).dedup).filterMap (bestRowFor rows)


/-- The residential-to-yearly adjustment at the end of `lookup`: the
pass-through residential column is divided by the cap rate. -/
def residentialYearly (m : ProForma) (r : OutRow) : OutRow :=
  { r with passThrough := r.passThrough.map (fun p =>
      if p.1 = "residential" then (p.1, vDiv p.2 (some m.cap_rate)) else p) }


/-- Concatenation over the configured parking configurations, stopping at
the first input error, as the generator inside `pd.concat` would. -/
def lookupConfigs (m : ProForma) (form : String) (df : DF) :
    List PC → Except DevError (List OutRow)
  | [] => Except.ok []
  | pc :: t =>
    match lookupParkingCfg m form pc df, lookupConfigs m form df t with
    | Except.error e, _ => Except.error e
    | Except.ok _, Except.error e => Except.error e
    | Except.ok rows, Except.ok rest => Except.ok (rows ++ rest)


/-- The body of `SqFtProForma.lookup` after the simple-zoning step: the
per-configuration results are concatenated, an empty concatenation
returns the empty table, otherwise the best parking configuration is
selected per site and the residential pass-through column is annualized
when configured. -/
def lookupRun (m : ProForma) (form : String) (df : DF) :
    Except DevError (List OutRow) :=
  match lookupConfigs m form df m.parking_configs with
  | Except.error e => Except.error e
  | Except.ok all =>
    if all.isEmpty then Except.ok []
    else
      let result := maxProfitParking all
      if m.residential_to_yearly ∧ "residential" ∈ m.pass_through then
        Except.ok (result.map (residentialYearly m))
      else Except.ok result


/-- The DataFrame object the caller passed, after the simple-zoning step
has (possibly) mutated it in place. -/
def dfAfterZoning (m : ProForma) (form : String) (df : DF) : DF :=
  if m.simple_zoning then simpleZoning form df else df


/-- `SqFtProForma.lookup` (without caller hooks).  The second component is
the DataFrame object the caller holds after the call: `_simple_zoning`
mutates the passed object itself, while everything afterwards works on
the internal copy taken at the top of `_lookup_parking_cfg`. -/
def lookup (m : ProForma) (form : String) (df : DF) :
    Except DevError (List OutRow) × DF :=
  (lookupRun m form (dfAfterZoning m form df), dfAfterZoning m form df)


/-- `SqFtProForma.get_defaults()`, as exact rationals.  Dictionary entries
appear in the insertion order of the source literal. -/
def defaultConfig : RawConfig where
  parcel_sizes := [10000]
  fars := [1/10, 1/4, 1/2, 3/4, 1, 3/2, 9/5, 2, 9/4, 5/2, 11/4, 3, 13/4,
    7/2, 15/4, 4, 9/2, 5, 11/2, 6, 13/2, 7, 9, 11]
  uses := ["retail", "industrial", "office", "residential"]
  residential_uses := [false, false, false, true]
  forms := [("industrial", [("industrial", 1)]),
    ("mixedoffice", [("office", 7/10), ("residential", 3/10)]),
    ("mixedresidential", [("residential", 9/10), ("retail", 1/10)]),
    ("office", [("office", 1)]),
    ("residential", [("residential", 1)]),
    ("retail", [("retail", 1)])]
  profit_factor := 11/10
  building_efficiency := 7/10
  parcel_coverage := 4/5
  cap_rate := 1/20
  parking_rates := [("industrial", 3/5), ("office", 1), ("residential", 1),
    ("retail", 2)]
  sqft_per_rate := 1000
  parking_configs := [PC.surface, PC.deck, PC.underground]
  costs := [("industrial", [140, 175, 200, 230]),
    ("office", [160, 175, 200, 230]),
    ("residential", [170, 190, 210, 240]),
    ("retail", [160, 175, 200, 230])]
  heights_for_costs := [QInf.val 15, QInf.val 55, QInf.val 120, QInf.inf]
  parking_sqft_d := [(PC.deck, 250), (PC.surface, 300), (PC.underground, 250)]
  parking_cost_d := [(PC.deck, 90), (PC.surface, 30), (PC.underground, 110)]
  height_per_story := 12
  max_retail_height := 2
  max_industrial_height := 2
  construction_months := [("industrial", [12, 14, 18, 24]),
    ("office", [12, 14, 18, 24]),
    ("residential", [12, 14, 18, 24]),
    ("retail", [12, 14, 18, 24])]
  construction_sqft_for_months := [QInf.val 10000, QInf.val 20000,
    QInf.val 50000, QInf.inf]
  loan_to_cost_ratio := 7/10
  drawdown_factor := 3/5
  interest_rate := 1/20
  loan_fees := 1/50
  residential_to_yearly := true
  forms_to_test := some ["industrial", "mixedoffice", "mixedresidential",
    "office", "residential", "retail"]
  only_built := true
  pass_through := []
  simple_zoning := false
  parcel_filter := none


/-- The default engine state. -/
def pfDef : ProForma := mkProForma defaultConfig


/-- The validation the specification lists for Parameter Set
construction, written from the words of the spec: all floor-area ratios
in (0, 20]; parking rate per use in [0, 5); parking area-per-stall in
[50, 1000]; parking cost-per-area in [10, 300]; height breakpoints in
[0, 1000] with an infinite terminal value allowed; cost-per-area entries
in (10, 1000). -/
def checkIsReasonableSpec (c : RawConfig) : Prop :=
  (∀ f ∈ c.fars, 0 < f ∧ f ≤ 20) ∧
  (∀ p ∈ c.parking_rates, 0 ≤ p.2 ∧ p.2 < 5) ∧
  (∀ p ∈ c.parking_sqft_d, 50 ≤ p.2 ∧ p.2 ≤ 1000) ∧
  parkingCostRangeSpec c ∧
  (∀ h ∈ c.heights_for_costs, heightBpOk h) ∧
  (∀ p ∈ c.costs, ∀ i ∈ p.2, 10 < i ∧ i < 1000)


/-- The default configuration with the surface parking cost-per-area set
to 500, far outside the [10, 300] range the spec requires. -/
def badCostConfig : RawConfig :=
  { defaultConfig with
    parking_cost_d := [(PC.deck, 90), (PC.surface, 500), (PC.underground, 110)] }


/-- The default configuration with the surface parking area-per-stall set
to 400, inside the [50, 1000] range the spec requires for it. -/
def bigStallConfig : RawConfig :=
  { defaultConfig with
    parking_sqft_d := [(PC.deck, 250), (PC.surface, 400), (PC.underground, 250)] }


/-- The default engine with simplified zoning switched on. -/
def pfSZ : ProForma := { pfDef with simple_zoning := true }


/-- A one-site table with real zoning columns, for the mutation claims. -/
def dfC3 : DF := ⟨["a"], [("max_far", [some 2]), ("max_height", [some 80])]⟩


/-- A site table carrying every column `_lookup_parking_cfg` dereferences
unconditionally (the per-use rents for the weighted rent, `max_height`,
`max_far`, `parcel_size`, `land_cost`), plus a density-cap column and no
average-unit-size column.  The zero parcel size makes the economically
built filter drop the site, so a non-failing call returns the empty
table. -/
def dfC7 : DF :=
  ⟨["a"],
   [("residential", [some 30]),
    ("office", [some 15]),
    ("retail", [some 12]),
    ("industrial", [some 12]),
    ("land_cost", [some 100000]),
    ("parcel_size", [some 0]),
    ("max_far", [some 2]),
    ("max_height", [some 80]),
    ("max_dua", [some 10])]⟩


/-- The columns `_lookup_parking_cfg` dereferences unconditionally: the
per-use rent columns (for the weighted rent), `max_height` (for the
height-derived far cap), `max_far` (read by `_min_max_fars` in both
branches), `parcel_size` and `land_cost`.  On a table missing one of
these the source raises before (or regardless of) the density-cap
check, a failure mode outside this embedding. -/
def hasLookupCols (m : ProForma) (df : DF) : Prop :=
  (∀ u ∈ m.uses, df.hasCol u) ∧ df.hasCol "max_height" ∧
  df.hasCol "max_far" ∧ df.hasCol "parcel_size" ∧ df.hasCol "land_cost"


/-- Order on breakpoints, with the infinite breakpoint on top. -/
def qinfLe (a b : QInf) : Prop :=
  match a, b with
  | _, QInf.inf => True
  | QInf.inf, QInf.val _ => False
  | QInf.val x, QInf.val y => x ≤ y


/-- The cost-per-area rule in the words of the specification: the bracket
is looked up with the building height defined as ceiling(stories) times
height-per-story (which is exactly the recorded `height` column).
Written from the spec for comparison with `buildingCost`, which uses the
un-ceiled stories. -/
def buildingCostSpec (m : ProForma) (use_mix : List ℚ) (storiesRaw : Val) :
    Val :=
  match storiesRaw with
  | none => none
  | some s => some (dotQ
      (costRow m.costs
        (searchsorted m.heights_for_costs (np_ceil s * m.height_per_story)))
      use_mix)


/-- A minimal declarative bundle: one use, one form, one far, surface
parking only.  Used to exercise a full lookup concretely. -/
def tinyConfig : RawConfig where
  parcel_sizes := [1000]
  fars := [1]
  uses := ["residential"]
  residential_uses := [true]
  forms := [("residential", [("residential", 1)])]
  profit_factor := 1
  building_efficiency := 1
  parcel_coverage := 4/5
  cap_rate := 1/20
  parking_rates := [("residential", 0)]
  sqft_per_rate := 1000
  parking_configs := [PC.surface]
  costs := [("residential", [100])]
  heights_for_costs := [QInf.inf]
  parking_sqft_d := [(PC.deck, 250), (PC.surface, 300), (PC.underground, 250)]
  parking_cost_d := [(PC.deck, 90), (PC.surface, 30), (PC.underground, 110)]
  height_per_story := 12
  max_retail_height := 2
  max_industrial_height := 2
  construction_months := [("residential", [12])]
  construction_sqft_for_months := [QInf.inf]
  loan_to_cost_ratio := 1/2
  drawdown_factor := 1/2
  interest_rate := 1/10
  loan_fees := 1/50
  residential_to_yearly := false
  forms_to_test := some ["residential"]
  only_built := true
  pass_through := []
  simple_zoning := false
  parcel_filter := none


/-- The engine of the minimal bundle. -/
def tinyPf : ProForma := mkProForma tinyConfig


/-- A one-site table for the minimal engine (zoned max far 2, no height
limit). -/
def tinyDf : DF := ⟨["a"], [("residential", [some 100]),
  ("land_cost", [some 1]), ("parcel_size", [some 1000]),
  ("max_far", [some 2]), ("max_height", [none])]⟩


/-- The single reference row of the minimal engine. -/
def tinyRefRow : RefRow where
  far := 1
  pclsz := 1000
  building_sqft := 1000
  spaces := 0
  park_sqft := 0
  total_built_sqft := 1000
  parking_sqft_ratio := 0
  storiesRaw := some (5/4)
  stories := some 2
  height := some 24
  build_cost_sqft := some 100
  build_cost := some 100000
  park_cost := 0
  cost := some 100000
  ave_cost_sqft := some 100
  construction_months := 12


/-- The single output row of the minimal lookup. -/
def tinyRow : OutRow where
  id := "a"
  building_sqft := some 1000
  building_cost := some 100000
  parking_ratio := 0
  stories := some 2
  total_cost := some (20700207/200)
  building_revenue := some 2000000
  max_profit_far := some 1
  max_profit := some (379299793/200)
  parking_config := PC.surface
  construction_time := 12
  financing_cost := some (700007/200)
  residential_sqft := some 1000
  non_residential_sqft := some 0
  passThrough := []


/-- The per-cell quantities of the minimal engine at its single site and
single far candidate. -/
def tinyCell : Cell where
  far := some 1
  bulk := some 1000
  bcost := some 100000
  tcc := some 100001
  fin := some (700007/200)
  tdc := some (20700207/200)
  rev := some 2000000
  profit := some (379299793/200)
  ratio := 0
  height := some 24
  months := 12


/-- The three-site table of the feasibility scenario: residential rents
30/20/10, office 15, retail 12, industrial 12, land cost 100000, parcel
size 1000, max far 2 and max height 80 on every site. -/
def dfC1 : DF :=
  ⟨["a", "b", "c"],
   [("residential", [some 30, some 20, some 10]),
    ("office", [some 15, some 15, some 15]),
    ("retail", [some 12, some 12, some 12]),
    ("industrial", [some 12, some 12, some 12]),
    ("land_cost", [some 100000, some 100000, some 100000]),
    ("parcel_size", [some 1000, some 1000, some 1000]),
    ("max_far", [some 2, some 2, some 2]),
    ("max_height", [some 80, some 80, some 80])]⟩


/-- The residential/surface reference table of the default engine. -/
def tblC1S : List RefRow :=
  [⟨1/10, 10000, 1000, 1, 0, 1000, 0, some (25/194), some (1), some (12), some (170), some (170000), 9000, some (179000), some (1969/10), 12⟩,
   ⟨1/4, 10000, 2500, 5/2, 0, 2500, 0, some (25/74), some (1), some (12), some (170), some (425000), 22500, some (447500), some (1969/10), 12⟩,
   ⟨1/2, 10000, 5000, 5, 0, 5000, 0, some (25/34), some (1), some (12), some (170), some (850000), 45000, some (895000), some (1969/10), 12⟩,
   ⟨3/4, 10000, 7500, 15/2, 0, 7500, 0, some (75/62), some (2), some (24), some (170), some (1275000), 67500, some (1342500), some (1969/10), 12⟩,
   ⟨1, 10000, 10000, 10, 0, 10000, 0, some (25/14), some (2), some (24), some (190), some (1900000), 90000, some (1990000), some (2189/10), 12⟩,
   ⟨3/2, 10000, 15000, 15, 0, 15000, 0, some (75/22), some (4), some (48), some (190), some (2850000), 135000, some (2985000), some (2189/10), 14⟩,
   ⟨9/5, 10000, 18000, 18, 0, 18000, 0, some (225/46), some (5), some (60), some (210), some (3780000), 162000, some (3942000), some (2409/10), 14⟩,
   ⟨2, 10000, 20000, 20, 0, 20000, 0, some (25/4), some (7), some (84), some (210), some (4200000), 180000, some (4380000), some (2409/10), 14⟩,
   ⟨9/4, 10000, 22500, 45/2, 0, 22500, 0, none, none, none, none, none, 202500, none, none, 18⟩,
   ⟨5/2, 10000, 25000, 25, 0, 25000, 0, none, none, none, none, none, 225000, none, none, 18⟩,
   ⟨11/4, 10000, 27500, 55/2, 0, 27500, 0, none, none, none, none, none, 247500, none, none, 18⟩,
   ⟨3, 10000, 30000, 30, 0, 30000, 0, none, none, none, none, none, 270000, none, none, 18⟩,
   ⟨13/4, 10000, 32500, 65/2, 0, 32500, 0, none, none, none, none, none, 292500, none, none, 18⟩,
   ⟨7/2, 10000, 35000, 35, 0, 35000, 0, none, none, none, none, none, 315000, none, none, 18⟩,
   ⟨15/4, 10000, 37500, 75/2, 0, 37500, 0, none, none, none, none, none, 337500, none, none, 18⟩,
   ⟨4, 10000, 40000, 40, 0, 40000, 0, none, none, none, none, none, 360000, none, none, 18⟩,
   ⟨9/2, 10000, 45000, 45, 0, 45000, 0, none, none, none, none, none, 405000, none, none, 18⟩,
   ⟨5, 10000, 50000, 50, 0, 50000, 0, none, none, none, none, none, 450000, none, none, 18⟩,
   ⟨11/2, 10000, 55000, 55, 0, 55000, 0, none, none, none, none, none, 495000, none, none, 24⟩,
   ⟨6, 10000, 60000, 60, 0, 60000, 0, none, none, none, none, none, 540000, none, none, 24⟩,
   ⟨13/2, 10000, 65000, 65, 0, 65000, 0, none, none, none, none, none, 585000, none, none, 24⟩,
   ⟨7, 10000, 70000, 70, 0, 70000, 0, none, none, none, none, none, 630000, none, none, 24⟩,
   ⟨9, 10000, 90000, 90, 0, 90000, 0, none, none, none, none, none, 810000, none, none, 24⟩,
   ⟨11, 10000, 110000, 110, 0, 110000, 0, none, none, none, none, none, 990000, none, none, 24⟩]


/-- The residential/deck reference table of the default engine. -/
def tblC1D : List RefRow :=
  [⟨1/10, 10000, 800, 4/5, 200, 1000, 1/5, some (1/8), some (1), some (12), some (170), some (136000), 18000, some (154000), some (847/5), 12⟩,
   ⟨1/4, 10000, 2000, 2, 500, 2500, 1/5, some (5/16), some (1), some (12), some (170), some (340000), 45000, some (385000), some (847/5), 12⟩,
   ⟨1/2, 10000, 4000, 4, 1000, 5000, 1/5, some (5/8), some (1), some (12), some (170), some (680000), 90000, some (770000), some (847/5), 12⟩,
   ⟨3/4, 10000, 6000, 6, 1500, 7500, 1/5, some (15/16), some (1), some (12), some (170), some (1020000), 135000, some (1155000), some (847/5), 12⟩,
   ⟨1, 10000, 8000, 8, 2000, 10000, 1/5, some (5/4), some (2), some (24), some (170), some (1360000), 180000, some (1540000), some (847/5), 12⟩,
   ⟨3/2, 10000, 12000, 12, 3000, 15000, 1/5, some (15/8), some (2), some (24), some (190), some (2280000), 270000, some (2550000), some (187), 14⟩,
   ⟨9/5, 10000, 14400, 72/5, 3600, 18000, 1/5, some (9/4), some (3), some (36), some (190), some (2736000), 324000, some (3060000), some (187), 14⟩,
   ⟨2, 10000, 16000, 16, 4000, 20000, 1/5, some (5/2), some (3), some (36), some (190), some (3040000), 360000, some (3400000), some (187), 14⟩,
   ⟨9/4, 10000, 18000, 18, 4500, 22500, 1/5, some (45/16), some (3), some (36), some (190), some (3420000), 405000, some (3825000), some (187), 18⟩,
   ⟨5/2, 10000, 20000, 20, 5000, 25000, 1/5, some (25/8), some (4), some (48), some (190), some (3800000), 450000, some (4250000), some (187), 18⟩,
   ⟨11/4, 10000, 22000, 22, 5500, 27500, 1/5, some (55/16), some (4), some (48), some (190), some (4180000), 495000, some (4675000), some (187), 18⟩,
   ⟨3, 10000, 24000, 24, 6000, 30000, 1/5, some (15/4), some (4), some (48), some (190), some (4560000), 540000, some (5100000), some (187), 18⟩,
   ⟨13/4, 10000, 26000, 26, 6500, 32500, 1/5, some (65/16), some (5), some (60), some (190), some (4940000), 585000, some (5525000), some (187), 18⟩,
   ⟨7/2, 10000, 28000, 28, 7000, 35000, 1/5, some (35/8), some (5), some (60), some (190), some (5320000), 630000, some (5950000), some (187), 18⟩,
   ⟨15/4, 10000, 30000, 30, 7500, 37500, 1/5, some (75/16), some (5), some (60), some (210), some (6300000), 675000, some (6975000), some (1023/5), 18⟩,
   ⟨4, 10000, 32000, 32, 8000, 40000, 1/5, some (5), some (5), some (60), some (210), some (6720000), 720000, some (7440000), some (1023/5), 18⟩,
   ⟨9/2, 10000, 36000, 36, 9000, 45000, 1/5, some (45/8), some (6), some (72), some (210), some (7560000), 810000, some (8370000), some (1023/5), 18⟩,
   ⟨5, 10000, 40000, 40, 10000, 50000, 1/5, some (25/4), some (7), some (84), some (210), some (8400000), 900000, some (9300000), some (1023/5), 18⟩,
   ⟨11/2, 10000, 44000, 44, 11000, 55000, 1/5, some (55/8), some (7), some (84), some (210), some (9240000), 990000, some (10230000), some (1023/5), 24⟩,
   ⟨6, 10000, 48000, 48, 12000, 60000, 1/5, some (15/2), some (8), some (96), some (210), some (10080000), 1080000, some (11160000), some (1023/5), 24⟩,
   ⟨13/2, 10000, 52000, 52, 13000, 65000, 1/5, some (65/8), some (9), some (108), some (210), some (10920000), 1170000, some (12090000), some (1023/5), 24⟩,
   ⟨7, 10000, 56000, 56, 14000, 70000, 1/5, some (35/4), some (9), some (108), some (210), some (11760000), 1260000, some (13020000), some (1023/5), 24⟩,
   ⟨9, 10000, 72000, 72, 18000, 90000, 1/5, some (45/4), some (12), some (144), some (240), some (17280000), 1620000, some (18900000), some (231), 24⟩,
   ⟨11, 10000, 88000, 88, 22000, 110000, 1/5, some (55/4), some (14), some (168), some (240), some (21120000), 1980000, some (23100000), some (231), 24⟩]


/-- The residential/underground reference table of the default engine. -/
def tblC1U : List RefRow :=
  [⟨1/10, 10000, 1000, 1, 250, 1250, 1/5, some (1/8), some (1), some (12), some (170), some (170000), 27500, some (197500), some (869/5), 12⟩,
   ⟨1/4, 10000, 2500, 5/2, 625, 3125, 1/5, some (5/16), some (1), some (12), some (170), some (425000), 68750, some (493750), some (869/5), 12⟩,
   ⟨1/2, 10000, 5000, 5, 1250, 6250, 1/5, some (5/8), some (1), some (12), some (170), some (850000), 137500, some (987500), some (869/5), 12⟩,
   ⟨3/4, 10000, 7500, 15/2, 1875, 9375, 1/5, some (15/16), some (1), some (12), some (170), some (1275000), 206250, some (1481250), some (869/5), 12⟩,
   ⟨1, 10000, 10000, 10, 2500, 12500, 1/5, some (5/4), some (2), some (24), some (170), some (1700000), 275000, some (1975000), some (869/5), 14⟩,
   ⟨3/2, 10000, 15000, 15, 3750, 18750, 1/5, some (15/8), some (2), some (24), some (190), some (2850000), 412500, some (3262500), some (957/5), 14⟩,
   ⟨9/5, 10000, 18000, 18, 4500, 22500, 1/5, some (9/4), some (3), some (36), some (190), some (3420000), 495000, some (3915000), some (957/5), 18⟩,
   ⟨2, 10000, 20000, 20, 5000, 25000, 1/5, some (5/2), some (3), some (36), some (190), some (3800000), 550000, some (4350000), some (957/5), 18⟩,
   ⟨9/4, 10000, 22500, 45/2, 5625, 28125, 1/5, some (45/16), some (3), some (36), some (190), some (4275000), 618750, some (4893750), some (957/5), 18⟩,
   ⟨5/2, 10000, 25000, 25, 6250, 31250, 1/5, some (25/8), some (4), some (48), some (190), some (4750000), 687500, some (5437500), some (957/5), 18⟩,
   ⟨11/4, 10000, 27500, 55/2, 6875, 34375, 1/5, some (55/16), some (4), some (48), some (190), some (5225000), 756250, some (5981250), some (957/5), 18⟩,
   ⟨3, 10000, 30000, 30, 7500, 37500, 1/5, some (15/4), some (4), some (48), some (190), some (5700000), 825000, some (6525000), some (957/5), 18⟩,
   ⟨13/4, 10000, 32500, 65/2, 8125, 40625, 1/5, some (65/16), some (5), some (60), some (190), some (6175000), 893750, some (7068750), some (957/5), 18⟩,
   ⟨7/2, 10000, 35000, 35, 8750, 43750, 1/5, some (35/8), some (5), some (60), some (190), some (6650000), 962500, some (7612500), some (957/5), 18⟩,
   ⟨15/4, 10000, 37500, 75/2, 9375, 46875, 1/5, some (75/16), some (5), some (60), some (210), some (7875000), 1031250, some (8906250), some (209), 18⟩,
   ⟨4, 10000, 40000, 40, 10000, 50000, 1/5, some (5), some (5), some (60), some (210), some (8400000), 1100000, some (9500000), some (209), 18⟩,
   ⟨9/2, 10000, 45000, 45, 11250, 56250, 1/5, some (45/8), some (6), some (72), some (210), some (9450000), 1237500, some (10687500), some (209), 24⟩,
   ⟨5, 10000, 50000, 50, 12500, 62500, 1/5, some (25/4), some (7), some (84), some (210), some (10500000), 1375000, some (11875000), some (209), 24⟩,
   ⟨11/2, 10000, 55000, 55, 13750, 68750, 1/5, some (55/8), some (7), some (84), some (210), some (11550000), 1512500, some (13062500), some (209), 24⟩,
   ⟨6, 10000, 60000, 60, 15000, 75000, 1/5, some (15/2), some (8), some (96), some (210), some (12600000), 1650000, some (14250000), some (209), 24⟩,
   ⟨13/2, 10000, 65000, 65, 16250, 81250, 1/5, some (65/8), some (9), some (108), some (210), some (13650000), 1787500, some (15437500), some (209), 24⟩,
   ⟨7, 10000, 70000, 70, 17500, 87500, 1/5, some (35/4), some (9), some (108), some (210), some (14700000), 1925000, some (16625000), some (209), 24⟩,
   ⟨9, 10000, 90000, 90, 22500, 112500, 1/5, some (45/4), some (12), some (144), some (240), some (21600000), 2475000, some (24075000), some (1177/5), 24⟩,
   ⟨11, 10000, 110000, 110, 27500, 137500, 1/5, some (55/4), some (14), some (168), some (240), some (26400000), 3025000, some (29425000), some (1177/5), 24⟩]


/-- The output row of site 0 for the surface configuration. -/
def C1rowS0 : OutRow :=
  ⟨"a", some (1800), some (433620), 0, some (5),
   some (55416437/100), some (756000), some (9/5), some (20183563/100),
   PC.surface, 14, some (2054437/100), some (1260),
   some (0), []⟩


/-- The output row of site 1 for the surface configuration. -/
def C1rowS1 : OutRow :=
  ⟨"b", some (1500), some (328350), 0, some (4),
   some (17793659/40), some (420000), some (3/2), some ((-993659/40)),
   PC.surface, 14, some (659659/40), some (1050),
   some (0), []⟩


/-- The output row of site 2 for the surface configuration. -/
def C1rowS2 : OutRow :=
  ⟨"c", some (100), some (19690), 0, some (1),
   some (2477583/20), some (14000), some (1/10), some ((-2197583/20)),
   PC.surface, 12, some (83783/20), some (70),
   some (0), []⟩


/-- The output row of site 0 for the deck configuration. -/
def C1rowD0 : OutRow :=
  ⟨"a", some (2000), some (374000), 1/5, some (3),
   some (492249), some (672000), some (2), some (179751),
   PC.deck, 14, some (18249), some (1400),
   some (0), []⟩


/-- The output row of site 1 for the deck configuration. -/
def C1rowD1 : OutRow :=
  ⟨"b", some (2000), some (374000), 1/5, some (3),
   some (492249), some (448000), some (2), some ((-44249)),
   PC.deck, 14, some (18249), some (1400),
   some (0), []⟩


/-- The output row of site 2 for the deck configuration. -/
def C1rowD2 : OutRow :=
  ⟨"c", some (100), some (16940), 1/5, some (1),
   some (1210329/10), some (11200), some (1/10), some ((-1098329/10)),
   PC.deck, 12, some (40929/10), some (70),
   some (0), []⟩


/-- The output row of site 0 for the underground configuration. -/
def C1rowU0 : OutRow :=
  ⟨"a", some (2000), some (382800), 1/5, some (3),
   some (2523837/5), some (672000), some (2), some (836163/5),
   PC.underground, 18, some (109837/5), some (1400),
   some (0), []⟩


/-- The output row of site 1 for the underground configuration. -/
def C1rowU1 : OutRow :=
  ⟨"b", some (2000), some (382800), 1/5, some (3),
   some (2523837/5), some (448000), some (2), some ((-283837/5)),
   PC.underground, 18, some (109837/5), some (1400),
   some (0), []⟩


/-- The output row of site 2 for the underground configuration. -/
def C1rowU2 : OutRow :=
  ⟨"c", some (100), some (17380), 1/5, some (1),
   some (1214883/10), some (11200), some (1/10), some ((-1102883/10)),
   PC.underground, 12, some (41083/10), some (70),
   some (0), []⟩


/-- C2: the claim says Parameter Set construction validates every range
the spec lists, in particular every parking cost-per-area value lies in
[10, 300], and that an out-of-range field fails construction.  In the
source, the second loop of `check_is_reasonable` over
`parking_sqft_d.items()` re-checks the stall areas against [10, 300]
instead of checking `parking_cost_d`: a surface parking cost of 500
passes construction although the spec range forbids it, and a surface
stall area of 400 fails construction although every spec range holds. -/
theorem C2_parking_cost_validation_bug :
    (checkIsReasonable badCostConfig ∧ ¬ parkingCostRangeSpec badCostConfig) ∧
    (¬ checkIsReasonable bigStallConfig ∧ checkIsReasonableSpec bigStallConfig) := by
  refine ⟨⟨?_, ?_⟩, ?_, ?_⟩
  · simp only [checkIsReasonable, heightBpOk, badCostConfig, defaultConfig]
    norm_num
  · simp only [parkingCostRangeSpec, badCostConfig, defaultConfig]
    norm_num
  · simp only [checkIsReasonable, heightBpOk, bigStallConfig, defaultConfig]
    norm_num
  · simp only [checkIsReasonableSpec, parkingCostRangeSpec, heightBpOk,
      bigStallConfig, defaultConfig]
    norm_num


/-- C3 counterexample: the claim that the table supplied by the caller is
unchanged after every lookup call, under every configuration including
simple-zoning mode, fails: with `simple_zoning` enabled,
`_simple_zoning` overwrites columns of the very object the caller passed
in before the internal copy is taken, so the caller-held table after the
call differs from the one passed in. -/
theorem C3_counterexample :
    (lookup pfSZ "residential" dfC3).2 ≠ dfC3 := by
  intro h
  have h2 := congrArg (fun d => DF.col d "max_far") h
  simp only [lookup, dfAfterZoning, pfSZ, pfDef] at h2
  simp [mkProForma, defaultConfig, simpleZoning, dfC3, DF.set, setCol,
    DF.col, lookupD] at h2


/-- C3 amended: with simple-zoning mode disabled, the caller-held table
after a lookup call is exactly the table passed in, for every engine
state, form and table; only simple-zoning mode mutates the caller-held
object (as `C3_counterexample` exhibits). -/
theorem C3_no_mutation_without_simple_zoning (m : ProForma) (form : String)
    (df : DF) (h : m.simple_zoning = false) : (lookup m form df).2 = df := by
  simp [lookup, dfAfterZoning, h]


/-- Witness for `C3_no_mutation_without_simple_zoning` at the default
engine. -/
theorem C3_no_mutation_witness :
    pfDef.simple_zoning = false ∧ (lookup pfDef "residential" dfC3).2 = dfC3 :=
  ⟨rfl, C3_no_mutation_without_simple_zoning pfDef "residential" dfC3 rfl⟩


/-- Column membership after a pandas column assignment: the assigned name
is present, everything previously present stays present. -/
theorem mem_setCol (l : List (String × List Val)) (c c2 : String)
    (v : List Val) :
    c2 ∈ (setCol l c v).map Prod.fst ↔ c2 = c ∨ c2 ∈ l.map Prod.fst := by
  induction l with
  | nil => simp [setCol]
  | cons p t ih =>
    obtain ⟨k, w⟩ := p
    by_cases hk : k = c
    · subst hk
      simp [setCol]
    · simp only [setCol, if_neg hk, List.map_cons, List.mem_cons, ih]
      tauto


/-- Column membership after a column assignment, at the DataFrame level. -/
theorem hasCol_set (df : DF) (c c2 : String) (v : List Val) :
    (df.set c v).hasCol c2 ↔ c2 = c ∨ df.hasCol c2 :=
  mem_setCol df.cols c c2 v


/-- Column membership after the simple-zoning rewrite. -/
theorem hasCol_simpleZoning (form : String) (df : DF) (c : String) :
    (simpleZoning form df).hasCol c ↔
      (if form = "residential" then c = "max_far" else c = "max_dua") ∨
      c = "max_height" ∨ df.hasCol c := by
  by_cases h : form = "residential" <;>
    simp [simpleZoning, h, hasCol_set] <;> tauto


/-- The canonical use order of the default engine. -/
theorem pfDef_uses :
    pfDef.uses = ["retail", "industrial", "office", "residential"] := rfl


/-- The parking configurations of the default engine, in configured
order. -/
theorem pfDef_parking_configs :
    pfDef.parking_configs = [PC.surface, PC.deck, PC.underground] := rfl


/-- The converted form vectors of the default engine, aligned to the
canonical use order. -/
theorem pfDef_forms : pfDef.forms =
    [("industrial", [0, 1, 0, 0]), ("mixedoffice", [0, 0, 7/10, 3/10]),
     ("mixedresidential", [1/10, 0, 0, 9/10]), ("office", [0, 0, 1, 0]),
     ("residential", [0, 0, 0, 1]), ("retail", [1, 0, 0, 0])] := by
  simp [pfDef, mkProForma, defaultConfig, normalizeVec, formVec, lookupD]
  norm_num


/-- The derived residential ratios of the default engine. -/
theorem pfDef_res_ratios : pfDef.res_ratios =
    [("industrial", 0), ("mixedoffice", 3/10), ("mixedresidential", 9/10),
     ("office", 0), ("residential", 1), ("retail", 0)] := by
  simp [pfDef, mkProForma, defaultConfig, maskedSum, normalizeVec,
    formVec, lookupD]
  norm_num


/-- The converted parking-rate vector of the default engine. -/
theorem pfDef_parking_rates : pfDef.parking_rates = [2, 3/5, 1, 1] := by
  simp [pfDef, mkProForma, defaultConfig, lookupD]


/-- The cost matrix of the default engine, use-major. -/
theorem pfDef_costs : pfDef.costs =
    [[160, 175, 200, 230], [140, 175, 200, 230], [160, 175, 200, 230],
     [170, 190, 210, 240]] := by
  simp [pfDef, mkProForma, defaultConfig, lookupD]


/-- The construction-month matrix of the default engine, use-major. -/
theorem pfDef_months : pfDef.construction_months =
    [[12, 14, 18, 24], [12, 14, 18, 24], [12, 14, 18, 24],
     [12, 14, 18, 24]] := by
  simp [pfDef, mkProForma, defaultConfig, lookupD]


/-- When the density-cap branch applies and the average-unit-size column
is missing, `_min_max_fars` fails with the missing-input error. -/
theorem duaCheck_error (resratio : ℚ) (df : DF) (h1 : df.hasCol "max_dua")
    (h2 : 0 < resratio) (h3 : ¬ df.hasCol "ave_unit_size") :
    duaCheck resratio df = Except.error DevError.MissingInputError := by
  simp [duaCheck, duaApplies, h1, h2, h3]


/-- With an average-unit-size column present, `_min_max_fars` never
fails. -/
theorem duaCheck_ok_of_ave (resratio : ℚ) (df : DF)
    (h : df.hasCol "ave_unit_size") : duaCheck resratio df = Except.ok () := by
  by_cases hd : duaApplies resratio df <;> simp [duaCheck, hd, h]


/-- A failing input check aborts the per-configuration pass. -/
theorem lookupParkingCfg_error (m : ProForma) (form : String) (pc : PC)
    (df : DF) (e : DevError)
    (h : duaCheck (lookupD m.res_ratios form 0) df = Except.error e) :
    lookupParkingCfg m form pc df = Except.error e := by
  simp [lookupParkingCfg, h]


/-- A passing input check makes the per-configuration pass succeed. -/
theorem lookupParkingCfg_ok (m : ProForma) (form : String) (pc : PC)
    (df : DF) (h : duaCheck (lookupD m.res_ratios form 0) df = Except.ok ()) :
    ∃ rows, lookupParkingCfg m form pc df = Except.ok rows := by
  simp only [lookupParkingCfg, h]
  exact ⟨_, rfl⟩


/-- An error in the first parking configuration aborts the
concatenation. -/
theorem lookupConfigs_error (m : ProForma) (form : String) (df : DF)
    (pc : PC) (t : List PC) (e : DevError)
    (he : lookupParkingCfg m form pc df = Except.error e) :
    lookupConfigs m form df (pc :: t) = Except.error e := by
  simp [lookupConfigs, he]


/-- If every configured pass succeeds, the concatenation succeeds. -/
theorem lookupConfigs_ok (m : ProForma) (form : String) (df : DF)
    (l : List PC)
    (h : ∀ pc ∈ l, ∃ rows, lookupParkingCfg m form pc df = Except.ok rows) :
    ∃ rows, lookupConfigs m form df l = Except.ok rows := by
  induction l with
  | nil => exact ⟨[], rfl⟩
  | cons pc t ih =>
    obtain ⟨r1, h1⟩ := h pc (List.mem_cons_self pc t)
    obtain ⟨r2, h2⟩ := ih (fun pc2 hm => h pc2 (List.mem_cons_of_mem _ hm))
    exact ⟨r1 ++ r2, by simp [lookupConfigs, h1, h2]⟩


/-- A successful concatenation makes the whole lookup succeed. -/
theorem lookupRun_ok (m : ProForma) (form : String) (df : DF)
    (all : List OutRow)
    (h : lookupConfigs m form df m.parking_configs = Except.ok all) :
    ∃ rows, lookupRun m form df = Except.ok rows := by
  simp only [lookupRun, h]
  by_cases he : all.isEmpty <;>
    by_cases hr : m.residential_to_yearly ∧ "residential" ∈ m.pass_through <;>
    simp [he, hr]


/-- Scalar fields of the default engine. -/
theorem pfDef_simple_zoning : pfDef.simple_zoning = false := rfl


/-- Only-built filtering is on by default. -/
theorem pfDef_only_built : pfDef.only_built = true := rfl


/-- No pass-through columns by default. -/
theorem pfDef_pass_through : pfDef.pass_through = [] := rfl


/-- Residential-to-yearly conversion is on by default. -/
theorem pfDef_res_to_yearly : pfDef.residential_to_yearly = true := rfl


/-- With only-built filtering on and no site passing the economic filter,
a per-configuration pass returns no rows. -/
theorem lookupParkingCfg_empty (m : ProForma) (form : String) (pc : PC)
    (df : DF)
    (h : duaCheck (lookupD m.res_ratios form 0) df = Except.ok ())
    (hb : m.only_built = true)
    (hs : ∀ i ∈ List.range df.ids.length,
      ¬ (vPos (minMaxFars m (lookupD m.res_ratios form 0) df i) ∧
         vPos (df.cell "parcel_size" i))) :
    lookupParkingCfg m form pc df = Except.ok [] := by
  simp only [lookupParkingCfg, h, hb, if_true]
  have hf : (List.range df.ids.length).filter
      (fun i => if vPos (minMaxFars m (lookupD m.res_ratios form 0) df i) ∧
        vPos (df.cell "parcel_size" i) then true else false) = [] := by
    rw [List.filter_eq_nil_iff]
    intro a ha
    simp [hs a ha]
  rw [hf]
  simp


/-- C7 counterexample: the claim says every lookup call on a table with a
density-cap column and no average-unit-size column fails with the
missing-input error.  The table `dfC7` carries every column the source
dereferences unconditionally, so the call reaches the density-cap check;
for the office form the residential ratio is zero, the density-cap
branch of `_min_max_fars` is not taken, and the call returns an (empty)
result instead of failing. -/
theorem C7_counterexample :
    hasLookupCols pfDef dfC7 ∧
    dfC7.hasCol "max_dua" ∧ ¬ dfC7.hasCol "ave_unit_size" ∧
    lookupD pfDef.res_ratios "office" 0 = 0 ∧
    (lookup pfDef "office" dfC7).1 = Except.ok [] := by
  refine ⟨?_, by simp [dfC7, DF.hasCol, DF.colNames],
    by simp [dfC7, DF.hasCol, DF.colNames], ?_, ?_⟩
  · simp [hasLookupCols, DF.hasCol, DF.colNames, dfC7, pfDef_uses]
  · rw [pfDef_res_ratios]
    simp [lookupD]
  · have hrr : lookupD pfDef.res_ratios "office" 0 = 0 := by
      rw [pfDef_res_ratios]
      simp [lookupD]
    have hdua : duaCheck (lookupD pfDef.res_ratios "office" 0) dfC7 =
        Except.ok () := by
      rw [hrr]
      simp [duaCheck, duaApplies]
    have hcfg : ∀ pc, lookupParkingCfg pfDef "office" pc dfC7 =
        Except.ok [] := by
      intro pc
      apply lookupParkingCfg_empty _ _ _ _ hdua pfDef_only_built
      intro i hi
      simp only [dfC7, List.length_cons, List.length_nil, List.mem_range] at hi
      have hi0 : i = 0 := by omega
      subst hi0
      rintro ⟨-, hp⟩
      simp [DF.cell, DF.col, dfC7, lookupD, vPos] at hp
    have hcs : lookupConfigs pfDef "office" dfC7 pfDef.parking_configs =
        Except.ok [] := by
      rw [pfDef_parking_configs]
      simp [lookupConfigs, hcfg]
    simp [lookup, lookupRun, dfAfterZoning, pfDef_simple_zoning, hcs]


/-- A failing concatenation makes the whole lookup fail. -/
theorem lookupRun_error (m : ProForma) (form : String) (df : DF)
    (e : DevError)
    (h : lookupConfigs m form df m.parking_configs = Except.error e) :
    lookupRun m form df = Except.error e := by
  simp [lookupRun, h]


/-- Columns survive the simple-zoning rewrite. -/
theorem hasCol_lookup_df (m : ProForma) (form : String) (df : DF)
    (c : String) (hc : df.hasCol c) :
    ((if m.simple_zoning then simpleZoning form df else df).hasCol c) := by
  by_cases hs : m.simple_zoning
  · simp [hs, hasCol_simpleZoning, hc]
  · simpa [hs]


/-- The simple-zoning rewrite never creates an average-unit-size
column. -/
theorem no_ave_after_simpleZoning (m : ProForma) (form : String) (df : DF)
    (h : ¬ df.hasCol "ave_unit_size") :
    ¬ ((if m.simple_zoning then simpleZoning form df else df).hasCol
      "ave_unit_size") := by
  by_cases hs : m.simple_zoning
  · simp [hs, hasCol_simpleZoning, h]
  · simpa [hs]


/-- C7 amended: the missing-input failure is tied to the residential
ratio of the looked-up form.  For a site table carrying the columns the
source dereferences unconditionally (so that the call reaches the
density-cap check at all) and a duplicate-free site index: with a
density-cap column, a form of positive residential ratio and no
average-unit-size column, the lookup call fails with
`MissingInputError`; with an average-unit-size column present the call
succeeds.  (For a form of zero residential ratio the call succeeds even
without the average-unit-size column, as `C7_counterexample`
exhibits.) -/
theorem C7_missing_input_error (m : ProForma) (form : String) (df : DF)
    (pc : PC) (rest : List PC) (hpc : m.parking_configs = pc :: rest)
    (hcols : hasLookupCols m df) (hids : df.ids.Nodup) :
    (df.hasCol "max_dua" → 0 < lookupD m.res_ratios form 0 →
      ¬ df.hasCol "ave_unit_size" →
      (lookup m form df).1 = Except.error DevError.MissingInputError) ∧
    (df.hasCol "ave_unit_size" →
      ∃ rows, (lookup m form df).1 = Except.ok rows) := by
  constructor
  · intro hdua hpos hnave
    have hdz : ((if m.simple_zoning then simpleZoning form df else df).hasCol
        "max_dua") := by
      by_cases hs : m.simple_zoning
      · by_cases hf : form = "residential" <;>
          simp [hs, hasCol_simpleZoning, hf, hdua]
      · simpa [hs]
    have hnz := no_ave_after_simpleZoning m form df hnave
    have herr := duaCheck_error (lookupD m.res_ratios form 0) _ hdz hpos hnz
    have h1 := lookupParkingCfg_error m form pc _ _ herr
    have h2 := lookupConfigs_error m form _ pc rest _ h1
    rw [← hpc] at h2
    show lookupRun m form _ = _
    exact lookupRun_error m form _ _ h2
  · intro have_
    have haz := hasCol_lookup_df m form df "ave_unit_size" have_
    have hok := duaCheck_ok_of_ave (lookupD m.res_ratios form 0) _ haz
    have hcs := lookupConfigs_ok m form _ m.parking_configs
      (fun pc2 _ => lookupParkingCfg_ok m form pc2 _ hok)
    obtain ⟨all, hall⟩ := hcs
    exact lookupRun_ok m form _ all hall


/-- Witness for `C7_missing_input_error` at the default engine, the
residential form and the table `dfC7`. -/
theorem C7_missing_input_witness :
    pfDef.parking_configs = PC.surface :: [PC.deck, PC.underground] ∧
    hasLookupCols pfDef dfC7 ∧ dfC7.ids.Nodup ∧
    dfC7.hasCol "max_dua" ∧ 0 < lookupD pfDef.res_ratios "residential" 0 ∧
    ¬ dfC7.hasCol "ave_unit_size" ∧
    (lookup pfDef "residential" dfC7).1 =
      Except.error DevError.MissingInputError := by
  have hcols : hasLookupCols pfDef dfC7 := by
    simp [hasLookupCols, DF.hasCol, DF.colNames, dfC7, pfDef_uses]
  have hids : dfC7.ids.Nodup := by simp [dfC7]
  refine ⟨rfl, hcols, hids, by simp [dfC7, DF.hasCol, DF.colNames], ?_,
    by simp [dfC7, DF.hasCol, DF.colNames], ?_⟩
  · rw [pfDef_res_ratios]
    simp [lookupD]
  · exact (C7_missing_input_error pfDef "residential" dfC7 PC.surface
      [PC.deck, PC.underground] rfl hcols hids).1
      (by simp [dfC7, DF.hasCol, DF.colNames])
      (by rw [pfDef_res_ratios]; simp [lookupD])
      (by simp [dfC7, DF.hasCol, DF.colNames])


/-- C5: for the surface configuration, stories are building bulk over
(parcel size minus stalls times the surface area-per-stall); a negative
denominator (hence a negative quotient) or a quotient above 5 marks the
entry invalid, and the surviving quotients are divided by the parcel
coverage only afterwards: the 5-story test is applied on the footprint
basis, so a footprint quotient of exactly 5 survives even though the
final story count 5 / coverage can exceed 5. -/
theorem C5_surface_stories (m : ProForma) (bulk stalls : ℚ) (hb : 0 < bulk) :
    (m.parcelSize - stalls * pcLookup m.parking_sqft_d PC.surface < 0 →
      storiesOf m PC.surface bulk stalls = none) ∧
    (0 < m.parcelSize - stalls * pcLookup m.parking_sqft_d PC.surface →
      5 < bulk / (m.parcelSize - stalls * pcLookup m.parking_sqft_d PC.surface) →
      storiesOf m PC.surface bulk stalls = none) ∧
    (0 < m.parcelSize - stalls * pcLookup m.parking_sqft_d PC.surface →
      bulk / (m.parcelSize - stalls * pcLookup m.parking_sqft_d PC.surface) ≤ 5 →
      storiesOf m PC.surface bulk stalls =
        some (bulk / (m.parcelSize - stalls * pcLookup m.parking_sqft_d PC.surface)
          / m.parcel_coverage)) := by
  refine ⟨?_, ?_, ?_⟩
  · intro hd
    simp only [storiesOf]
    rw [if_neg (ne_of_lt hd), if_pos (div_neg_of_pos_of_neg hb hd)]
  · intro h0 h5
    simp only [storiesOf]
    rw [if_neg (ne_of_gt h0),
      if_neg (not_lt.2 (div_nonneg hb.le h0.le)), if_pos h5]
  · intro h0 h5
    simp only [storiesOf]
    rw [if_neg (ne_of_gt h0),
      if_neg (not_lt.2 (div_nonneg hb.le h0.le)), if_neg (not_lt.2 h5)]


/-- Witness for `C5_surface_stories` at the default engine (parcel size
10000, surface stall area 300): bulk 35000 has a negative denominator,
bulk 25000 has footprint quotient 10 above 5, bulk 20000 has footprint
quotient exactly 5 and survives with final story count 25/4 above 5. -/
theorem C5_surface_stories_witness :
    storiesOf pfDef PC.surface 35000 35 = none ∧
    storiesOf pfDef PC.surface 25000 25 = none ∧
    storiesOf pfDef PC.surface 20000 20 = some (25/4) := by
  have hps : pfDef.parcelSize = 10000 := rfl
  have hsq : pcLookup pfDef.parking_sqft_d PC.surface = 300 := rfl
  have hcov : pfDef.parcel_coverage = 4/5 := rfl
  refine ⟨(C5_surface_stories pfDef 35000 35 (by norm_num)).1 ?_,
    (C5_surface_stories pfDef 25000 25 (by norm_num)).2.1 ?_ ?_, ?_⟩
  · rw [hps, hsq]; norm_num
  · rw [hps, hsq]; norm_num
  · rw [hps, hsq]; norm_num
  · have h := (C5_surface_stories pfDef 20000 20 (by norm_num)).2.2
      (by rw [hps, hsq]; norm_num) (by rw [hps, hsq]; norm_num)
    rw [h, hps, hsq, hcov]
    norm_num


/-- Reflexivity of the profit order. -/
theorem vle_refl (a : Val) : vLe a a := Or.inr rfl


/-- Transitivity of the strict profit order. -/
theorem vlt_trans {a b c : Val} (h1 : vLt a b) (h2 : vLt b c) : vLt a c := by
  cases a <;> cases b <;> cases c <;> simp [vLt] at h1 h2 ⊢
  exact lt_trans h1 h2


/-- Transitivity of the profit order. -/
theorem vle_trans {a b c : Val} (h1 : vLe a b) (h2 : vLe b c) : vLe a c := by
  rcases h2 with h2 | rfl
  · rcases h1 with h1 | rfl
    · exact Or.inl (vlt_trans h1 h2)
    · exact Or.inl h2
  · exact h1


/-- Totality: not strictly below means at or above. -/
theorem not_vlt_iff (a b : Val) : ¬ vLt a b ↔ vLe b a := by
  cases a <;> cases b <;> simp [vLt, vLe, not_lt, le_iff_lt_or_eq]


/-- C6: in the per-(form, parking configuration) selection, profits are
compared in the order where an invalid (NaN) cell counts as negative
infinity (`vLt` on `Val`), and `argmaxProfit` picks, per site, a far
candidate of maximal profit; on ties the first candidate in grid order
wins: every candidate strictly before the selected index has strictly
smaller profit. -/
theorem C6_profit_argmax (l : List Val) (hl : l ≠ []) :
    argmaxProfit l < l.length ∧
    (∀ j, j < l.length → vLe (l.getD j none) (l.getD (argmaxProfit l) none)) ∧
    (∀ j, j < argmaxProfit l → vLt (l.getD j none) (l.getD (argmaxProfit l) none)) := by
  induction l with
  | nil => exact absurd rfl hl
  | cons x t ih =>
    by_cases ht : t = []
    · subst ht
      refine ⟨by norm_num [argmaxProfit, vLt], ?_, ?_⟩
      · intro j hj
        have hj0 : j = 0 := by
          simp only [List.length_cons, List.length_nil] at hj
          omega
        subst hj0
        simp only [argmaxProfit, List.getD_nil, List.getD_cons_zero]
        have : ¬ vLt x none := by simp [vLt]
        rw [if_neg this]
        exact vle_refl x
      · intro j hj
        simp only [argmaxProfit, List.getD_nil] at hj
        have : ¬ vLt x none := by simp [vLt]
        rw [if_neg this] at hj
        omega
    · obtain ⟨ih1, ih2, ih3⟩ := ih ht
      by_cases hx : vLt x (t.getD (argmaxProfit t) none)
      · have hcons : argmaxProfit (x :: t) = argmaxProfit t + 1 := by
          simp only [argmaxProfit, if_pos hx]
        refine ⟨?_, ?_, ?_⟩
        · simp only [hcons, List.length_cons]
          omega
        · intro j hj
          rw [hcons]
          cases j with
          | zero =>
            simp only [List.getD_cons_zero, List.getD_cons_succ]
            exact Or.inl hx
          | succ k =>
            simp only [List.getD_cons_succ]
            exact ih2 k (by simpa using hj)
        · intro j hj
          rw [hcons] at hj ⊢
          cases j with
          | zero =>
            simp only [List.getD_cons_zero, List.getD_cons_succ]
            exact hx
          | succ k =>
            simp only [List.getD_cons_succ]
            exact ih3 k (by omega)
      · have hcons : argmaxProfit (x :: t) = 0 := by
          simp only [argmaxProfit, if_neg hx]
        have hxv : vLe (t.getD (argmaxProfit t) none) x := (not_vlt_iff _ _).1 hx
        refine ⟨by simp [hcons], ?_, ?_⟩
        · intro j hj
          rw [hcons]
          cases j with
          | zero => exact vle_refl _
          | succ k =>
            simp only [List.getD_cons_succ, List.getD_cons_zero]
            exact vle_trans (ih2 k (by simpa using hj)) hxv
        · intro j hj
          rw [hcons] at hj
          omega


/-- Witness for `C6_profit_argmax`: a column with a NaN cell and a tie of
maximal profits; the tie resolves to the first (lowest-far) index. -/
theorem C6_profit_argmax_witness :
    argmaxProfit [some 1, none, some (1:ℚ)] = 0 ∧
    (∀ j, j < ([some 1, none, some (1:ℚ)] : List Val).length →
      vLe (([some 1, none, some (1:ℚ)] : List Val).getD j none)
        (([some 1, none, some (1:ℚ)] : List Val).getD
          (argmaxProfit [some 1, none, some (1:ℚ)]) none)) := by
  constructor
  · norm_num [argmaxProfit, vLt]
  · exact (C6_profit_argmax [some 1, none, some (1:ℚ)] (by simp)).2.1


/-- Evaluation form of `np_ceil` through the floor of the negation. -/
theorem np_ceil_eval (q : ℚ) : np_ceil q = -⌊-q⌋ := by
  rw [np_ceil, Int.floor_neg]
  push_cast
  ring


/-- More scalar field evaluations of the default engine. -/
theorem pfDef_parcelSize : pfDef.parcelSize = 10000 := rfl


/-- The default height breakpoints. -/
theorem pfDef_heights : pfDef.heights_for_costs =
    [QInf.val 15, QInf.val 55, QInf.val 120, QInf.inf] := rfl


/-- The default height per story. -/
theorem pfDef_hps : pfDef.height_per_story = 12 := rfl


/-- A breakpoint at or above another is still below any value the other
is below. -/
theorem qinfLt_of_le_of_lt {a b : QInf} {v : ℚ} (h1 : qinfLe a b)
    (h2 : qinfLt b v) : qinfLt a v := by
  cases a <;> cases b <;> simp [qinfLe, qinfLt] at h1 h2 ⊢
  exact lt_of_le_of_lt h1 h2


/-- If no breakpoint is below the probe, the insertion index is zero. -/
theorem searchsorted_eq_zero (t : List QInf) (v : ℚ)
    (h : ∀ x ∈ t, ¬ qinfLt x v) : searchsorted t v = 0 := by
  induction t with
  | nil => rfl
  | cons b t2 ih =>
    simp only [searchsorted, if_neg (h b (List.mem_cons_self b t2)),
      ih (fun x hx => h x (List.mem_cons_of_mem _ hx)), Nat.zero_add]


/-- On a sorted breakpoint list, `searchsorted` returns the index of the
first breakpoint at or above the probe: every breakpoint before the index
is strictly below the probe, the breakpoint at the index (when it exists)
is not. -/
theorem searchsorted_spec (bps : List QInf) (v : ℚ)
    (hs : List.Pairwise qinfLe bps) :
    searchsorted bps v ≤ bps.length ∧
    (∀ j, j < searchsorted bps v → qinfLt (bps.getD j QInf.inf) v) ∧
    (searchsorted bps v < bps.length →
      ¬ qinfLt (bps.getD (searchsorted bps v) QInf.inf) v) := by
  induction bps with
  | nil =>
    refine ⟨le_refl 0, ?_, ?_⟩
    · intro j hj
      simp [searchsorted] at hj
    · intro hl
      simp [searchsorted] at hl
  | cons b t ih =>
    rw [List.pairwise_cons] at hs
    obtain ⟨hb, ht⟩ := hs
    obtain ⟨ih1, ih2, ih3⟩ := ih ht
    by_cases hv : qinfLt b v
    · have hcons : searchsorted (b :: t) v = searchsorted t v + 1 := by
        simp only [searchsorted, if_pos hv]
        omega
      refine ⟨?_, ?_, ?_⟩
      · simp only [hcons, List.length_cons]
        omega
      · intro j hj
        rw [hcons] at hj
        cases j with
        | zero => simpa using hv
        | succ k =>
          simp only [List.getD_cons_succ]
          exact ih2 k (by omega)
      · intro hlt
        rw [hcons] at hlt ⊢
        simp only [List.length_cons] at hlt
        simp only [List.getD_cons_succ]
        exact ih3 (by omega)
    · have hz : searchsorted t v = 0 :=
        searchsorted_eq_zero t v
          (fun x hx hlt => hv (qinfLt_of_le_of_lt (hb x hx) hlt))
      have hcons : searchsorted (b :: t) v = 0 := by
        simp only [searchsorted, if_neg hv, hz]
      refine ⟨by simp [hcons], ?_, ?_⟩
      · intro j hj
        rw [hcons] at hj
        omega
      · intro _
        rw [hcons]
        simpa using hv


/-- C4 counterexample: at the default parameters, residential form,
underground parking, far 7/2, the raw story count is 35/8 and the cost
bracket is looked up at height 35/8 times 12 = 52.5 (bracket of
breakpoint 55, residential cost 190), while the recorded height column is
ceil(35/8) times 12 = 60 (bracket of breakpoint 120, residential cost
210): the table cost is not the one at the bracket of the recorded
(ceiled) height the claim describes. -/
theorem C4_counterexample :
    (refRow pfDef "residential" [0, 0, 0, 1] PC.underground (7/2)).storiesRaw
      = some (35/8) ∧
    (refRow pfDef "residential" [0, 0, 0, 1] PC.underground (7/2)).height
      = some 60 ∧
    (refRow pfDef "residential" [0, 0, 0, 1] PC.underground (7/2)).build_cost_sqft
      = some 190 ∧
    buildingCostSpec pfDef [0, 0, 0, 1]
      ((refRow pfDef "residential" [0, 0, 0, 1] PC.underground (7/2)).storiesRaw)
      = some 210 := by
  have hne : ¬ (PC.underground = PC.deck) := by simp
  have hcov : pfDef.parcel_coverage = 4/5 := rfl
  have hspr : pfDef.sqft_per_rate = 1000 := rfl
  have hsr : (refRow pfDef "residential" [0, 0, 0, 1] PC.underground
      (7/2)).storiesRaw = some (35/8) := by
    simp only [refRow, storiesOf, buildingBulkAt, if_neg hne]
    rw [pfDef_parcelSize, hcov]
    norm_num
  refine ⟨hsr, ?_, ?_, ?_⟩
  · simp only [refRow, storiesOf, buildingBulkAt, if_neg hne]
    rw [pfDef_parcelSize, pfDef_hps, hcov]
    norm_num [np_ceil_eval]
  · simp only [refRow, storiesOf, buildingBulkAt, buildingCost, if_neg hne]
    rw [pfDef_parcelSize, pfDef_hps, pfDef_heights, pfDef_costs, hcov]
    norm_num [searchsorted, qinfLt, costRow, dotQ]
  · rw [hsr]
    simp only [buildingCostSpec]
    rw [pfDef_hps, pfDef_heights, pfDef_costs]
    norm_num [np_ceil_eval, searchsorted, qinfLt, costRow, dotQ]


/-- C4 amended: in the reference table the cost per area is the
use-mix-weighted dot product of the per-use cost row of the bracket whose
breakpoint is the first one at or above stories times height-per-story,
where stories is the raw (un-ceiled) story count (the recorded height
column, ceil(stories) times height-per-story, is not the height used for
the bracket); entries with invalid stories have invalid cost. -/
theorem C4_cost_bracket (m : ProForma) (use_mix : List ℚ) (s : ℚ)
    (hs : List.Pairwise qinfLe m.heights_for_costs) :
    buildingCost m use_mix none = none ∧
    buildingCost m use_mix (some s) =
      some (dotQ (costRow m.costs
        (searchsorted m.heights_for_costs (s * m.height_per_story))) use_mix) ∧
    (∀ j, j < searchsorted m.heights_for_costs (s * m.height_per_story) →
      qinfLt (m.heights_for_costs.getD j QInf.inf) (s * m.height_per_story)) ∧
    (searchsorted m.heights_for_costs (s * m.height_per_story) <
        m.heights_for_costs.length →
      ¬ qinfLt (m.heights_for_costs.getD
          (searchsorted m.heights_for_costs (s * m.height_per_story)) QInf.inf)
        (s * m.height_per_story)) := by
  obtain ⟨h1, h2, h3⟩ := searchsorted_spec m.heights_for_costs
    (s * m.height_per_story) hs
  exact ⟨rfl, rfl, h2, h3⟩


/-- Witness for `C4_cost_bracket` at the default breakpoints and the
residential mix. -/
theorem C4_cost_bracket_witness :
    List.Pairwise qinfLe pfDef.heights_for_costs ∧
    buildingCost pfDef [0, 0, 0, 1] (some (35/8)) =
      some (dotQ (costRow pfDef.costs
        (searchsorted pfDef.heights_for_costs
          ((35/8) * pfDef.height_per_story))) [0, 0, 0, 1]) := by
  have hp : List.Pairwise qinfLe pfDef.heights_for_costs := by
    rw [pfDef_heights]
    norm_num [List.pairwise_cons, qinfLe]
  exact ⟨hp, (C4_cost_bracket pfDef [0, 0, 0, 1] (35/8) hp).2.1⟩


/-- The area-split identity on possibly-NaN cells: the residential and
non-residential fractions r and 1 - r of the usable area sum back to the
usable area, whatever the cell. -/
theorem val_split (b : Val) (e r : ℚ) :
    vAdd (vMul (vMul b (some e)) (some r))
      (vMul (vMul b (some e)) (some (1 - r))) = vMul b (some e) := by
  cases b <;> simp [vAdd, vMul]
  ring


/-- Every row emitted by `siteRow` satisfies the area-split identity. -/
theorem siteRow_split (m : ProForma) (pc : PC) (df : DF) (tbl : List RefRow)
    (mix : List ℚ) (rr : ℚ) (i : ℕ) :
    vAdd (siteRow m pc df tbl mix rr i).residential_sqft
      (siteRow m pc df tbl mix rr i).non_residential_sqft =
    vMul (siteRow m pc df tbl mix rr i).building_sqft
      (some m.building_efficiency) := by
  simp only [siteRow]
  exact val_split _ _ _


/-- The configuration recorded on a site row. -/
theorem siteRow_config (m : ProForma) (pc : PC) (df : DF) (tbl : List RefRow)
    (mix : List ℚ) (rr : ℚ) (i : ℕ) :
    (siteRow m pc df tbl mix rr i).parking_config = pc := rfl


/-- The identifier recorded on a site row. -/
theorem siteRow_id (m : ProForma) (pc : PC) (df : DF) (tbl : List RefRow)
    (mix : List ℚ) (rr : ℚ) (i : ℕ) :
    (siteRow m pc df tbl mix rr i).id = df.ids.getD i "" := rfl


/-- Rows returned by a per-configuration pass are site rows at positions
inside the table. -/
theorem lookupParkingCfg_rows (m : ProForma) (form : String) (pc : PC)
    (df : DF) (rows : List OutRow)
    (h : lookupParkingCfg m form pc df = Except.ok rows) (r : OutRow)
    (hr : r ∈ rows) :
    ∃ i, i < df.ids.length ∧
      r = siteRow m pc df (refTable m form pc) (lookupD m.forms form [])
        (lookupD m.res_ratios form 0) i := by
  cases hd : duaCheck (lookupD m.res_ratios form 0) df with
  | error e =>
    rw [lookupParkingCfg_error m form pc df e hd] at h
    simp at h
  | ok u =>
    obtain rfl : u = () := rfl
    simp only [lookupParkingCfg, hd] at h
    injection h with h
    subst h
    obtain ⟨hmem, -⟩ := List.mem_filter.1 hr
    obtain ⟨i, hi, hmap⟩ := List.mem_map.1 hmem
    refine ⟨i, ?_, hmap.symm⟩
    by_cases hb : m.only_built = true
    · rw [if_pos hb] at hi
      exact List.mem_range.1 (List.mem_of_mem_filter hi)
    · rw [if_neg hb] at hi
      exact List.mem_range.1 hi


/-- Rows returned by the per-configuration concatenation are site rows of
one of the passed configurations. -/
theorem lookupConfigs_rows (m : ProForma) (form : String) (df : DF)
    (l : List PC) (rows : List OutRow)
    (h : lookupConfigs m form df l = Except.ok rows) (r : OutRow)
    (hr : r ∈ rows) :
    ∃ pc, pc ∈ l ∧ ∃ i, i < df.ids.length ∧
      r = siteRow m pc df (refTable m form pc) (lookupD m.forms form [])
        (lookupD m.res_ratios form 0) i := by
  induction l generalizing rows with
  | nil =>
    simp only [lookupConfigs] at h
    injection h with h
    subst h
    cases hr
  | cons pc t ih =>
    cases h1 : lookupParkingCfg m form pc df with
    | error e =>
      rw [lookupConfigs_error m form df pc t e h1] at h
      simp at h
    | ok rows1 =>
      cases h2 : lookupConfigs m form df t with
      | error e =>
        simp only [lookupConfigs, h1, h2] at h
        simp at h
      | ok rest =>
        simp only [lookupConfigs, h1, h2] at h
        injection h with h
        subst h
        rcases List.mem_append.1 hr with h3 | h3
        · obtain ⟨i, hi, hform⟩ := lookupParkingCfg_rows m form pc df rows1 h1 r h3
          exact ⟨pc, List.mem_cons_self pc t, i, hi, hform⟩
        · obtain ⟨pc2, hpc2, hrest⟩ := ih rest h2 h3
          exact ⟨pc2, List.mem_cons_of_mem _ hpc2, hrest⟩


/-- The shapes a successful lookup result can take: empty, the parking
selection, or the parking selection with the annualized residential
pass-through column. -/
theorem lookupRun_ok_shape (m : ProForma) (form : String) (df : DF)
    (rows : List OutRow) (h : lookupRun m form df = Except.ok rows) :
    ∃ all, lookupConfigs m form df m.parking_configs = Except.ok all ∧
      (rows = [] ∨ rows = maxProfitParking all ∨
       rows = (maxProfitParking all).map (residentialYearly m)) := by
  cases hall : lookupConfigs m form df m.parking_configs with
  | error e =>
    rw [lookupRun_error m form df e hall] at h
    simp at h
  | ok all =>
    simp only [lookupRun, hall] at h
    by_cases he : all.isEmpty
    · rw [if_pos he] at h
      injection h with h
      exact ⟨all, rfl, Or.inl h.symm⟩
    · rw [if_neg he] at h
      by_cases hy : m.residential_to_yearly = true ∧ "residential" ∈ m.pass_through
      · rw [if_pos hy] at h
        injection h with h
        exact ⟨all, rfl, Or.inr (Or.inr h.symm)⟩
      · rw [if_neg hy] at h
        injection h with h
        exact ⟨all, rfl, Or.inr (Or.inl h.symm)⟩


/-- The `idxmax` scan returns the initial best or one of the scanned
rows. -/
theorem pickBest_foldl_mem (l : List OutRow) (acc : Option OutRow)
    (r : OutRow) (h : l.foldl pickBest acc = some r) :
    acc = some r ∨ r ∈ l := by
  induction l generalizing acc with
  | nil => exact Or.inl h
  | cons x t ih =>
    rw [List.foldl_cons] at h
    rcases ih (pickBest acc x) h with h2 | h2
    · cases acc with
      | none =>
        simp only [pickBest] at h2
        injection h2 with h2
        subst h2
        exact Or.inr (List.mem_cons_self _ _)
      | some b =>
        simp only [pickBest] at h2
        by_cases hv : vLt b.max_profit x.max_profit
        · rw [if_pos hv] at h2
          injection h2 with h2
          subst h2
          exact Or.inr (List.mem_cons_self _ _)
        · rw [if_neg hv] at h2
          exact Or.inl h2
    · exact Or.inr (List.mem_cons_of_mem _ h2)


/-- The `idxmax` scan result dominates the initial best and every scanned
row. -/
theorem pickBest_foldl_ge (l : List OutRow) (acc : Option OutRow)
    (r : OutRow) (h : l.foldl pickBest acc = some r) :
    (∀ b, acc = some b → vLe b.max_profit r.max_profit) ∧
    (∀ x ∈ l, vLe x.max_profit r.max_profit) := by
  induction l generalizing acc with
  | nil =>
    refine ⟨fun b hb => ?_, fun x hx => absurd hx (List.not_mem_nil x)⟩
    simp only [List.foldl_nil] at h
    rw [h] at hb
    injection hb with hb
    subst hb
    exact vle_refl _
  | cons x t ih =>
    rw [List.foldl_cons] at h
    obtain ⟨ihacc, ihl⟩ := ih (pickBest acc x) h
    have hx : vLe x.max_profit r.max_profit := by
      cases acc with
      | none => exact ihacc x rfl
      | some b =>
        by_cases hv : vLt b.max_profit x.max_profit
        · exact ihacc x (by simp only [pickBest, if_pos hv])
        · exact vle_trans ((not_vlt_iff _ _).1 hv)
            (ihacc b (by simp only [pickBest, if_neg hv]))
    refine ⟨?_, ?_⟩
    · intro b hb
      subst hb
      by_cases hv : vLt b.max_profit x.max_profit
      · exact vle_trans (Or.inl hv) hx
      · exact ihacc b (by simp only [pickBest, if_neg hv])
    · intro y hy
      rcases List.mem_cons.1 hy with rfl | hy2
      · exact hx
      · exact ihl y hy2


/-- Candidate rows of a site are rows of the pool. -/
theorem candRows_sub (rows : List OutRow) (id : String) (r : OutRow)
    (hr : r ∈ candRows rows id) : r ∈ rows := by
  simp only [candRows, List.mem_filterMap] at hr
  obtain ⟨pc, -, hf⟩ := hr
  exact List.mem_of_find?_eq_some hf


/-- Candidate rows of a site carry its identifier. -/
theorem candRows_id (rows : List OutRow) (id : String) (r : OutRow)
    (hr : r ∈ candRows rows id) : r.id = id := by
  simp only [candRows, List.mem_filterMap] at hr
  obtain ⟨pc, -, hf⟩ := hr
  have hp := List.find?_some hf
  by_cases h : (r.id = id ∧ r.parking_config = pc)
  · exact h.1
  · simp [h] at hp


/-- `find?` returns the unique element satisfying the predicate. -/
theorem find?_unique {α : Type} (l : List α) (p : α → Bool) (a : α)
    (ha : a ∈ l) (hpa : p a = true)
    (huniq : ∀ b ∈ l, p b = true → b = a) : l.find? p = some a := by
  induction l with
  | nil => cases ha
  | cons x t ih =>
    by_cases hx : p x = true
    · rw [List.find?_cons_of_pos _ hx]
      exact congrArg some (huniq x (List.mem_cons_self x t) hx)
    · rw [List.find?_cons_of_neg _ hx]
      rcases List.mem_cons.1 ha with rfl | hat
      · exact absurd hpa hx
      · exact ih hat (fun b hb hpb => huniq b (List.mem_cons_of_mem _ hb) hpb)


/-- A pool row with the right identifier is among the candidate rows of
that site, provided the pool has at most one row per (site,
configuration) pair. -/
theorem mem_candRows (rows : List OutRow) (id : String) (r : OutRow)
    (hr : r ∈ rows) (hid : r.id = id)
    (huniq : ∀ r2 ∈ rows, r2.id = id →
      r2.parking_config = r.parking_config → r2 = r) :
    r ∈ candRows rows id := by
  simp only [candRows, List.mem_filterMap]
  refine ⟨r.parking_config, by cases r.parking_config <;> simp [pcSorted], ?_⟩
  apply find?_unique rows _ r hr
  · simp [hid]
  · intro b hb hpb
    by_cases h : (b.id = id ∧ b.parking_config = r.parking_config)
    · exact huniq b hb h.1 h.2
    · simp [h] at hpb


/-- What `idxmax` returns for one site: a candidate row of that site
whose profit dominates every candidate. -/
theorem bestRowFor_spec (rows : List OutRow) (id : String) (r : OutRow)
    (h : bestRowFor rows id = some r) :
    r ∈ rows ∧ r.id = id ∧
    ∀ x ∈ candRows rows id, vLe x.max_profit r.max_profit := by
  have hmem := pickBest_foldl_mem (candRows rows id) none r h
  have hc : r ∈ candRows rows id := by
    rcases hmem with h2 | h2
    · cases h2
    · exact h2
  exact ⟨candRows_sub rows id r hc, candRows_id rows id r hc,
    (pickBest_foldl_ge (candRows rows id) none r h).2⟩


/-- Rows selected by the parking selector come from the pool. -/
theorem maxProfitParking_sub (rows : List OutRow) (r : OutRow)
    (hr : r ∈ maxProfitParking rows) :
    r ∈ rows ∧ bestRowFor rows r.id = some r := by
  simp only [maxProfitParking, List.mem_filterMap] at hr
  obtain ⟨id, -, hb⟩ := hr
  obtain ⟨h1, h2, -⟩ := bestRowFor_spec rows id r hb
  exact ⟨h1, h2 ▸ hb⟩


/-- Mapping a left inverse over a `filterMap` recovers a filter of the
source list. -/
theorem map_filterMap_id {α β : Type} (l : List α) (f : α → Option β)
    (g : β → α) (hf : ∀ a b, f a = some b → g b = a) :
    (l.filterMap f).map g = l.filter (fun a => (f a).isSome) := by
  induction l with
  | nil => rfl
  | cons x t ih =>
    cases hfx : f x with
    | none => simp [List.filterMap_cons, hfx, ih]
    | some b => simp [List.filterMap_cons, hfx, ih, hf x b hfx]


/-- The parking selector emits at most one row per site identifier. -/
theorem maxProfitParking_ids (rows : List OutRow) :
    ((maxProfitParking rows).map (fun r => r.id)).Nodup := by
  rw [maxProfitParking, map_filterMap_id _ _ _
    (fun id r h => (bestRowFor_spec rows id r h).2.1)]
  apply List.Nodup.filter
  exact ((List.mergeSort_perm (rows.map (fun r => r.id)).dedup _).nodup_iff).2
    (List.nodup_dedup _)


/-- The residential-to-yearly adjustment touches only the pass-through
columns. -/
theorem residentialYearly_fields (m : ProForma) (r : OutRow) :
    (residentialYearly m r).id = r.id ∧
    (residentialYearly m r).building_sqft = r.building_sqft ∧
    (residentialYearly m r).residential_sqft = r.residential_sqft ∧
    (residentialYearly m r).non_residential_sqft = r.non_residential_sqft ∧
    (residentialYearly m r).max_profit = r.max_profit ∧
    (residentialYearly m r).parking_config = r.parking_config := by
  simp [residentialYearly]


/-- C9: for every row of every successful lookup result, the residential
and non-residential areas sum to building area times building
efficiency: the two splits are computed from the residential ratio r and
1 - r, which sum to one. -/
theorem C9_sqft_split (m : ProForma) (form : String) (df : DF)
    (rows : List OutRow) (r : OutRow)
    (hok : (lookup m form df).1 = Except.ok rows) (hr : r ∈ rows) :
    vAdd r.residential_sqft r.non_residential_sqft =
      vMul r.building_sqft (some m.building_efficiency) := by
  obtain ⟨all, hall, hshape⟩ :=
    lookupRun_ok_shape m form (dfAfterZoning m form df) rows hok
  · have hstep : ∃ r0, r0 ∈ maxProfitParking all ∧
        (r = r0 ∨ r = residentialYearly m r0) := by
      rcases hshape with rfl | rfl | rfl
      · cases hr
      · exact ⟨r, hr, Or.inl rfl⟩
      · obtain ⟨r0, h0, h0e⟩ := List.mem_map.1 hr
        exact ⟨r0, h0, Or.inr h0e.symm⟩
    obtain ⟨r0, h0, hform⟩ := hstep
    have h0all : r0 ∈ all := (maxProfitParking_sub all r0 h0).1
    obtain ⟨pc, -, i, -, rfl⟩ :=
      lookupConfigs_rows m form (dfAfterZoning m form df)
        m.parking_configs all hall r0 h0all
    have hident := siteRow_split m pc (dfAfterZoning m form df)
      (refTable m form pc) (lookupD m.forms form [])
      (lookupD m.res_ratios form 0) i
    rcases hform with rfl | rfl
    · exact hident
    · simpa [residentialYearly] using hident


/-- Evaluation rules for the NaN-propagating operations, used to compute
concrete pipelines without unfolding the raw definitions. -/
theorem vAdd_some (a b : ℚ) : vAdd (some a) (some b) = some (a + b) := rfl


/-- NaN absorbs on the left of an addition. -/
theorem vAdd_none_left (b : Val) : vAdd none b = none := by cases b <;> rfl


/-- NaN absorbs on the right of an addition. -/
theorem vAdd_none_right (a : Val) : vAdd a none = none := by cases a <;> rfl


/-- Evaluation rule for subtraction. -/
theorem vSub_some (a b : ℚ) : vSub (some a) (some b) = some (a - b) := rfl


/-- NaN absorbs on the left of a subtraction. -/
theorem vSub_none_left (b : Val) : vSub none b = none := by cases b <;> rfl


/-- NaN absorbs on the right of a subtraction. -/
theorem vSub_none_right (a : Val) : vSub a none = none := by cases a <;> rfl


/-- Evaluation rule for multiplication. -/
theorem vMul_some (a b : ℚ) : vMul (some a) (some b) = some (a * b) := rfl


/-- NaN absorbs on the left of a multiplication. -/
theorem vMul_none_left (b : Val) : vMul none b = none := by cases b <;> rfl


/-- NaN absorbs on the right of a multiplication. -/
theorem vMul_none_right (a : Val) : vMul a none = none := by cases a <;> rfl


/-- Evaluation rule for division by a nonzero value. -/
theorem vDiv_some_of_ne (a b : ℚ) (h : b ≠ 0) :
    vDiv (some a) (some b) = some (a / b) := by simp [vDiv, h]


/-- NaN absorbs on the left of a division. -/
theorem vDiv_none_left (b : Val) : vDiv none b = none := by cases b <;> rfl


/-- NaN absorbs on the right of a division. -/
theorem vDiv_none_right (a : Val) : vDiv a none = none := by cases a <;> rfl


/-- The tolerance comparison on two real cells. -/
theorem vGtPlus_some (a b c : ℚ) : vGtPlus (some a) (some b) c ↔ b + c < a :=
  Iff.rfl


/-- A tolerance comparison against NaN is false. -/
theorem vGtPlus_none_left (b : Val) (c : ℚ) : vGtPlus none b c ↔ False := by
  cases b <;> simp [vGtPlus]


/-- A tolerance comparison against NaN is false. -/
theorem vGtPlus_none_right (a : Val) (c : ℚ) : vGtPlus a none c ↔ False := by
  cases a <;> simp [vGtPlus]


/-- Positivity of a real cell. -/
theorem vPos_some (a : ℚ) : vPos (some a) ↔ 0 < a := Iff.rfl


/-- NaN is not positive. -/
theorem vPos_none : vPos none ↔ False := by simp [vPos]


/-- The profit order on two real cells. -/
theorem vLt_some (a b : ℚ) : vLt (some a) (some b) ↔ a < b := Iff.rfl


/-- Nothing is below negative infinity. -/
theorem vLt_none_right (a : Val) : vLt a none ↔ False := by
  cases a <;> simp [vLt]


/-- Negative infinity is below every rational. -/
theorem vLt_none_some (b : ℚ) : vLt none (some b) ↔ True := by simp [vLt]


/-- The converted form vector of the minimal engine. -/
theorem tinyPf_forms : tinyPf.forms = [("residential", [1])] := by
  simp [tinyPf, mkProForma, tinyConfig, normalizeVec, formVec, lookupD]


/-- The derived residential ratio of the minimal engine. -/
theorem tinyPf_res_ratios : tinyPf.res_ratios = [("residential", 1)] := by
  simp [tinyPf, mkProForma, tinyConfig, maskedSum, normalizeVec, formVec,
    lookupD]


/-- The reference table of the minimal engine. -/
theorem tinyRef_eval :
    refTable tinyPf "residential" PC.surface = [tinyRefRow] := by
  have hfars : tinyPf.fars = [1] := rfl
  simp only [refTable, hfars, tinyPf_forms, List.map_cons, List.map_nil]
  have hmix : lookupD [("residential", [(1:ℚ)])] "residential" [] = [1] := by
    simp [lookupD]
  rw [hmix]
  have hps : tinyPf.parcelSize = 1000 := rfl
  have hrates : tinyPf.parking_rates = [0] := by
    simp [tinyPf, mkProForma, tinyConfig, lookupD]
  have hcosts : tinyPf.costs = [[100]] := by
    simp [tinyPf, mkProForma, tinyConfig, lookupD]
  have hmonths : tinyPf.construction_months = [[12]] := by
    simp [tinyPf, mkProForma, tinyConfig, lookupD]
  simp only [refRow, buildingBulkAt, storiesOf, buildingCost,
    constructionTime, hps, hrates, hcosts, hmonths]
  have hsne : ¬ (PC.surface = PC.deck) := by simp
  simp only [if_neg hsne]
  norm_num [tinyRefRow, dotQ, pcLookup, searchsorted, qinfLt, costRow,
    np_ceil_eval, Option.map,
    show tinyPf.parcel_coverage = 4/5 from rfl,
    show tinyPf.height_per_story = (12:ℚ) from rfl,
    show tinyPf.profit_factor = (1:ℚ) from rfl,
    show tinyPf.max_retail_height = (2:ℚ) from rfl,
    show tinyPf.max_industrial_height = (2:ℚ) from rfl,
    show tinyPf.sqft_per_rate = (1000:ℚ) from rfl]


/-- Cell values of the minimal site table. -/
theorem tinyDf_mh : tinyDf.cell "max_height" 0 = none := by
  simp [DF.cell, DF.col, tinyDf, lookupD]


/-- The parcel size of the minimal site. -/
theorem tinyDf_ps : tinyDf.cell "parcel_size" 0 = some 1000 := by
  simp [DF.cell, DF.col, tinyDf, lookupD]


/-- The land cost of the minimal site. -/
theorem tinyDf_lc : tinyDf.cell "land_cost" 0 = some 1 := by
  simp [DF.cell, DF.col, tinyDf, lookupD]


/-- The zoned max far of the minimal site. -/
theorem tinyDf_mf : tinyDf.cell "max_far" 0 = some 2 := by
  simp [DF.cell, DF.col, tinyDf, lookupD]


/-- The residential rent of the minimal site. -/
theorem tinyDf_res : tinyDf.cell "residential" 0 = some 100 := by
  simp [DF.cell, DF.col, tinyDf, lookupD]


/-- The weighted rent of the minimal site. -/
theorem tinyWrent_eval :
    vDot (tinyPf.uses.map (fun u => tinyDf.cell u 0)) [1] = some 100 := by
  norm_num [show tinyPf.uses = ["residential"] from rfl, tinyDf_res,
    vDot, vAdd_some, vMul_some]


/-- The effective max far of the minimal site. -/
theorem tinyMinMax_eval : minMaxFars tinyPf 1 tinyDf 0 = some 2 := by
  have hnd : ¬ duaApplies 1 tinyDf := by
    simp [duaApplies, DF.hasCol, DF.colNames, tinyDf]
  rw [minMaxFars, if_neg hnd]
  norm_num [maxFarFromHeights, tinyDf_mh, tinyDf_mf, vMinSkipNa,
    vMul_none_left, vDiv_none_left]


/-- The profit cell of the minimal engine. -/
theorem tinyCell_eval :
    mkCell tinyPf tinyDf 0 (some 2) (some 100) tinyRefRow = tinyCell := by
  norm_num [mkCell, farCell, tinyDf_mh, tinyDf_ps, tinyDf_lc,
    tinyRefRow, tinyCell,
    vAdd_some, vAdd_none_left, vAdd_none_right,
    vSub_some, vSub_none_left, vSub_none_right,
    vMul_some, vMul_none_left, vMul_none_right,
    vDiv_some_of_ne, vDiv_none_left, vDiv_none_right,
    vGtPlus_some, vGtPlus_none_left, vGtPlus_none_right,
    show tinyPf.loan_to_cost_ratio = (1:ℚ)/2 from rfl,
    show tinyPf.drawdown_factor = (1:ℚ)/2 from rfl,
    show tinyPf.interest_rate = (1:ℚ)/10 from rfl,
    show tinyPf.loan_fees = (1:ℚ)/50 from rfl,
    show tinyPf.building_efficiency = (1:ℚ) from rfl,
    show tinyPf.cap_rate = (1:ℚ)/20 from rfl]


/-- The output row of the minimal engine at its single site. -/
theorem tinySite_eval :
    siteRow tinyPf PC.surface tinyDf [tinyRefRow] [1] 1 0 = tinyRow := by
  simp only [siteRow, tinyWrent_eval, tinyMinMax_eval, List.map_cons,
    List.map_nil, tinyCell_eval]
  norm_num [argmaxProfit, vLt_none_right, List.getD, tinyCell, tinyRow,
    dummyCell, vMul_some, vDiv_some_of_ne, tinyDf,
    show tinyPf.height_per_story = (12:ℚ) from rfl,
    show tinyPf.building_efficiency = (1:ℚ) from rfl,
    show tinyPf.pass_through = [] from rfl]


/-- The per-configuration pass of the minimal engine keeps its single
profitable site. -/
theorem tinyCfg_eval :
    lookupParkingCfg tinyPf "residential" PC.surface tinyDf =
      Except.ok [tinyRow] := by
  have hrr : lookupD tinyPf.res_ratios "residential" 0 = 1 := by
    rw [tinyPf_res_ratios]
    simp [lookupD]
  have hmix : lookupD tinyPf.forms "residential" [] = [1] := by
    rw [tinyPf_forms]
    simp [lookupD]
  have hdua : duaCheck 1 tinyDf = Except.ok () := by
    simp [duaCheck, duaApplies, DF.hasCol, DF.colNames, tinyDf]
  simp only [lookupParkingCfg, hdua, hrr, hmix,
    show tinyPf.only_built = true from rfl, if_true,
    show tinyDf.ids.length = 1 from rfl, tinyRef_eval]
  rw [show List.range 1 = [0] from rfl]
  have hkeep : (if vPos (minMaxFars tinyPf 1 tinyDf 0) ∧
      vPos (tinyDf.cell "parcel_size" 0) then true else false) = true := by
    rw [tinyMinMax_eval, tinyDf_ps]
    norm_num [vPos_some]
  simp only [List.filter_cons, List.filter_nil, hkeep, if_true,
    List.map_cons, List.map_nil, tinySite_eval]
  have hrowkeep : keepRow tinyPf tinyRow = true := by
    rw [keepRow, if_pos (show tinyPf.only_built = true from rfl)]
    norm_num [tinyRow, vPos_some]
  simp [List.filter_cons, hrowkeep]


/-- The minimal lookup returns exactly its single row. -/
theorem tiny_lookup_eval :
    (lookup tinyPf "residential" tinyDf).1 = Except.ok [tinyRow] := by
  have hdfz : dfAfterZoning tinyPf "residential" tinyDf = tinyDf := by
    simp [dfAfterZoning, show tinyPf.simple_zoning = false from rfl]
  have hcfgs : lookupConfigs tinyPf "residential" tinyDf [PC.surface] =
      Except.ok [tinyRow] := by
    simp [lookupConfigs, tinyCfg_eval]
  show lookupRun tinyPf "residential" (dfAfterZoning tinyPf "residential" tinyDf) = _
  rw [hdfz]
  simp only [lookupRun, show tinyPf.parking_configs = [PC.surface] from rfl,
    hcfgs]
  have hmp : maxProfitParking [tinyRow] = [tinyRow] := by
    have hid : tinyRow.id = "a" := rfl
    simp only [maxProfitParking, List.map_cons, List.map_nil, hid]
    rw [show (["a"] : List String).dedup = ["a"] by simp,
      show sortedStrings ["a"] = ["a"] from List.mergeSort_singleton _]
    have hbest : bestRowFor [tinyRow] "a" = some tinyRow := by
      have hcand : candRows [tinyRow] "a" = [tinyRow] := by
        simp [candRows, pcSorted, List.find?, tinyRow]
      simp [bestRowFor, hcand, pickBest]
    simp [hbest]
  simp [hmp, show tinyPf.residential_to_yearly = false from rfl]


/-- Witness for `C9_sqft_split` at the minimal engine and its single
site. -/
theorem C9_sqft_split_witness :
    (lookup tinyPf "residential" tinyDf).1 = Except.ok [tinyRow] ∧
    vAdd tinyRow.residential_sqft tinyRow.non_residential_sqft =
      vMul tinyRow.building_sqft (some tinyPf.building_efficiency) :=
  ⟨tiny_lookup_eval,
   C9_sqft_split tinyPf "residential" tinyDf [tinyRow] tinyRow
     tiny_lookup_eval (List.mem_cons_self _ _)⟩


/-- The simple-zoning rewrite does not change the site index. -/
theorem ids_dfAfterZoning (m : ProForma) (form : String) (df : DF) :
    (dfAfterZoning m form df).ids = df.ids := by
  by_cases hs : m.simple_zoning <;>
    by_cases hf : form = "residential" <;>
    simp [dfAfterZoning, simpleZoning, DF.set, hs, hf]


/-- With a duplicate-free site index, the concatenated candidate pool has
at most one row per (site, configuration) pair: two pool rows with the
same identifier and the same configuration are equal. -/
theorem lookupConfigs_unique (m : ProForma) (form : String) (df : DF)
    (all : List OutRow)
    (hall : lookupConfigs m form (dfAfterZoning m form df)
      m.parking_configs = Except.ok all)
    (hids : df.ids.Nodup) :
    ∀ a ∈ all, ∀ b ∈ all, a.id = b.id →
      a.parking_config = b.parking_config → a = b := by
  intro a ha b hb hid hpc
  obtain ⟨pca, -, i, hi, ha2⟩ := lookupConfigs_rows m form _ _ all hall a ha
  obtain ⟨pcb, -, j, hj, hb2⟩ := lookupConfigs_rows m form _ _ all hall b hb
  have hpca : a.parking_config = pca := by rw [ha2]; rfl
  have hpcb : b.parking_config = pcb := by rw [hb2]; rfl
  have hpc2 : pca = pcb := by rw [← hpca, ← hpcb, hpc]
  have hida : a.id = (dfAfterZoning m form df).ids.getD i "" := by
    rw [ha2]; rfl
  have hidb : b.id = (dfAfterZoning m form df).ids.getD j "" := by
    rw [hb2]; rfl
  rw [ids_dfAfterZoning] at hida hidb
  rw [ids_dfAfterZoning] at hi hj
  have hij : i = j := by
    have h2 : df.ids.getD i "" = df.ids.getD j "" := by
      rw [← hida, ← hidb, hid]
    rw [List.getD_eq_getElem df.ids "" hi, List.getD_eq_getElem df.ids "" hj]
      at h2
    exact (List.Nodup.getElem_inj_iff hids).1 h2
  rw [ha2, hb2, hpc2, hij]


/-- C10: every successful lookup result has at most one row per site
identifier; each row carries one of the configured parking
configurations; and each row has the maximal profit among the
per-configuration candidate rows computed for its site (it is itself one
of those candidates). -/
theorem C10_parking_selector (m : ProForma) (form : String) (df : DF)
    (rows : List OutRow) (hok : (lookup m form df).1 = Except.ok rows)
    (hids : df.ids.Nodup) :
    (rows.map (fun r => r.id)).Nodup ∧
    (∀ r ∈ rows, r.parking_config ∈ m.parking_configs) ∧
    ∃ all, lookupConfigs m form (dfAfterZoning m form df) m.parking_configs
        = Except.ok all ∧
      ∀ r ∈ rows,
        (∃ r2 ∈ all, r2.id = r.id ∧ r2.max_profit = r.max_profit ∧
          r2.parking_config = r.parking_config) ∧
        (∀ r2 ∈ all, r2.id = r.id → vLe r2.max_profit r.max_profit) := by
  obtain ⟨all, hall, hshape⟩ :=
    lookupRun_ok_shape m form (dfAfterZoning m form df) rows hok
  have hyid : ∀ r0, ((fun r => r.id) ∘ residentialYearly m) r0 =
      (fun r => r.id) r0 := fun r0 => (residentialYearly_fields m r0).1
  have hstep : ∀ r ∈ rows, ∃ r0, r0 ∈ maxProfitParking all ∧
      (r = r0 ∨ r = residentialYearly m r0) := by
    intro r hr
    rcases hshape with rfl | rfl | rfl
    · cases hr
    · exact ⟨r, hr, Or.inl rfl⟩
    · obtain ⟨r0, h0, h0e⟩ := List.mem_map.1 hr
      exact ⟨r0, h0, Or.inr h0e.symm⟩
  have huniq := lookupConfigs_unique m form df all hall hids
  refine ⟨?_, ?_, all, hall, ?_⟩
  · rcases hshape with rfl | rfl | rfl
    · simp
    · exact maxProfitParking_ids all
    · rw [List.map_map, funext hyid]
      exact maxProfitParking_ids all
  · intro r hr
    obtain ⟨r0, h0, hform⟩ := hstep r hr
    have h0all : r0 ∈ all := (maxProfitParking_sub all r0 h0).1
    obtain ⟨pc, hpc, i, -, hr0⟩ :=
      lookupConfigs_rows m form _ _ all hall r0 h0all
    have : r.parking_config = pc := by
      rcases hform with rfl | rfl
      · rw [hr0]; rfl
      · rw [(residentialYearly_fields m r0).2.2.2.2.2, hr0]; rfl
    rw [this]
    exact hpc
  · intro r hr
    obtain ⟨r0, h0, hform⟩ := hstep r hr
    obtain ⟨h0all, hbest⟩ := maxProfitParking_sub all r0 h0
    have hfid : r.id = r0.id ∧ r.max_profit = r0.max_profit ∧
        r.parking_config = r0.parking_config := by
      rcases hform with rfl | rfl
      · exact ⟨rfl, rfl, rfl⟩
      · obtain ⟨h1, -, -, -, h5, h6⟩ := residentialYearly_fields m r0
        exact ⟨h1, h5, h6⟩
    refine ⟨⟨r0, h0all, hfid.1.symm, hfid.2.1.symm, hfid.2.2.symm⟩, ?_⟩
    intro r2 h2 h2id
    rw [hfid.2.1]
    have h2cand : r2 ∈ candRows all r0.id := by
      apply mem_candRows all r0.id r2 h2 (by rw [h2id, hfid.1])
      intro r3 h3 h3id h3pc
      exact huniq r3 h3 r2 h2 (by rw [h3id, h2id, hfid.1]) h3pc
    exact (bestRowFor_spec all r0.id r0 hbest).2.2 r2 h2cand


/-- Witness for `C10_parking_selector` at the minimal engine. -/
theorem C10_parking_selector_witness :
    tinyDf.ids.Nodup ∧
    ((([tinyRow] : List OutRow).map (fun r => r.id)).Nodup ∧
     (∀ r ∈ ([tinyRow] : List OutRow),
       r.parking_config ∈ tinyPf.parking_configs) ∧
     ∃ all, lookupConfigs tinyPf "residential"
         (dfAfterZoning tinyPf "residential" tinyDf) tinyPf.parking_configs
         = Except.ok all ∧
       ∀ r ∈ ([tinyRow] : List OutRow),
         (∃ r2 ∈ all, r2.id = r.id ∧ r2.max_profit = r.max_profit ∧
           r2.parking_config = r.parking_config) ∧
         (∀ r2 ∈ all, r2.id = r.id → vLe r2.max_profit r.max_profit)) := by
  have hn : tinyDf.ids.Nodup := by simp [tinyDf]
  exact ⟨hn, C10_parking_selector tinyPf "residential" tinyDf [tinyRow]
    tiny_lookup_eval hn⟩


/-- Summing a vector divided elementwise by a scalar. -/
theorem sum_map_div (v : List ℚ) (s : ℚ) :
    (v.map (fun x => x / s)).sum = v.sum / s := by
  induction v with
  | nil => simp
  | cons x t ih => simp [ih, add_div]


/-- A normalized use-fraction vector sums to one. -/
theorem normalizeVec_sum (v : List ℚ) (h : v.sum ≠ 0) :
    (normalizeVec v).sum = 1 := by
  unfold normalizeVec
  rw [sum_map_div, div_self h]


/-- Normalizing an already normalized vector changes nothing. -/
theorem normalizeVec_idem (v : List ℚ) (h : v.sum = 1) :
    normalizeVec v = v := by
  unfold normalizeVec
  rw [h]
  simp


/-- Looking up a key that is absent gives the default. -/
theorem lookupD_eq_default {α : Type} (l : List (String × α)) (u : String)
    (d : α) (h : u ∉ l.map Prod.fst) : lookupD l u d = d := by
  induction l with
  | nil => rfl
  | cons p t ih =>
    obtain ⟨k, v⟩ := p
    simp only [List.map_cons, List.mem_cons] at h
    push_neg at h
    simp only [lookupD]
    rw [if_neg (fun he : k = u => h.1 he.symm)]
    exact ih h.2


/-- Looking up a use outside the key list of a filtered zip gives the
default. -/
theorem lookupD_filter_zip_default {α : Type} (u : String)
    (us : List String) (xs : List α) (p : String × α → Bool) (d : α)
    (h : u ∉ us) :
    lookupD ((us.zip xs).filter p) u d = d := by
  apply lookupD_eq_default
  intro hmem
  simp only [List.mem_map] at hmem
  obtain ⟨⟨k, v⟩, hkv, hk⟩ := hmem
  exact h (hk ▸ (List.of_mem_zip (List.mem_of_mem_filter hkv)).1)


/-- Mapping every use through lookup into the use-keyed zip recovers the
original vector when the uses are distinct. -/
theorem zip_lookup_eval {α : Type} (uses : List String) (vec : List α)
    (d : α) (hn : uses.Nodup) (hl : vec.length = uses.length) :
    uses.map (fun u => lookupD (uses.zip vec) u d) = vec := by
  induction uses generalizing vec with
  | nil =>
    cases vec with
    | nil => rfl
    | cons x xs => simp at hl
  | cons u us ih =>
    cases vec with
    | nil => simp at hl
    | cons x xs =>
      rw [List.nodup_cons] at hn
      simp only [List.zip_cons_cons, List.map_cons, List.cons.injEq]
      constructor
      · simp [lookupD]
      · have hmap : us.map (fun u2 => lookupD ((u, x) :: us.zip xs) u2 d)
            = us.map (fun u2 => lookupD (us.zip xs) u2 d) := by
          apply List.map_congr_left
          intro u2 hu2
          simp only [lookupD]
          rw [if_neg (fun he : u = u2 => hn.1 (he ▸ hu2))]
        rw [hmap]
        exact ih xs hn.2 (by simpa using hl)


/-- Mapping every use through lookup into the zero-filtered use-keyed zip
recovers the original vector when the uses are distinct. -/
theorem zip_filter_lookup_eval (uses : List String) (vec : List ℚ)
    (hn : uses.Nodup) (hl : vec.length = uses.length) :
    uses.map (fun u => lookupD ((uses.zip vec).filter
      (fun q => if q.2 = 0 then false else true)) u 0) = vec := by
  induction uses generalizing vec with
  | nil =>
    cases vec with
    | nil => rfl
    | cons x xs => simp at hl
  | cons u us ih =>
    cases vec with
    | nil => simp at hl
    | cons x xs =>
      rw [List.nodup_cons] at hn
      by_cases hx : x = 0
      · have hp : (((u, x) :: us.zip xs).filter
              (fun q => if q.2 = 0 then false else true))
            = (us.zip xs).filter (fun q => if q.2 = 0 then false else true) := by
          rw [List.filter_cons]
          simp [hx]
        rw [List.zip_cons_cons, hp]
        simp only [List.map_cons]
        rw [lookupD_filter_zip_default u us xs _ 0 hn.1, hx]
        congr 1
        exact ih xs hn.2 (by simpa using hl)
      · have hp : (((u, x) :: us.zip xs).filter
              (fun q => if q.2 = 0 then false else true))
            = (u, x) :: (us.zip xs).filter
                (fun q => if q.2 = 0 then false else true) := by
          rw [List.filter_cons]
          simp [hx]
        rw [List.zip_cons_cons, hp]
        simp only [List.map_cons]
        congr 1
        · simp [lookupD]
        · have hmap : us.map (fun u2 => lookupD ((u, x) ::
              (us.zip xs).filter (fun q => if q.2 = 0 then false else true))
                u2 0)
              = us.map (fun u2 => lookupD ((us.zip xs).filter
                  (fun q => if q.2 = 0 then false else true)) u2 0) := by
            apply List.map_congr_left
            intro u2 hu2
            simp only [lookupD]
            rw [if_neg (fun he : u = u2 => hn.1 (he ▸ hu2))]
          rw [hmap]
          exact ih xs hn.2 (by simpa using hl)


/-- Re-resolving an already resolved forms-to-test list with the same key
set is a no-op. -/
theorem resolveFormsToTest_idem (o : Option (List String))
    (K : List String) :
    resolveFormsToTest (some (resolveFormsToTest o K)) K
      = resolveFormsToTest o K := by
  cases o with
  | none => simp [resolveFormsToTest, ite_self]
  | some l =>
    by_cases hl : l = [] <;> simp [resolveFormsToTest, hl, ite_self]


/-- Rebuilding the engine from its own dump reproduces the engine state,
provided the use names are distinct and every declared form has a nonzero
total use weight (so that normalization is well defined). -/
theorem mkProForma_toDict (c : RawConfig) (hn : c.uses.Nodup)
    (hsum : ∀ p ∈ c.forms, (formVec c.uses p.2).sum ≠ 0) :
    mkProForma (toDict (mkProForma c)) = mkProForma c := by
  have hrates : (mkProForma (toDict (mkProForma c))).parking_rates
      = (mkProForma c).parking_rates :=
    zip_lookup_eval c.uses (mkProForma c).parking_rates 0 hn
      (by simp [mkProForma])
  have hcosts : (mkProForma (toDict (mkProForma c))).costs
      = (mkProForma c).costs :=
    zip_lookup_eval c.uses (mkProForma c).costs [] hn (by simp [mkProForma])
  have hmonths : (mkProForma (toDict (mkProForma c))).construction_months
      = (mkProForma c).construction_months :=
    zip_lookup_eval c.uses (mkProForma c).construction_months [] hn
      (by simp [mkProForma])
  have hforms : (mkProForma (toDict (mkProForma c))).forms
      = (mkProForma c).forms := by
    show ((c.forms.map (fun p => (p.1, normalizeVec (formVec c.uses p.2)))).map
          (fun p => (p.1, (c.uses.zip p.2).filter
            (fun q => if q.2 = 0 then false else true)))).map
        (fun p => (p.1, normalizeVec (formVec c.uses p.2)))
      = c.forms.map (fun p => (p.1, normalizeVec (formVec c.uses p.2)))
    rw [List.map_map, List.map_map]
    apply List.map_congr_left
    intro p hp
    show (p.1, normalizeVec (formVec c.uses ((c.uses.zip
          (normalizeVec (formVec c.uses p.2))).filter
          (fun q => if q.2 = 0 then false else true))))
        = (p.1, normalizeVec (formVec c.uses p.2))
    rw [show formVec c.uses ((c.uses.zip
          (normalizeVec (formVec c.uses p.2))).filter
          (fun q => if q.2 = 0 then false else true))
        = normalizeVec (formVec c.uses p.2) from
        zip_filter_lookup_eval c.uses _ hn (by simp [normalizeVec, formVec]),
      normalizeVec_idem _ (normalizeVec_sum _ (hsum p hp))]
  have hratios : (mkProForma (toDict (mkProForma c))).res_ratios
      = (mkProForma c).res_ratios := by
    show ((c.forms.map (fun p => (p.1, normalizeVec (formVec c.uses p.2)))).map
          (fun p => (p.1, (c.uses.zip p.2).filter
            (fun q => if q.2 = 0 then false else true)))).map
        (fun p => (p.1, maskedSum (normalizeVec (formVec c.uses p.2))
          c.residential_uses))
      = c.forms.map (fun p => (p.1, maskedSum (normalizeVec (formVec c.uses p.2))
          c.residential_uses))
    rw [List.map_map, List.map_map]
    apply List.map_congr_left
    intro p hp
    show (p.1, maskedSum (normalizeVec (formVec c.uses ((c.uses.zip
          (normalizeVec (formVec c.uses p.2))).filter
          (fun q => if q.2 = 0 then false else true)))) c.residential_uses)
        = (p.1, maskedSum (normalizeVec (formVec c.uses p.2))
          c.residential_uses)
    rw [show formVec c.uses ((c.uses.zip
          (normalizeVec (formVec c.uses p.2))).filter
          (fun q => if q.2 = 0 then false else true))
        = normalizeVec (formVec c.uses p.2) from
        zip_filter_lookup_eval c.uses _ hn (by simp [normalizeVec, formVec]),
      normalizeVec_idem _ (normalizeVec_sum _ (hsum p hp))]
  have hkeys : ((toDict (mkProForma c)).forms.map Prod.fst)
      = c.forms.map Prod.fst := by
    show (((c.forms.map (fun p => (p.1, normalizeVec (formVec c.uses p.2)))).map
          (fun p => (p.1, (c.uses.zip p.2).filter
            (fun q => if q.2 = 0 then false else true)))).map Prod.fst)
      = c.forms.map Prod.fst
    rw [List.map_map, List.map_map]
    apply List.map_congr_left
    intro p hp
    rfl
  have hftt : (mkProForma (toDict (mkProForma c))).forms_to_test
      = (mkProForma c).forms_to_test := by
    show resolveFormsToTest (some (mkProForma c).forms_to_test)
        (sortedStrings ((toDict (mkProForma c)).forms.map Prod.fst))
      = (mkProForma c).forms_to_test
    rw [hkeys]
    exact resolveFormsToTest_idem c.forms_to_test
      (sortedStrings (c.forms.map Prod.fst))
  apply ProForma.ext <;>
    first
      | rfl
      | exact hforms
      | exact hratios
      | exact hrates
      | exact hcosts
      | exact hmonths
      | exact hftt


/-- C8: for every parameter bundle whose use names are distinct and whose
forms each carry a nonzero total use weight, dumping the constructed
engine to its declarative representation and reloading it produces an
equivalent engine: the reloaded engine's declarative dump is
field-for-field equal to the original engine's dump, and its derived
reference table equals the original's. -/
theorem C8_roundtrip (c : RawConfig) (hn : c.uses.Nodup)
    (hsum : ∀ p ∈ c.forms, (formVec c.uses p.2).sum ≠ 0) :
    toDict (mkProForma (toDict (mkProForma c))) = toDict (mkProForma c) ∧
    reference (mkProForma (toDict (mkProForma c)))
      = reference (mkProForma c) := by
  have key := mkProForma_toDict c hn hsum
  exact ⟨congrArg toDict key, congrArg reference key⟩


theorem C8_roundtrip_witness :
    defaultConfig.uses.Nodup ∧
    (∀ p ∈ defaultConfig.forms,
      (formVec defaultConfig.uses p.2).sum ≠ 0) ∧
    (toDict (mkProForma (toDict (mkProForma defaultConfig)))
        = toDict (mkProForma defaultConfig) ∧
      reference (mkProForma (toDict (mkProForma defaultConfig)))
        = reference (mkProForma defaultConfig)) := by
  have hn : defaultConfig.uses.Nodup := by simp [defaultConfig]
  have hsum : ∀ p ∈ defaultConfig.forms,
      (formVec defaultConfig.uses p.2).sum ≠ 0 := by
    intro p hp
    simp only [defaultConfig, List.mem_cons, List.not_mem_nil, or_false] at hp
    rcases hp with rfl | rfl | rfl | rfl | rfl | rfl
    all_goals simp [formVec, lookupD, defaultConfig]
    all_goals norm_num
  exact ⟨hn, hsum, C8_roundtrip defaultConfig hn hsum⟩


/-- The configured far grid of the default engine. -/
theorem pfDef_fars : pfDef.fars = [1/10, 1/4, 1/2, 3/4, 1, 3/2, 9/5, 2, 9/4, 5/2, 11/4, 3, 13/4, 7/2, 15/4, 4, 9/2, 5, 11/2, 6, 13/2, 7, 9, 11] := rfl


/-- The residential cell of site 0 of the scenario table. -/
theorem C1df_res0 : dfC1.cell "residential" 0 = some (30) := by
  simp [DF.cell, DF.col, dfC1, lookupD]


/-- The residential cell of site 1 of the scenario table. -/
theorem C1df_res1 : dfC1.cell "residential" 1 = some (20) := by
  simp [DF.cell, DF.col, dfC1, lookupD]


/-- The residential cell of site 2 of the scenario table. -/
theorem C1df_res2 : dfC1.cell "residential" 2 = some (10) := by
  simp [DF.cell, DF.col, dfC1, lookupD]


/-- The office cell of site 0 of the scenario table. -/
theorem C1df_off0 : dfC1.cell "office" 0 = some (15) := by
  simp [DF.cell, DF.col, dfC1, lookupD]


/-- The office cell of site 1 of the scenario table. -/
theorem C1df_off1 : dfC1.cell "office" 1 = some (15) := by
  simp [DF.cell, DF.col, dfC1, lookupD]


/-- The office cell of site 2 of the scenario table. -/
theorem C1df_off2 : dfC1.cell "office" 2 = some (15) := by
  simp [DF.cell, DF.col, dfC1, lookupD]


/-- The retail cell of site 0 of the scenario table. -/
theorem C1df_ret0 : dfC1.cell "retail" 0 = some (12) := by
  simp [DF.cell, DF.col, dfC1, lookupD]


/-- The retail cell of site 1 of the scenario table. -/
theorem C1df_ret1 : dfC1.cell "retail" 1 = some (12) := by
  simp [DF.cell, DF.col, dfC1, lookupD]


/-- The retail cell of site 2 of the scenario table. -/
theorem C1df_ret2 : dfC1.cell "retail" 2 = some (12) := by
  simp [DF.cell, DF.col, dfC1, lookupD]


/-- The industrial cell of site 0 of the scenario table. -/
theorem C1df_ind0 : dfC1.cell "industrial" 0 = some (12) := by
  simp [DF.cell, DF.col, dfC1, lookupD]


/-- The industrial cell of site 1 of the scenario table. -/
theorem C1df_ind1 : dfC1.cell "industrial" 1 = some (12) := by
  simp [DF.cell, DF.col, dfC1, lookupD]


/-- The industrial cell of site 2 of the scenario table. -/
theorem C1df_ind2 : dfC1.cell "industrial" 2 = some (12) := by
  simp [DF.cell, DF.col, dfC1, lookupD]


/-- The land_cost cell of site 0 of the scenario table. -/
theorem C1df_lc0 : dfC1.cell "land_cost" 0 = some (100000) := by
  simp [DF.cell, DF.col, dfC1, lookupD]


/-- The land_cost cell of site 1 of the scenario table. -/
theorem C1df_lc1 : dfC1.cell "land_cost" 1 = some (100000) := by
  simp [DF.cell, DF.col, dfC1, lookupD]


/-- The land_cost cell of site 2 of the scenario table. -/
theorem C1df_lc2 : dfC1.cell "land_cost" 2 = some (100000) := by
  simp [DF.cell, DF.col, dfC1, lookupD]


/-- The parcel_size cell of site 0 of the scenario table. -/
theorem C1df_ps0 : dfC1.cell "parcel_size" 0 = some (1000) := by
  simp [DF.cell, DF.col, dfC1, lookupD]


/-- The parcel_size cell of site 1 of the scenario table. -/
theorem C1df_ps1 : dfC1.cell "parcel_size" 1 = some (1000) := by
  simp [DF.cell, DF.col, dfC1, lookupD]


/-- The parcel_size cell of site 2 of the scenario table. -/
theorem C1df_ps2 : dfC1.cell "parcel_size" 2 = some (1000) := by
  simp [DF.cell, DF.col, dfC1, lookupD]


/-- The max_far cell of site 0 of the scenario table. -/
theorem C1df_mf0 : dfC1.cell "max_far" 0 = some (2) := by
  simp [DF.cell, DF.col, dfC1, lookupD]


/-- The max_far cell of site 1 of the scenario table. -/
theorem C1df_mf1 : dfC1.cell "max_far" 1 = some (2) := by
  simp [DF.cell, DF.col, dfC1, lookupD]


/-- The max_far cell of site 2 of the scenario table. -/
theorem C1df_mf2 : dfC1.cell "max_far" 2 = some (2) := by
  simp [DF.cell, DF.col, dfC1, lookupD]


/-- The max_height cell of site 0 of the scenario table. -/
theorem C1df_mh0 : dfC1.cell "max_height" 0 = some (80) := by
  simp [DF.cell, DF.col, dfC1, lookupD]


/-- The max_height cell of site 1 of the scenario table. -/
theorem C1df_mh1 : dfC1.cell "max_height" 1 = some (80) := by
  simp [DF.cell, DF.col, dfC1, lookupD]


/-- The max_height cell of site 2 of the scenario table. -/
theorem C1df_mh2 : dfC1.cell "max_height" 2 = some (80) := by
  simp [DF.cell, DF.col, dfC1, lookupD]


/-- The use-mix weighted rent of site 0 of the scenario table. -/
theorem C1wrent0 :
    vDot (pfDef.uses.map (fun u => dfC1.cell u 0)) [0, 0, 0, 1] = some (30) := by
  norm_num [pfDef_uses, C1df_ret0, C1df_ind0, C1df_off0, C1df_res0,
    vDot, vAdd_some, vMul_some]


/-- The use-mix weighted rent of site 1 of the scenario table. -/
theorem C1wrent1 :
    vDot (pfDef.uses.map (fun u => dfC1.cell u 1)) [0, 0, 0, 1] = some (20) := by
  norm_num [pfDef_uses, C1df_ret1, C1df_ind1, C1df_off1, C1df_res1,
    vDot, vAdd_some, vMul_some]


/-- The use-mix weighted rent of site 2 of the scenario table. -/
theorem C1wrent2 :
    vDot (pfDef.uses.map (fun u => dfC1.cell u 2)) [0, 0, 0, 1] = some (10) := by
  norm_num [pfDef_uses, C1df_ret2, C1df_ind2, C1df_off2, C1df_res2,
    vDot, vAdd_some, vMul_some]


/-- The effective max far of site 0: min(80 / 12 * 0.8, 2) = 2. -/
theorem C1minmax0 : minMaxFars pfDef 1 dfC1 0 = some 2 := by
  have hnd : ¬ duaApplies 1 dfC1 := by
    simp [duaApplies, DF.hasCol, DF.colNames, dfC1]
  rw [minMaxFars, if_neg hnd]
  norm_num [maxFarFromHeights, C1df_mh0, C1df_mf0, vMinSkipNa,
    vMul_some, vDiv_some_of_ne, pfDef_hps, min_def,
    show pfDef.parcel_coverage = (4:ℚ)/5 from rfl]


/-- The effective max far of site 1: min(80 / 12 * 0.8, 2) = 2. -/
theorem C1minmax1 : minMaxFars pfDef 1 dfC1 1 = some 2 := by
  have hnd : ¬ duaApplies 1 dfC1 := by
    simp [duaApplies, DF.hasCol, DF.colNames, dfC1]
  rw [minMaxFars, if_neg hnd]
  norm_num [maxFarFromHeights, C1df_mh1, C1df_mf1, vMinSkipNa,
    vMul_some, vDiv_some_of_ne, pfDef_hps, min_def,
    show pfDef.parcel_coverage = (4:ℚ)/5 from rfl]


/-- The effective max far of site 2: min(80 / 12 * 0.8, 2) = 2. -/
theorem C1minmax2 : minMaxFars pfDef 1 dfC1 2 = some 2 := by
  have hnd : ¬ duaApplies 1 dfC1 := by
    simp [duaApplies, DF.hasCol, DF.colNames, dfC1]
  rw [minMaxFars, if_neg hnd]
  norm_num [maxFarFromHeights, C1df_mh2, C1df_mf2, vMinSkipNa,
    vMul_some, vDiv_some_of_ne, pfDef_hps, min_def,
    show pfDef.parcel_coverage = (4:ℚ)/5 from rfl]


/-- The per-stall parking area of the surface configuration. -/
theorem C1psqS : pcLookup pfDef.parking_sqft_d PC.surface = 300 := by
  simp [pcLookup, show pfDef.parking_sqft_d =
    [(PC.deck, 250), (PC.surface, 300), (PC.underground, 250)] from rfl]


/-- The parking cost-per-area of the surface configuration. -/
theorem C1pcoS : pcLookup pfDef.parking_cost_d PC.surface = 30 := by
  simp [pcLookup, show pfDef.parking_cost_d =
    [(PC.deck, 90), (PC.surface, 30), (PC.underground, 110)] from rfl]


/-- The per-stall parking area of the deck configuration. -/
theorem C1psqD : pcLookup pfDef.parking_sqft_d PC.deck = 250 := by
  simp [pcLookup, show pfDef.parking_sqft_d =
    [(PC.deck, 250), (PC.surface, 300), (PC.underground, 250)] from rfl]


/-- The parking cost-per-area of the deck configuration. -/
theorem C1pcoD : pcLookup pfDef.parking_cost_d PC.deck = 90 := by
  simp [pcLookup, show pfDef.parking_cost_d =
    [(PC.deck, 90), (PC.surface, 30), (PC.underground, 110)] from rfl]


/-- The per-stall parking area of the underground configuration. -/
theorem C1psqU : pcLookup pfDef.parking_sqft_d PC.underground = 250 := by
  simp [pcLookup, show pfDef.parking_sqft_d =
    [(PC.deck, 250), (PC.surface, 300), (PC.underground, 250)] from rfl]


/-- The parking cost-per-area of the underground configuration. -/
theorem C1pcoU : pcLookup pfDef.parking_cost_d PC.underground = 110 := by
  simp [pcLookup, show pfDef.parking_cost_d =
    [(PC.deck, 90), (PC.surface, 30), (PC.underground, 110)] from rfl]


/-- Reference row 0 (far 1/10) of the residential/surface table. -/
theorem C1refS0 :
    refRow pfDef "residential" [0, 0, 0, 1] PC.surface (1/10) =
      ⟨1/10, 10000, 1000, 1, 0, 1000, 0, some (25/194), some (1), some (12), some (170), some (170000), 9000, some (179000), some (1969/10), 12⟩ := by
  have hne : ¬ (PC.surface = PC.deck) := by simp
  simp only [refRow, buildingBulkAt, storiesOf, buildingCost,
    constructionTime, pfDef_parcelSize, pfDef_parking_rates, pfDef_costs,
    pfDef_months, pfDef_heights, if_neg hne]
  norm_num [dotQ, searchsorted, qinfLt, costRow, np_ceil_eval,
    Option.map, C1psqS, C1psqD, C1psqU, C1pcoS, C1pcoD, C1pcoU,
    show (("residential":String) = "retail") = False from by simp,
    show (("residential":String) = "industrial") = False from by simp,
    show pfDef.parcel_coverage = (4:ℚ)/5 from rfl,
    show pfDef.height_per_story = (12:ℚ) from rfl,
    show pfDef.profit_factor = (11:ℚ)/10 from rfl,
    show pfDef.max_retail_height = (2:ℚ) from rfl,
    show pfDef.max_industrial_height = (2:ℚ) from rfl,
    show pfDef.sqft_per_rate = (1000:ℚ) from rfl,
    show pfDef.construction_sqft_for_months = [QInf.val 10000, QInf.val 20000, QInf.val 50000, QInf.inf] from rfl]


/-- Reference row 1 (far 1/4) of the residential/surface table. -/
theorem C1refS1 :
    refRow pfDef "residential" [0, 0, 0, 1] PC.surface (1/4) =
      ⟨1/4, 10000, 2500, 5/2, 0, 2500, 0, some (25/74), some (1), some (12), some (170), some (425000), 22500, some (447500), some (1969/10), 12⟩ := by
  have hne : ¬ (PC.surface = PC.deck) := by simp
  simp only [refRow, buildingBulkAt, storiesOf, buildingCost,
    constructionTime, pfDef_parcelSize, pfDef_parking_rates, pfDef_costs,
    pfDef_months, pfDef_heights, if_neg hne]
  norm_num [dotQ, searchsorted, qinfLt, costRow, np_ceil_eval,
    Option.map, C1psqS, C1psqD, C1psqU, C1pcoS, C1pcoD, C1pcoU,
    show (("residential":String) = "retail") = False from by simp,
    show (("residential":String) = "industrial") = False from by simp,
    show pfDef.parcel_coverage = (4:ℚ)/5 from rfl,
    show pfDef.height_per_story = (12:ℚ) from rfl,
    show pfDef.profit_factor = (11:ℚ)/10 from rfl,
    show pfDef.max_retail_height = (2:ℚ) from rfl,
    show pfDef.max_industrial_height = (2:ℚ) from rfl,
    show pfDef.sqft_per_rate = (1000:ℚ) from rfl,
    show pfDef.construction_sqft_for_months = [QInf.val 10000, QInf.val 20000, QInf.val 50000, QInf.inf] from rfl]


/-- Reference row 2 (far 1/2) of the residential/surface table. -/
theorem C1refS2 :
    refRow pfDef "residential" [0, 0, 0, 1] PC.surface (1/2) =
      ⟨1/2, 10000, 5000, 5, 0, 5000, 0, some (25/34), some (1), some (12), some (170), some (850000), 45000, some (895000), some (1969/10), 12⟩ := by
  have hne : ¬ (PC.surface = PC.deck) := by simp
  simp only [refRow, buildingBulkAt, storiesOf, buildingCost,
    constructionTime, pfDef_parcelSize, pfDef_parking_rates, pfDef_costs,
    pfDef_months, pfDef_heights, if_neg hne]
  norm_num [dotQ, searchsorted, qinfLt, costRow, np_ceil_eval,
    Option.map, C1psqS, C1psqD, C1psqU, C1pcoS, C1pcoD, C1pcoU,
    show (("residential":String) = "retail") = False from by simp,
    show (("residential":String) = "industrial") = False from by simp,
    show pfDef.parcel_coverage = (4:ℚ)/5 from rfl,
    show pfDef.height_per_story = (12:ℚ) from rfl,
    show pfDef.profit_factor = (11:ℚ)/10 from rfl,
    show pfDef.max_retail_height = (2:ℚ) from rfl,
    show pfDef.max_industrial_height = (2:ℚ) from rfl,
    show pfDef.sqft_per_rate = (1000:ℚ) from rfl,
    show pfDef.construction_sqft_for_months = [QInf.val 10000, QInf.val 20000, QInf.val 50000, QInf.inf] from rfl]


/-- Reference row 3 (far 3/4) of the residential/surface table. -/
theorem C1refS3 :
    refRow pfDef "residential" [0, 0, 0, 1] PC.surface (3/4) =
      ⟨3/4, 10000, 7500, 15/2, 0, 7500, 0, some (75/62), some (2), some (24), some (170), some (1275000), 67500, some (1342500), some (1969/10), 12⟩ := by
  have hne : ¬ (PC.surface = PC.deck) := by simp
  simp only [refRow, buildingBulkAt, storiesOf, buildingCost,
    constructionTime, pfDef_parcelSize, pfDef_parking_rates, pfDef_costs,
    pfDef_months, pfDef_heights, if_neg hne]
  norm_num [dotQ, searchsorted, qinfLt, costRow, np_ceil_eval,
    Option.map, C1psqS, C1psqD, C1psqU, C1pcoS, C1pcoD, C1pcoU,
    show (("residential":String) = "retail") = False from by simp,
    show (("residential":String) = "industrial") = False from by simp,
    show pfDef.parcel_coverage = (4:ℚ)/5 from rfl,
    show pfDef.height_per_story = (12:ℚ) from rfl,
    show pfDef.profit_factor = (11:ℚ)/10 from rfl,
    show pfDef.max_retail_height = (2:ℚ) from rfl,
    show pfDef.max_industrial_height = (2:ℚ) from rfl,
    show pfDef.sqft_per_rate = (1000:ℚ) from rfl,
    show pfDef.construction_sqft_for_months = [QInf.val 10000, QInf.val 20000, QInf.val 50000, QInf.inf] from rfl]


/-- Reference row 4 (far 1) of the residential/surface table. -/
theorem C1refS4 :
    refRow pfDef "residential" [0, 0, 0, 1] PC.surface (1) =
      ⟨1, 10000, 10000, 10, 0, 10000, 0, some (25/14), some (2), some (24), some (190), some (1900000), 90000, some (1990000), some (2189/10), 12⟩ := by
  have hne : ¬ (PC.surface = PC.deck) := by simp
  simp only [refRow, buildingBulkAt, storiesOf, buildingCost,
    constructionTime, pfDef_parcelSize, pfDef_parking_rates, pfDef_costs,
    pfDef_months, pfDef_heights, if_neg hne]
  norm_num [dotQ, searchsorted, qinfLt, costRow, np_ceil_eval,
    Option.map, C1psqS, C1psqD, C1psqU, C1pcoS, C1pcoD, C1pcoU,
    show (("residential":String) = "retail") = False from by simp,
    show (("residential":String) = "industrial") = False from by simp,
    show pfDef.parcel_coverage = (4:ℚ)/5 from rfl,
    show pfDef.height_per_story = (12:ℚ) from rfl,
    show pfDef.profit_factor = (11:ℚ)/10 from rfl,
    show pfDef.max_retail_height = (2:ℚ) from rfl,
    show pfDef.max_industrial_height = (2:ℚ) from rfl,
    show pfDef.sqft_per_rate = (1000:ℚ) from rfl,
    show pfDef.construction_sqft_for_months = [QInf.val 10000, QInf.val 20000, QInf.val 50000, QInf.inf] from rfl]


/-- Reference row 5 (far 3/2) of the residential/surface table. -/
theorem C1refS5 :
    refRow pfDef "residential" [0, 0, 0, 1] PC.surface (3/2) =
      ⟨3/2, 10000, 15000, 15, 0, 15000, 0, some (75/22), some (4), some (48), some (190), some (2850000), 135000, some (2985000), some (2189/10), 14⟩ := by
  have hne : ¬ (PC.surface = PC.deck) := by simp
  simp only [refRow, buildingBulkAt, storiesOf, buildingCost,
    constructionTime, pfDef_parcelSize, pfDef_parking_rates, pfDef_costs,
    pfDef_months, pfDef_heights, if_neg hne]
  norm_num [dotQ, searchsorted, qinfLt, costRow, np_ceil_eval,
    Option.map, C1psqS, C1psqD, C1psqU, C1pcoS, C1pcoD, C1pcoU,
    show (("residential":String) = "retail") = False from by simp,
    show (("residential":String) = "industrial") = False from by simp,
    show pfDef.parcel_coverage = (4:ℚ)/5 from rfl,
    show pfDef.height_per_story = (12:ℚ) from rfl,
    show pfDef.profit_factor = (11:ℚ)/10 from rfl,
    show pfDef.max_retail_height = (2:ℚ) from rfl,
    show pfDef.max_industrial_height = (2:ℚ) from rfl,
    show pfDef.sqft_per_rate = (1000:ℚ) from rfl,
    show pfDef.construction_sqft_for_months = [QInf.val 10000, QInf.val 20000, QInf.val 50000, QInf.inf] from rfl]


/-- Reference row 6 (far 9/5) of the residential/surface table. -/
theorem C1refS6 :
    refRow pfDef "residential" [0, 0, 0, 1] PC.surface (9/5) =
      ⟨9/5, 10000, 18000, 18, 0, 18000, 0, some (225/46), some (5), some (60), some (210), some (3780000), 162000, some (3942000), some (2409/10), 14⟩ := by
  have hne : ¬ (PC.surface = PC.deck) := by simp
  simp only [refRow, buildingBulkAt, storiesOf, buildingCost,
    constructionTime, pfDef_parcelSize, pfDef_parking_rates, pfDef_costs,
    pfDef_months, pfDef_heights, if_neg hne]
  norm_num [dotQ, searchsorted, qinfLt, costRow, np_ceil_eval,
    Option.map, C1psqS, C1psqD, C1psqU, C1pcoS, C1pcoD, C1pcoU,
    show (("residential":String) = "retail") = False from by simp,
    show (("residential":String) = "industrial") = False from by simp,
    show pfDef.parcel_coverage = (4:ℚ)/5 from rfl,
    show pfDef.height_per_story = (12:ℚ) from rfl,
    show pfDef.profit_factor = (11:ℚ)/10 from rfl,
    show pfDef.max_retail_height = (2:ℚ) from rfl,
    show pfDef.max_industrial_height = (2:ℚ) from rfl,
    show pfDef.sqft_per_rate = (1000:ℚ) from rfl,
    show pfDef.construction_sqft_for_months = [QInf.val 10000, QInf.val 20000, QInf.val 50000, QInf.inf] from rfl]


/-- Reference row 7 (far 2) of the residential/surface table. -/
theorem C1refS7 :
    refRow pfDef "residential" [0, 0, 0, 1] PC.surface (2) =
      ⟨2, 10000, 20000, 20, 0, 20000, 0, some (25/4), some (7), some (84), some (210), some (4200000), 180000, some (4380000), some (2409/10), 14⟩ := by
  have hne : ¬ (PC.surface = PC.deck) := by simp
  simp only [refRow, buildingBulkAt, storiesOf, buildingCost,
    constructionTime, pfDef_parcelSize, pfDef_parking_rates, pfDef_costs,
    pfDef_months, pfDef_heights, if_neg hne]
  norm_num [dotQ, searchsorted, qinfLt, costRow, np_ceil_eval,
    Option.map, C1psqS, C1psqD, C1psqU, C1pcoS, C1pcoD, C1pcoU,
    show (("residential":String) = "retail") = False from by simp,
    show (("residential":String) = "industrial") = False from by simp,
    show pfDef.parcel_coverage = (4:ℚ)/5 from rfl,
    show pfDef.height_per_story = (12:ℚ) from rfl,
    show pfDef.profit_factor = (11:ℚ)/10 from rfl,
    show pfDef.max_retail_height = (2:ℚ) from rfl,
    show pfDef.max_industrial_height = (2:ℚ) from rfl,
    show pfDef.sqft_per_rate = (1000:ℚ) from rfl,
    show pfDef.construction_sqft_for_months = [QInf.val 10000, QInf.val 20000, QInf.val 50000, QInf.inf] from rfl]


/-- Reference row 8 (far 9/4) of the residential/surface table. -/
theorem C1refS8 :
    refRow pfDef "residential" [0, 0, 0, 1] PC.surface (9/4) =
      ⟨9/4, 10000, 22500, 45/2, 0, 22500, 0, none, none, none, none, none, 202500, none, none, 18⟩ := by
  have hne : ¬ (PC.surface = PC.deck) := by simp
  simp only [refRow, buildingBulkAt, storiesOf, buildingCost,
    constructionTime, pfDef_parcelSize, pfDef_parking_rates, pfDef_costs,
    pfDef_months, pfDef_heights, if_neg hne]
  norm_num [dotQ, searchsorted, qinfLt, costRow, np_ceil_eval,
    Option.map, C1psqS, C1psqD, C1psqU, C1pcoS, C1pcoD, C1pcoU,
    show (("residential":String) = "retail") = False from by simp,
    show (("residential":String) = "industrial") = False from by simp,
    show pfDef.parcel_coverage = (4:ℚ)/5 from rfl,
    show pfDef.height_per_story = (12:ℚ) from rfl,
    show pfDef.profit_factor = (11:ℚ)/10 from rfl,
    show pfDef.max_retail_height = (2:ℚ) from rfl,
    show pfDef.max_industrial_height = (2:ℚ) from rfl,
    show pfDef.sqft_per_rate = (1000:ℚ) from rfl,
    show pfDef.construction_sqft_for_months = [QInf.val 10000, QInf.val 20000, QInf.val 50000, QInf.inf] from rfl]


/-- Reference row 9 (far 5/2) of the residential/surface table. -/
theorem C1refS9 :
    refRow pfDef "residential" [0, 0, 0, 1] PC.surface (5/2) =
      ⟨5/2, 10000, 25000, 25, 0, 25000, 0, none, none, none, none, none, 225000, none, none, 18⟩ := by
  have hne : ¬ (PC.surface = PC.deck) := by simp
  simp only [refRow, buildingBulkAt, storiesOf, buildingCost,
    constructionTime, pfDef_parcelSize, pfDef_parking_rates, pfDef_costs,
    pfDef_months, pfDef_heights, if_neg hne]
  norm_num [dotQ, searchsorted, qinfLt, costRow, np_ceil_eval,
    Option.map, C1psqS, C1psqD, C1psqU, C1pcoS, C1pcoD, C1pcoU,
    show (("residential":String) = "retail") = False from by simp,
    show (("residential":String) = "industrial") = False from by simp,
    show pfDef.parcel_coverage = (4:ℚ)/5 from rfl,
    show pfDef.height_per_story = (12:ℚ) from rfl,
    show pfDef.profit_factor = (11:ℚ)/10 from rfl,
    show pfDef.max_retail_height = (2:ℚ) from rfl,
    show pfDef.max_industrial_height = (2:ℚ) from rfl,
    show pfDef.sqft_per_rate = (1000:ℚ) from rfl,
    show pfDef.construction_sqft_for_months = [QInf.val 10000, QInf.val 20000, QInf.val 50000, QInf.inf] from rfl]


/-- Reference row 10 (far 11/4) of the residential/surface table. -/
theorem C1refS10 :
    refRow pfDef "residential" [0, 0, 0, 1] PC.surface (11/4) =
      ⟨11/4, 10000, 27500, 55/2, 0, 27500, 0, none, none, none, none, none, 247500, none, none, 18⟩ := by
  have hne : ¬ (PC.surface = PC.deck) := by simp
  simp only [refRow, buildingBulkAt, storiesOf, buildingCost,
    constructionTime, pfDef_parcelSize, pfDef_parking_rates, pfDef_costs,
    pfDef_months, pfDef_heights, if_neg hne]
  norm_num [dotQ, searchsorted, qinfLt, costRow, np_ceil_eval,
    Option.map, C1psqS, C1psqD, C1psqU, C1pcoS, C1pcoD, C1pcoU,
    show (("residential":String) = "retail") = False from by simp,
    show (("residential":String) = "industrial") = False from by simp,
    show pfDef.parcel_coverage = (4:ℚ)/5 from rfl,
    show pfDef.height_per_story = (12:ℚ) from rfl,
    show pfDef.profit_factor = (11:ℚ)/10 from rfl,
    show pfDef.max_retail_height = (2:ℚ) from rfl,
    show pfDef.max_industrial_height = (2:ℚ) from rfl,
    show pfDef.sqft_per_rate = (1000:ℚ) from rfl,
    show pfDef.construction_sqft_for_months = [QInf.val 10000, QInf.val 20000, QInf.val 50000, QInf.inf] from rfl]


/-- Reference row 11 (far 3) of the residential/surface table. -/
theorem C1refS11 :
    refRow pfDef "residential" [0, 0, 0, 1] PC.surface (3) =
      ⟨3, 10000, 30000, 30, 0, 30000, 0, none, none, none, none, none, 270000, none, none, 18⟩ := by
  have hne : ¬ (PC.surface = PC.deck) := by simp
  simp only [refRow, buildingBulkAt, storiesOf, buildingCost,
    constructionTime, pfDef_parcelSize, pfDef_parking_rates, pfDef_costs,
    pfDef_months, pfDef_heights, if_neg hne]
  norm_num [dotQ, searchsorted, qinfLt, costRow, np_ceil_eval,
    Option.map, C1psqS, C1psqD, C1psqU, C1pcoS, C1pcoD, C1pcoU,
    show (("residential":String) = "retail") = False from by simp,
    show (("residential":String) = "industrial") = False from by simp,
    show pfDef.parcel_coverage = (4:ℚ)/5 from rfl,
    show pfDef.height_per_story = (12:ℚ) from rfl,
    show pfDef.profit_factor = (11:ℚ)/10 from rfl,
    show pfDef.max_retail_height = (2:ℚ) from rfl,
    show pfDef.max_industrial_height = (2:ℚ) from rfl,
    show pfDef.sqft_per_rate = (1000:ℚ) from rfl,
    show pfDef.construction_sqft_for_months = [QInf.val 10000, QInf.val 20000, QInf.val 50000, QInf.inf] from rfl]


/-- Reference row 12 (far 13/4) of the residential/surface table. -/
theorem C1refS12 :
    refRow pfDef "residential" [0, 0, 0, 1] PC.surface (13/4) =
      ⟨13/4, 10000, 32500, 65/2, 0, 32500, 0, none, none, none, none, none, 292500, none, none, 18⟩ := by
  have hne : ¬ (PC.surface = PC.deck) := by simp
  simp only [refRow, buildingBulkAt, storiesOf, buildingCost,
    constructionTime, pfDef_parcelSize, pfDef_parking_rates, pfDef_costs,
    pfDef_months, pfDef_heights, if_neg hne]
  norm_num [dotQ, searchsorted, qinfLt, costRow, np_ceil_eval,
    Option.map, C1psqS, C1psqD, C1psqU, C1pcoS, C1pcoD, C1pcoU,
    show (("residential":String) = "retail") = False from by simp,
    show (("residential":String) = "industrial") = False from by simp,
    show pfDef.parcel_coverage = (4:ℚ)/5 from rfl,
    show pfDef.height_per_story = (12:ℚ) from rfl,
    show pfDef.profit_factor = (11:ℚ)/10 from rfl,
    show pfDef.max_retail_height = (2:ℚ) from rfl,
    show pfDef.max_industrial_height = (2:ℚ) from rfl,
    show pfDef.sqft_per_rate = (1000:ℚ) from rfl,
    show pfDef.construction_sqft_for_months = [QInf.val 10000, QInf.val 20000, QInf.val 50000, QInf.inf] from rfl]


/-- Reference row 13 (far 7/2) of the residential/surface table. -/
theorem C1refS13 :
    refRow pfDef "residential" [0, 0, 0, 1] PC.surface (7/2) =
      ⟨7/2, 10000, 35000, 35, 0, 35000, 0, none, none, none, none, none, 315000, none, none, 18⟩ := by
  have hne : ¬ (PC.surface = PC.deck) := by simp
  simp only [refRow, buildingBulkAt, storiesOf, buildingCost,
    constructionTime, pfDef_parcelSize, pfDef_parking_rates, pfDef_costs,
    pfDef_months, pfDef_heights, if_neg hne]
  norm_num [dotQ, searchsorted, qinfLt, costRow, np_ceil_eval,
    Option.map, C1psqS, C1psqD, C1psqU, C1pcoS, C1pcoD, C1pcoU,
    show (("residential":String) = "retail") = False from by simp,
    show (("residential":String) = "industrial") = False from by simp,
    show pfDef.parcel_coverage = (4:ℚ)/5 from rfl,
    show pfDef.height_per_story = (12:ℚ) from rfl,
    show pfDef.profit_factor = (11:ℚ)/10 from rfl,
    show pfDef.max_retail_height = (2:ℚ) from rfl,
    show pfDef.max_industrial_height = (2:ℚ) from rfl,
    show pfDef.sqft_per_rate = (1000:ℚ) from rfl,
    show pfDef.construction_sqft_for_months = [QInf.val 10000, QInf.val 20000, QInf.val 50000, QInf.inf] from rfl]


/-- Reference row 14 (far 15/4) of the residential/surface table. -/
theorem C1refS14 :
    refRow pfDef "residential" [0, 0, 0, 1] PC.surface (15/4) =
      ⟨15/4, 10000, 37500, 75/2, 0, 37500, 0, none, none, none, none, none, 337500, none, none, 18⟩ := by
  have hne : ¬ (PC.surface = PC.deck) := by simp
  simp only [refRow, buildingBulkAt, storiesOf, buildingCost,
    constructionTime, pfDef_parcelSize, pfDef_parking_rates, pfDef_costs,
    pfDef_months, pfDef_heights, if_neg hne]
  norm_num [dotQ, searchsorted, qinfLt, costRow, np_ceil_eval,
    Option.map, C1psqS, C1psqD, C1psqU, C1pcoS, C1pcoD, C1pcoU,
    show (("residential":String) = "retail") = False from by simp,
    show (("residential":String) = "industrial") = False from by simp,
    show pfDef.parcel_coverage = (4:ℚ)/5 from rfl,
    show pfDef.height_per_story = (12:ℚ) from rfl,
    show pfDef.profit_factor = (11:ℚ)/10 from rfl,
    show pfDef.max_retail_height = (2:ℚ) from rfl,
    show pfDef.max_industrial_height = (2:ℚ) from rfl,
    show pfDef.sqft_per_rate = (1000:ℚ) from rfl,
    show pfDef.construction_sqft_for_months = [QInf.val 10000, QInf.val 20000, QInf.val 50000, QInf.inf] from rfl]


/-- Reference row 15 (far 4) of the residential/surface table. -/
theorem C1refS15 :
    refRow pfDef "residential" [0, 0, 0, 1] PC.surface (4) =
      ⟨4, 10000, 40000, 40, 0, 40000, 0, none, none, none, none, none, 360000, none, none, 18⟩ := by
  have hne : ¬ (PC.surface = PC.deck) := by simp
  simp only [refRow, buildingBulkAt, storiesOf, buildingCost,
    constructionTime, pfDef_parcelSize, pfDef_parking_rates, pfDef_costs,
    pfDef_months, pfDef_heights, if_neg hne]
  norm_num [dotQ, searchsorted, qinfLt, costRow, np_ceil_eval,
    Option.map, C1psqS, C1psqD, C1psqU, C1pcoS, C1pcoD, C1pcoU,
    show (("residential":String) = "retail") = False from by simp,
    show (("residential":String) = "industrial") = False from by simp,
    show pfDef.parcel_coverage = (4:ℚ)/5 from rfl,
    show pfDef.height_per_story = (12:ℚ) from rfl,
    show pfDef.profit_factor = (11:ℚ)/10 from rfl,
    show pfDef.max_retail_height = (2:ℚ) from rfl,
    show pfDef.max_industrial_height = (2:ℚ) from rfl,
    show pfDef.sqft_per_rate = (1000:ℚ) from rfl,
    show pfDef.construction_sqft_for_months = [QInf.val 10000, QInf.val 20000, QInf.val 50000, QInf.inf] from rfl]


/-- Reference row 16 (far 9/2) of the residential/surface table. -/
theorem C1refS16 :
    refRow pfDef "residential" [0, 0, 0, 1] PC.surface (9/2) =
      ⟨9/2, 10000, 45000, 45, 0, 45000, 0, none, none, none, none, none, 405000, none, none, 18⟩ := by
  have hne : ¬ (PC.surface = PC.deck) := by simp
  simp only [refRow, buildingBulkAt, storiesOf, buildingCost,
    constructionTime, pfDef_parcelSize, pfDef_parking_rates, pfDef_costs,
    pfDef_months, pfDef_heights, if_neg hne]
  norm_num [dotQ, searchsorted, qinfLt, costRow, np_ceil_eval,
    Option.map, C1psqS, C1psqD, C1psqU, C1pcoS, C1pcoD, C1pcoU,
    show (("residential":String) = "retail") = False from by simp,
    show (("residential":String) = "industrial") = False from by simp,
    show pfDef.parcel_coverage = (4:ℚ)/5 from rfl,
    show pfDef.height_per_story = (12:ℚ) from rfl,
    show pfDef.profit_factor = (11:ℚ)/10 from rfl,
    show pfDef.max_retail_height = (2:ℚ) from rfl,
    show pfDef.max_industrial_height = (2:ℚ) from rfl,
    show pfDef.sqft_per_rate = (1000:ℚ) from rfl,
    show pfDef.construction_sqft_for_months = [QInf.val 10000, QInf.val 20000, QInf.val 50000, QInf.inf] from rfl]


/-- Reference row 17 (far 5) of the residential/surface table. -/
theorem C1refS17 :
    refRow pfDef "residential" [0, 0, 0, 1] PC.surface (5) =
      ⟨5, 10000, 50000, 50, 0, 50000, 0, none, none, none, none, none, 450000, none, none, 18⟩ := by
  have hne : ¬ (PC.surface = PC.deck) := by simp
  simp only [refRow, buildingBulkAt, storiesOf, buildingCost,
    constructionTime, pfDef_parcelSize, pfDef_parking_rates, pfDef_costs,
    pfDef_months, pfDef_heights, if_neg hne]
  norm_num [dotQ, searchsorted, qinfLt, costRow, np_ceil_eval,
    Option.map, C1psqS, C1psqD, C1psqU, C1pcoS, C1pcoD, C1pcoU,
    show (("residential":String) = "retail") = False from by simp,
    show (("residential":String) = "industrial") = False from by simp,
    show pfDef.parcel_coverage = (4:ℚ)/5 from rfl,
    show pfDef.height_per_story = (12:ℚ) from rfl,
    show pfDef.profit_factor = (11:ℚ)/10 from rfl,
    show pfDef.max_retail_height = (2:ℚ) from rfl,
    show pfDef.max_industrial_height = (2:ℚ) from rfl,
    show pfDef.sqft_per_rate = (1000:ℚ) from rfl,
    show pfDef.construction_sqft_for_months = [QInf.val 10000, QInf.val 20000, QInf.val 50000, QInf.inf] from rfl]


/-- Reference row 18 (far 11/2) of the residential/surface table. -/
theorem C1refS18 :
    refRow pfDef "residential" [0, 0, 0, 1] PC.surface (11/2) =
      ⟨11/2, 10000, 55000, 55, 0, 55000, 0, none, none, none, none, none, 495000, none, none, 24⟩ := by
  have hne : ¬ (PC.surface = PC.deck) := by simp
  simp only [refRow, buildingBulkAt, storiesOf, buildingCost,
    constructionTime, pfDef_parcelSize, pfDef_parking_rates, pfDef_costs,
    pfDef_months, pfDef_heights, if_neg hne]
  norm_num [dotQ, searchsorted, qinfLt, costRow, np_ceil_eval,
    Option.map, C1psqS, C1psqD, C1psqU, C1pcoS, C1pcoD, C1pcoU,
    show (("residential":String) = "retail") = False from by simp,
    show (("residential":String) = "industrial") = False from by simp,
    show pfDef.parcel_coverage = (4:ℚ)/5 from rfl,
    show pfDef.height_per_story = (12:ℚ) from rfl,
    show pfDef.profit_factor = (11:ℚ)/10 from rfl,
    show pfDef.max_retail_height = (2:ℚ) from rfl,
    show pfDef.max_industrial_height = (2:ℚ) from rfl,
    show pfDef.sqft_per_rate = (1000:ℚ) from rfl,
    show pfDef.construction_sqft_for_months = [QInf.val 10000, QInf.val 20000, QInf.val 50000, QInf.inf] from rfl]


/-- Reference row 19 (far 6) of the residential/surface table. -/
theorem C1refS19 :
    refRow pfDef "residential" [0, 0, 0, 1] PC.surface (6) =
      ⟨6, 10000, 60000, 60, 0, 60000, 0, none, none, none, none, none, 540000, none, none, 24⟩ := by
  have hne : ¬ (PC.surface = PC.deck) := by simp
  simp only [refRow, buildingBulkAt, storiesOf, buildingCost,
    constructionTime, pfDef_parcelSize, pfDef_parking_rates, pfDef_costs,
    pfDef_months, pfDef_heights, if_neg hne]
  norm_num [dotQ, searchsorted, qinfLt, costRow, np_ceil_eval,
    Option.map, C1psqS, C1psqD, C1psqU, C1pcoS, C1pcoD, C1pcoU,
    show (("residential":String) = "retail") = False from by simp,
    show (("residential":String) = "industrial") = False from by simp,
    show pfDef.parcel_coverage = (4:ℚ)/5 from rfl,
    show pfDef.height_per_story = (12:ℚ) from rfl,
    show pfDef.profit_factor = (11:ℚ)/10 from rfl,
    show pfDef.max_retail_height = (2:ℚ) from rfl,
    show pfDef.max_industrial_height = (2:ℚ) from rfl,
    show pfDef.sqft_per_rate = (1000:ℚ) from rfl,
    show pfDef.construction_sqft_for_months = [QInf.val 10000, QInf.val 20000, QInf.val 50000, QInf.inf] from rfl]


/-- Reference row 20 (far 13/2) of the residential/surface table. -/
theorem C1refS20 :
    refRow pfDef "residential" [0, 0, 0, 1] PC.surface (13/2) =
      ⟨13/2, 10000, 65000, 65, 0, 65000, 0, none, none, none, none, none, 585000, none, none, 24⟩ := by
  have hne : ¬ (PC.surface = PC.deck) := by simp
  simp only [refRow, buildingBulkAt, storiesOf, buildingCost,
    constructionTime, pfDef_parcelSize, pfDef_parking_rates, pfDef_costs,
    pfDef_months, pfDef_heights, if_neg hne]
  norm_num [dotQ, searchsorted, qinfLt, costRow, np_ceil_eval,
    Option.map, C1psqS, C1psqD, C1psqU, C1pcoS, C1pcoD, C1pcoU,
    show (("residential":String) = "retail") = False from by simp,
    show (("residential":String) = "industrial") = False from by simp,
    show pfDef.parcel_coverage = (4:ℚ)/5 from rfl,
    show pfDef.height_per_story = (12:ℚ) from rfl,
    show pfDef.profit_factor = (11:ℚ)/10 from rfl,
    show pfDef.max_retail_height = (2:ℚ) from rfl,
    show pfDef.max_industrial_height = (2:ℚ) from rfl,
    show pfDef.sqft_per_rate = (1000:ℚ) from rfl,
    show pfDef.construction_sqft_for_months = [QInf.val 10000, QInf.val 20000, QInf.val 50000, QInf.inf] from rfl]


/-- Reference row 21 (far 7) of the residential/surface table. -/
theorem C1refS21 :
    refRow pfDef "residential" [0, 0, 0, 1] PC.surface (7) =
      ⟨7, 10000, 70000, 70, 0, 70000, 0, none, none, none, none, none, 630000, none, none, 24⟩ := by
  have hne : ¬ (PC.surface = PC.deck) := by simp
  simp only [refRow, buildingBulkAt, storiesOf, buildingCost,
    constructionTime, pfDef_parcelSize, pfDef_parking_rates, pfDef_costs,
    pfDef_months, pfDef_heights, if_neg hne]
  norm_num [dotQ, searchsorted, qinfLt, costRow, np_ceil_eval,
    Option.map, C1psqS, C1psqD, C1psqU, C1pcoS, C1pcoD, C1pcoU,
    show (("residential":String) = "retail") = False from by simp,
    show (("residential":String) = "industrial") = False from by simp,
    show pfDef.parcel_coverage = (4:ℚ)/5 from rfl,
    show pfDef.height_per_story = (12:ℚ) from rfl,
    show pfDef.profit_factor = (11:ℚ)/10 from rfl,
    show pfDef.max_retail_height = (2:ℚ) from rfl,
    show pfDef.max_industrial_height = (2:ℚ) from rfl,
    show pfDef.sqft_per_rate = (1000:ℚ) from rfl,
    show pfDef.construction_sqft_for_months = [QInf.val 10000, QInf.val 20000, QInf.val 50000, QInf.inf] from rfl]


/-- Reference row 22 (far 9) of the residential/surface table. -/
theorem C1refS22 :
    refRow pfDef "residential" [0, 0, 0, 1] PC.surface (9) =
      ⟨9, 10000, 90000, 90, 0, 90000, 0, none, none, none, none, none, 810000, none, none, 24⟩ := by
  have hne : ¬ (PC.surface = PC.deck) := by simp
  simp only [refRow, buildingBulkAt, storiesOf, buildingCost,
    constructionTime, pfDef_parcelSize, pfDef_parking_rates, pfDef_costs,
    pfDef_months, pfDef_heights, if_neg hne]
  norm_num [dotQ, searchsorted, qinfLt, costRow, np_ceil_eval,
    Option.map, C1psqS, C1psqD, C1psqU, C1pcoS, C1pcoD, C1pcoU,
    show (("residential":String) = "retail") = False from by simp,
    show (("residential":String) = "industrial") = False from by simp,
    show pfDef.parcel_coverage = (4:ℚ)/5 from rfl,
    show pfDef.height_per_story = (12:ℚ) from rfl,
    show pfDef.profit_factor = (11:ℚ)/10 from rfl,
    show pfDef.max_retail_height = (2:ℚ) from rfl,
    show pfDef.max_industrial_height = (2:ℚ) from rfl,
    show pfDef.sqft_per_rate = (1000:ℚ) from rfl,
    show pfDef.construction_sqft_for_months = [QInf.val 10000, QInf.val 20000, QInf.val 50000, QInf.inf] from rfl]


/-- Reference row 23 (far 11) of the residential/surface table. -/
theorem C1refS23 :
    refRow pfDef "residential" [0, 0, 0, 1] PC.surface (11) =
      ⟨11, 10000, 110000, 110, 0, 110000, 0, none, none, none, none, none, 990000, none, none, 24⟩ := by
  have hne : ¬ (PC.surface = PC.deck) := by simp
  simp only [refRow, buildingBulkAt, storiesOf, buildingCost,
    constructionTime, pfDef_parcelSize, pfDef_parking_rates, pfDef_costs,
    pfDef_months, pfDef_heights, if_neg hne]
  norm_num [dotQ, searchsorted, qinfLt, costRow, np_ceil_eval,
    Option.map, C1psqS, C1psqD, C1psqU, C1pcoS, C1pcoD, C1pcoU,
    show (("residential":String) = "retail") = False from by simp,
    show (("residential":String) = "industrial") = False from by simp,
    show pfDef.parcel_coverage = (4:ℚ)/5 from rfl,
    show pfDef.height_per_story = (12:ℚ) from rfl,
    show pfDef.profit_factor = (11:ℚ)/10 from rfl,
    show pfDef.max_retail_height = (2:ℚ) from rfl,
    show pfDef.max_industrial_height = (2:ℚ) from rfl,
    show pfDef.sqft_per_rate = (1000:ℚ) from rfl,
    show pfDef.construction_sqft_for_months = [QInf.val 10000, QInf.val 20000, QInf.val 50000, QInf.inf] from rfl]


/-- Reference row 0 (far 1/10) of the residential/deck table. -/
theorem C1refD0 :
    refRow pfDef "residential" [0, 0, 0, 1] PC.deck (1/10) =
      ⟨1/10, 10000, 800, 4/5, 200, 1000, 1/5, some (1/8), some (1), some (12), some (170), some (136000), 18000, some (154000), some (847/5), 12⟩ := by
  simp only [refRow, buildingBulkAt, storiesOf, buildingCost,
    constructionTime, pfDef_parcelSize, pfDef_parking_rates, pfDef_costs,
    pfDef_months, pfDef_heights, if_pos rfl]
  norm_num [dotQ, searchsorted, qinfLt, costRow, np_ceil_eval,
    Option.map, C1psqS, C1psqD, C1psqU, C1pcoS, C1pcoD, C1pcoU,
    show (("residential":String) = "retail") = False from by simp,
    show (("residential":String) = "industrial") = False from by simp,
    show pfDef.parcel_coverage = (4:ℚ)/5 from rfl,
    show pfDef.height_per_story = (12:ℚ) from rfl,
    show pfDef.profit_factor = (11:ℚ)/10 from rfl,
    show pfDef.max_retail_height = (2:ℚ) from rfl,
    show pfDef.max_industrial_height = (2:ℚ) from rfl,
    show pfDef.sqft_per_rate = (1000:ℚ) from rfl,
    show pfDef.construction_sqft_for_months = [QInf.val 10000, QInf.val 20000, QInf.val 50000, QInf.inf] from rfl]


/-- Reference row 1 (far 1/4) of the residential/deck table. -/
theorem C1refD1 :
    refRow pfDef "residential" [0, 0, 0, 1] PC.deck (1/4) =
      ⟨1/4, 10000, 2000, 2, 500, 2500, 1/5, some (5/16), some (1), some (12), some (170), some (340000), 45000, some (385000), some (847/5), 12⟩ := by
  simp only [refRow, buildingBulkAt, storiesOf, buildingCost,
    constructionTime, pfDef_parcelSize, pfDef_parking_rates, pfDef_costs,
    pfDef_months, pfDef_heights, if_pos rfl]
  norm_num [dotQ, searchsorted, qinfLt, costRow, np_ceil_eval,
    Option.map, C1psqS, C1psqD, C1psqU, C1pcoS, C1pcoD, C1pcoU,
    show (("residential":String) = "retail") = False from by simp,
    show (("residential":String) = "industrial") = False from by simp,
    show pfDef.parcel_coverage = (4:ℚ)/5 from rfl,
    show pfDef.height_per_story = (12:ℚ) from rfl,
    show pfDef.profit_factor = (11:ℚ)/10 from rfl,
    show pfDef.max_retail_height = (2:ℚ) from rfl,
    show pfDef.max_industrial_height = (2:ℚ) from rfl,
    show pfDef.sqft_per_rate = (1000:ℚ) from rfl,
    show pfDef.construction_sqft_for_months = [QInf.val 10000, QInf.val 20000, QInf.val 50000, QInf.inf] from rfl]


/-- Reference row 2 (far 1/2) of the residential/deck table. -/
theorem C1refD2 :
    refRow pfDef "residential" [0, 0, 0, 1] PC.deck (1/2) =
      ⟨1/2, 10000, 4000, 4, 1000, 5000, 1/5, some (5/8), some (1), some (12), some (170), some (680000), 90000, some (770000), some (847/5), 12⟩ := by
  simp only [refRow, buildingBulkAt, storiesOf, buildingCost,
    constructionTime, pfDef_parcelSize, pfDef_parking_rates, pfDef_costs,
    pfDef_months, pfDef_heights, if_pos rfl]
  norm_num [dotQ, searchsorted, qinfLt, costRow, np_ceil_eval,
    Option.map, C1psqS, C1psqD, C1psqU, C1pcoS, C1pcoD, C1pcoU,
    show (("residential":String) = "retail") = False from by simp,
    show (("residential":String) = "industrial") = False from by simp,
    show pfDef.parcel_coverage = (4:ℚ)/5 from rfl,
    show pfDef.height_per_story = (12:ℚ) from rfl,
    show pfDef.profit_factor = (11:ℚ)/10 from rfl,
    show pfDef.max_retail_height = (2:ℚ) from rfl,
    show pfDef.max_industrial_height = (2:ℚ) from rfl,
    show pfDef.sqft_per_rate = (1000:ℚ) from rfl,
    show pfDef.construction_sqft_for_months = [QInf.val 10000, QInf.val 20000, QInf.val 50000, QInf.inf] from rfl]


/-- Reference row 3 (far 3/4) of the residential/deck table. -/
theorem C1refD3 :
    refRow pfDef "residential" [0, 0, 0, 1] PC.deck (3/4) =
      ⟨3/4, 10000, 6000, 6, 1500, 7500, 1/5, some (15/16), some (1), some (12), some (170), some (1020000), 135000, some (1155000), some (847/5), 12⟩ := by
  simp only [refRow, buildingBulkAt, storiesOf, buildingCost,
    constructionTime, pfDef_parcelSize, pfDef_parking_rates, pfDef_costs,
    pfDef_months, pfDef_heights, if_pos rfl]
  norm_num [dotQ, searchsorted, qinfLt, costRow, np_ceil_eval,
    Option.map, C1psqS, C1psqD, C1psqU, C1pcoS, C1pcoD, C1pcoU,
    show (("residential":String) = "retail") = False from by simp,
    show (("residential":String) = "industrial") = False from by simp,
    show pfDef.parcel_coverage = (4:ℚ)/5 from rfl,
    show pfDef.height_per_story = (12:ℚ) from rfl,
    show pfDef.profit_factor = (11:ℚ)/10 from rfl,
    show pfDef.max_retail_height = (2:ℚ) from rfl,
    show pfDef.max_industrial_height = (2:ℚ) from rfl,
    show pfDef.sqft_per_rate = (1000:ℚ) from rfl,
    show pfDef.construction_sqft_for_months = [QInf.val 10000, QInf.val 20000, QInf.val 50000, QInf.inf] from rfl]


/-- Reference row 4 (far 1) of the residential/deck table. -/
theorem C1refD4 :
    refRow pfDef "residential" [0, 0, 0, 1] PC.deck (1) =
      ⟨1, 10000, 8000, 8, 2000, 10000, 1/5, some (5/4), some (2), some (24), some (170), some (1360000), 180000, some (1540000), some (847/5), 12⟩ := by
  simp only [refRow, buildingBulkAt, storiesOf, buildingCost,
    constructionTime, pfDef_parcelSize, pfDef_parking_rates, pfDef_costs,
    pfDef_months, pfDef_heights, if_pos rfl]
  norm_num [dotQ, searchsorted, qinfLt, costRow, np_ceil_eval,
    Option.map, C1psqS, C1psqD, C1psqU, C1pcoS, C1pcoD, C1pcoU,
    show (("residential":String) = "retail") = False from by simp,
    show (("residential":String) = "industrial") = False from by simp,
    show pfDef.parcel_coverage = (4:ℚ)/5 from rfl,
    show pfDef.height_per_story = (12:ℚ) from rfl,
    show pfDef.profit_factor = (11:ℚ)/10 from rfl,
    show pfDef.max_retail_height = (2:ℚ) from rfl,
    show pfDef.max_industrial_height = (2:ℚ) from rfl,
    show pfDef.sqft_per_rate = (1000:ℚ) from rfl,
    show pfDef.construction_sqft_for_months = [QInf.val 10000, QInf.val 20000, QInf.val 50000, QInf.inf] from rfl]


/-- Reference row 5 (far 3/2) of the residential/deck table. -/
theorem C1refD5 :
    refRow pfDef "residential" [0, 0, 0, 1] PC.deck (3/2) =
      ⟨3/2, 10000, 12000, 12, 3000, 15000, 1/5, some (15/8), some (2), some (24), some (190), some (2280000), 270000, some (2550000), some (187), 14⟩ := by
  simp only [refRow, buildingBulkAt, storiesOf, buildingCost,
    constructionTime, pfDef_parcelSize, pfDef_parking_rates, pfDef_costs,
    pfDef_months, pfDef_heights, if_pos rfl]
  norm_num [dotQ, searchsorted, qinfLt, costRow, np_ceil_eval,
    Option.map, C1psqS, C1psqD, C1psqU, C1pcoS, C1pcoD, C1pcoU,
    show (("residential":String) = "retail") = False from by simp,
    show (("residential":String) = "industrial") = False from by simp,
    show pfDef.parcel_coverage = (4:ℚ)/5 from rfl,
    show pfDef.height_per_story = (12:ℚ) from rfl,
    show pfDef.profit_factor = (11:ℚ)/10 from rfl,
    show pfDef.max_retail_height = (2:ℚ) from rfl,
    show pfDef.max_industrial_height = (2:ℚ) from rfl,
    show pfDef.sqft_per_rate = (1000:ℚ) from rfl,
    show pfDef.construction_sqft_for_months = [QInf.val 10000, QInf.val 20000, QInf.val 50000, QInf.inf] from rfl]


/-- Reference row 6 (far 9/5) of the residential/deck table. -/
theorem C1refD6 :
    refRow pfDef "residential" [0, 0, 0, 1] PC.deck (9/5) =
      ⟨9/5, 10000, 14400, 72/5, 3600, 18000, 1/5, some (9/4), some (3), some (36), some (190), some (2736000), 324000, some (3060000), some (187), 14⟩ := by
  simp only [refRow, buildingBulkAt, storiesOf, buildingCost,
    constructionTime, pfDef_parcelSize, pfDef_parking_rates, pfDef_costs,
    pfDef_months, pfDef_heights, if_pos rfl]
  norm_num [dotQ, searchsorted, qinfLt, costRow, np_ceil_eval,
    Option.map, C1psqS, C1psqD, C1psqU, C1pcoS, C1pcoD, C1pcoU,
    show (("residential":String) = "retail") = False from by simp,
    show (("residential":String) = "industrial") = False from by simp,
    show pfDef.parcel_coverage = (4:ℚ)/5 from rfl,
    show pfDef.height_per_story = (12:ℚ) from rfl,
    show pfDef.profit_factor = (11:ℚ)/10 from rfl,
    show pfDef.max_retail_height = (2:ℚ) from rfl,
    show pfDef.max_industrial_height = (2:ℚ) from rfl,
    show pfDef.sqft_per_rate = (1000:ℚ) from rfl,
    show pfDef.construction_sqft_for_months = [QInf.val 10000, QInf.val 20000, QInf.val 50000, QInf.inf] from rfl]


/-- Reference row 7 (far 2) of the residential/deck table. -/
theorem C1refD7 :
    refRow pfDef "residential" [0, 0, 0, 1] PC.deck (2) =
      ⟨2, 10000, 16000, 16, 4000, 20000, 1/5, some (5/2), some (3), some (36), some (190), some (3040000), 360000, some (3400000), some (187), 14⟩ := by
  simp only [refRow, buildingBulkAt, storiesOf, buildingCost,
    constructionTime, pfDef_parcelSize, pfDef_parking_rates, pfDef_costs,
    pfDef_months, pfDef_heights, if_pos rfl]
  norm_num [dotQ, searchsorted, qinfLt, costRow, np_ceil_eval,
    Option.map, C1psqS, C1psqD, C1psqU, C1pcoS, C1pcoD, C1pcoU,
    show (("residential":String) = "retail") = False from by simp,
    show (("residential":String) = "industrial") = False from by simp,
    show pfDef.parcel_coverage = (4:ℚ)/5 from rfl,
    show pfDef.height_per_story = (12:ℚ) from rfl,
    show pfDef.profit_factor = (11:ℚ)/10 from rfl,
    show pfDef.max_retail_height = (2:ℚ) from rfl,
    show pfDef.max_industrial_height = (2:ℚ) from rfl,
    show pfDef.sqft_per_rate = (1000:ℚ) from rfl,
    show pfDef.construction_sqft_for_months = [QInf.val 10000, QInf.val 20000, QInf.val 50000, QInf.inf] from rfl]


/-- Reference row 8 (far 9/4) of the residential/deck table. -/
theorem C1refD8 :
    refRow pfDef "residential" [0, 0, 0, 1] PC.deck (9/4) =
      ⟨9/4, 10000, 18000, 18, 4500, 22500, 1/5, some (45/16), some (3), some (36), some (190), some (3420000), 405000, some (3825000), some (187), 18⟩ := by
  simp only [refRow, buildingBulkAt, storiesOf, buildingCost,
    constructionTime, pfDef_parcelSize, pfDef_parking_rates, pfDef_costs,
    pfDef_months, pfDef_heights, if_pos rfl]
  norm_num [dotQ, searchsorted, qinfLt, costRow, np_ceil_eval,
    Option.map, C1psqS, C1psqD, C1psqU, C1pcoS, C1pcoD, C1pcoU,
    show (("residential":String) = "retail") = False from by simp,
    show (("residential":String) = "industrial") = False from by simp,
    show pfDef.parcel_coverage = (4:ℚ)/5 from rfl,
    show pfDef.height_per_story = (12:ℚ) from rfl,
    show pfDef.profit_factor = (11:ℚ)/10 from rfl,
    show pfDef.max_retail_height = (2:ℚ) from rfl,
    show pfDef.max_industrial_height = (2:ℚ) from rfl,
    show pfDef.sqft_per_rate = (1000:ℚ) from rfl,
    show pfDef.construction_sqft_for_months = [QInf.val 10000, QInf.val 20000, QInf.val 50000, QInf.inf] from rfl]


/-- Reference row 9 (far 5/2) of the residential/deck table. -/
theorem C1refD9 :
    refRow pfDef "residential" [0, 0, 0, 1] PC.deck (5/2) =
      ⟨5/2, 10000, 20000, 20, 5000, 25000, 1/5, some (25/8), some (4), some (48), some (190), some (3800000), 450000, some (4250000), some (187), 18⟩ := by
  simp only [refRow, buildingBulkAt, storiesOf, buildingCost,
    constructionTime, pfDef_parcelSize, pfDef_parking_rates, pfDef_costs,
    pfDef_months, pfDef_heights, if_pos rfl]
  norm_num [dotQ, searchsorted, qinfLt, costRow, np_ceil_eval,
    Option.map, C1psqS, C1psqD, C1psqU, C1pcoS, C1pcoD, C1pcoU,
    show (("residential":String) = "retail") = False from by simp,
    show (("residential":String) = "industrial") = False from by simp,
    show pfDef.parcel_coverage = (4:ℚ)/5 from rfl,
    show pfDef.height_per_story = (12:ℚ) from rfl,
    show pfDef.profit_factor = (11:ℚ)/10 from rfl,
    show pfDef.max_retail_height = (2:ℚ) from rfl,
    show pfDef.max_industrial_height = (2:ℚ) from rfl,
    show pfDef.sqft_per_rate = (1000:ℚ) from rfl,
    show pfDef.construction_sqft_for_months = [QInf.val 10000, QInf.val 20000, QInf.val 50000, QInf.inf] from rfl]


/-- Reference row 10 (far 11/4) of the residential/deck table. -/
theorem C1refD10 :
    refRow pfDef "residential" [0, 0, 0, 1] PC.deck (11/4) =
      ⟨11/4, 10000, 22000, 22, 5500, 27500, 1/5, some (55/16), some (4), some (48), some (190), some (4180000), 495000, some (4675000), some (187), 18⟩ := by
  simp only [refRow, buildingBulkAt, storiesOf, buildingCost,
    constructionTime, pfDef_parcelSize, pfDef_parking_rates, pfDef_costs,
    pfDef_months, pfDef_heights, if_pos rfl]
  norm_num [dotQ, searchsorted, qinfLt, costRow, np_ceil_eval,
    Option.map, C1psqS, C1psqD, C1psqU, C1pcoS, C1pcoD, C1pcoU,
    show (("residential":String) = "retail") = False from by simp,
    show (("residential":String) = "industrial") = False from by simp,
    show pfDef.parcel_coverage = (4:ℚ)/5 from rfl,
    show pfDef.height_per_story = (12:ℚ) from rfl,
    show pfDef.profit_factor = (11:ℚ)/10 from rfl,
    show pfDef.max_retail_height = (2:ℚ) from rfl,
    show pfDef.max_industrial_height = (2:ℚ) from rfl,
    show pfDef.sqft_per_rate = (1000:ℚ) from rfl,
    show pfDef.construction_sqft_for_months = [QInf.val 10000, QInf.val 20000, QInf.val 50000, QInf.inf] from rfl]


/-- Reference row 11 (far 3) of the residential/deck table. -/
theorem C1refD11 :
    refRow pfDef "residential" [0, 0, 0, 1] PC.deck (3) =
      ⟨3, 10000, 24000, 24, 6000, 30000, 1/5, some (15/4), some (4), some (48), some (190), some (4560000), 540000, some (5100000), some (187), 18⟩ := by
  simp only [refRow, buildingBulkAt, storiesOf, buildingCost,
    constructionTime, pfDef_parcelSize, pfDef_parking_rates, pfDef_costs,
    pfDef_months, pfDef_heights, if_pos rfl]
  norm_num [dotQ, searchsorted, qinfLt, costRow, np_ceil_eval,
    Option.map, C1psqS, C1psqD, C1psqU, C1pcoS, C1pcoD, C1pcoU,
    show (("residential":String) = "retail") = False from by simp,
    show (("residential":String) = "industrial") = False from by simp,
    show pfDef.parcel_coverage = (4:ℚ)/5 from rfl,
    show pfDef.height_per_story = (12:ℚ) from rfl,
    show pfDef.profit_factor = (11:ℚ)/10 from rfl,
    show pfDef.max_retail_height = (2:ℚ) from rfl,
    show pfDef.max_industrial_height = (2:ℚ) from rfl,
    show pfDef.sqft_per_rate = (1000:ℚ) from rfl,
    show pfDef.construction_sqft_for_months = [QInf.val 10000, QInf.val 20000, QInf.val 50000, QInf.inf] from rfl]


/-- Reference row 12 (far 13/4) of the residential/deck table. -/
theorem C1refD12 :
    refRow pfDef "residential" [0, 0, 0, 1] PC.deck (13/4) =
      ⟨13/4, 10000, 26000, 26, 6500, 32500, 1/5, some (65/16), some (5), some (60), some (190), some (4940000), 585000, some (5525000), some (187), 18⟩ := by
  simp only [refRow, buildingBulkAt, storiesOf, buildingCost,
    constructionTime, pfDef_parcelSize, pfDef_parking_rates, pfDef_costs,
    pfDef_months, pfDef_heights, if_pos rfl]
  norm_num [dotQ, searchsorted, qinfLt, costRow, np_ceil_eval,
    Option.map, C1psqS, C1psqD, C1psqU, C1pcoS, C1pcoD, C1pcoU,
    show (("residential":String) = "retail") = False from by simp,
    show (("residential":String) = "industrial") = False from by simp,
    show pfDef.parcel_coverage = (4:ℚ)/5 from rfl,
    show pfDef.height_per_story = (12:ℚ) from rfl,
    show pfDef.profit_factor = (11:ℚ)/10 from rfl,
    show pfDef.max_retail_height = (2:ℚ) from rfl,
    show pfDef.max_industrial_height = (2:ℚ) from rfl,
    show pfDef.sqft_per_rate = (1000:ℚ) from rfl,
    show pfDef.construction_sqft_for_months = [QInf.val 10000, QInf.val 20000, QInf.val 50000, QInf.inf] from rfl]


/-- Reference row 13 (far 7/2) of the residential/deck table. -/
theorem C1refD13 :
    refRow pfDef "residential" [0, 0, 0, 1] PC.deck (7/2) =
      ⟨7/2, 10000, 28000, 28, 7000, 35000, 1/5, some (35/8), some (5), some (60), some (190), some (5320000), 630000, some (5950000), some (187), 18⟩ := by
  simp only [refRow, buildingBulkAt, storiesOf, buildingCost,
    constructionTime, pfDef_parcelSize, pfDef_parking_rates, pfDef_costs,
    pfDef_months, pfDef_heights, if_pos rfl]
  norm_num [dotQ, searchsorted, qinfLt, costRow, np_ceil_eval,
    Option.map, C1psqS, C1psqD, C1psqU, C1pcoS, C1pcoD, C1pcoU,
    show (("residential":String) = "retail") = False from by simp,
    show (("residential":String) = "industrial") = False from by simp,
    show pfDef.parcel_coverage = (4:ℚ)/5 from rfl,
    show pfDef.height_per_story = (12:ℚ) from rfl,
    show pfDef.profit_factor = (11:ℚ)/10 from rfl,
    show pfDef.max_retail_height = (2:ℚ) from rfl,
    show pfDef.max_industrial_height = (2:ℚ) from rfl,
    show pfDef.sqft_per_rate = (1000:ℚ) from rfl,
    show pfDef.construction_sqft_for_months = [QInf.val 10000, QInf.val 20000, QInf.val 50000, QInf.inf] from rfl]


/-- Reference row 14 (far 15/4) of the residential/deck table. -/
theorem C1refD14 :
    refRow pfDef "residential" [0, 0, 0, 1] PC.deck (15/4) =
      ⟨15/4, 10000, 30000, 30, 7500, 37500, 1/5, some (75/16), some (5), some (60), some (210), some (6300000), 675000, some (6975000), some (1023/5), 18⟩ := by
  simp only [refRow, buildingBulkAt, storiesOf, buildingCost,
    constructionTime, pfDef_parcelSize, pfDef_parking_rates, pfDef_costs,
    pfDef_months, pfDef_heights, if_pos rfl]
  norm_num [dotQ, searchsorted, qinfLt, costRow, np_ceil_eval,
    Option.map, C1psqS, C1psqD, C1psqU, C1pcoS, C1pcoD, C1pcoU,
    show (("residential":String) = "retail") = False from by simp,
    show (("residential":String) = "industrial") = False from by simp,
    show pfDef.parcel_coverage = (4:ℚ)/5 from rfl,
    show pfDef.height_per_story = (12:ℚ) from rfl,
    show pfDef.profit_factor = (11:ℚ)/10 from rfl,
    show pfDef.max_retail_height = (2:ℚ) from rfl,
    show pfDef.max_industrial_height = (2:ℚ) from rfl,
    show pfDef.sqft_per_rate = (1000:ℚ) from rfl,
    show pfDef.construction_sqft_for_months = [QInf.val 10000, QInf.val 20000, QInf.val 50000, QInf.inf] from rfl]


/-- Reference row 15 (far 4) of the residential/deck table. -/
theorem C1refD15 :
    refRow pfDef "residential" [0, 0, 0, 1] PC.deck (4) =
      ⟨4, 10000, 32000, 32, 8000, 40000, 1/5, some (5), some (5), some (60), some (210), some (6720000), 720000, some (7440000), some (1023/5), 18⟩ := by
  simp only [refRow, buildingBulkAt, storiesOf, buildingCost,
    constructionTime, pfDef_parcelSize, pfDef_parking_rates, pfDef_costs,
    pfDef_months, pfDef_heights, if_pos rfl]
  norm_num [dotQ, searchsorted, qinfLt, costRow, np_ceil_eval,
    Option.map, C1psqS, C1psqD, C1psqU, C1pcoS, C1pcoD, C1pcoU,
    show (("residential":String) = "retail") = False from by simp,
    show (("residential":String) = "industrial") = False from by simp,
    show pfDef.parcel_coverage = (4:ℚ)/5 from rfl,
    show pfDef.height_per_story = (12:ℚ) from rfl,
    show pfDef.profit_factor = (11:ℚ)/10 from rfl,
    show pfDef.max_retail_height = (2:ℚ) from rfl,
    show pfDef.max_industrial_height = (2:ℚ) from rfl,
    show pfDef.sqft_per_rate = (1000:ℚ) from rfl,
    show pfDef.construction_sqft_for_months = [QInf.val 10000, QInf.val 20000, QInf.val 50000, QInf.inf] from rfl]


/-- Reference row 16 (far 9/2) of the residential/deck table. -/
theorem C1refD16 :
    refRow pfDef "residential" [0, 0, 0, 1] PC.deck (9/2) =
      ⟨9/2, 10000, 36000, 36, 9000, 45000, 1/5, some (45/8), some (6), some (72), some (210), some (7560000), 810000, some (8370000), some (1023/5), 18⟩ := by
  simp only [refRow, buildingBulkAt, storiesOf, buildingCost,
    constructionTime, pfDef_parcelSize, pfDef_parking_rates, pfDef_costs,
    pfDef_months, pfDef_heights, if_pos rfl]
  norm_num [dotQ, searchsorted, qinfLt, costRow, np_ceil_eval,
    Option.map, C1psqS, C1psqD, C1psqU, C1pcoS, C1pcoD, C1pcoU,
    show (("residential":String) = "retail") = False from by simp,
    show (("residential":String) = "industrial") = False from by simp,
    show pfDef.parcel_coverage = (4:ℚ)/5 from rfl,
    show pfDef.height_per_story = (12:ℚ) from rfl,
    show pfDef.profit_factor = (11:ℚ)/10 from rfl,
    show pfDef.max_retail_height = (2:ℚ) from rfl,
    show pfDef.max_industrial_height = (2:ℚ) from rfl,
    show pfDef.sqft_per_rate = (1000:ℚ) from rfl,
    show pfDef.construction_sqft_for_months = [QInf.val 10000, QInf.val 20000, QInf.val 50000, QInf.inf] from rfl]


/-- Reference row 17 (far 5) of the residential/deck table. -/
theorem C1refD17 :
    refRow pfDef "residential" [0, 0, 0, 1] PC.deck (5) =
      ⟨5, 10000, 40000, 40, 10000, 50000, 1/5, some (25/4), some (7), some (84), some (210), some (8400000), 900000, some (9300000), some (1023/5), 18⟩ := by
  simp only [refRow, buildingBulkAt, storiesOf, buildingCost,
    constructionTime, pfDef_parcelSize, pfDef_parking_rates, pfDef_costs,
    pfDef_months, pfDef_heights, if_pos rfl]
  norm_num [dotQ, searchsorted, qinfLt, costRow, np_ceil_eval,
    Option.map, C1psqS, C1psqD, C1psqU, C1pcoS, C1pcoD, C1pcoU,
    show (("residential":String) = "retail") = False from by simp,
    show (("residential":String) = "industrial") = False from by simp,
    show pfDef.parcel_coverage = (4:ℚ)/5 from rfl,
    show pfDef.height_per_story = (12:ℚ) from rfl,
    show pfDef.profit_factor = (11:ℚ)/10 from rfl,
    show pfDef.max_retail_height = (2:ℚ) from rfl,
    show pfDef.max_industrial_height = (2:ℚ) from rfl,
    show pfDef.sqft_per_rate = (1000:ℚ) from rfl,
    show pfDef.construction_sqft_for_months = [QInf.val 10000, QInf.val 20000, QInf.val 50000, QInf.inf] from rfl]


/-- Reference row 18 (far 11/2) of the residential/deck table. -/
theorem C1refD18 :
    refRow pfDef "residential" [0, 0, 0, 1] PC.deck (11/2) =
      ⟨11/2, 10000, 44000, 44, 11000, 55000, 1/5, some (55/8), some (7), some (84), some (210), some (9240000), 990000, some (10230000), some (1023/5), 24⟩ := by
  simp only [refRow, buildingBulkAt, storiesOf, buildingCost,
    constructionTime, pfDef_parcelSize, pfDef_parking_rates, pfDef_costs,
    pfDef_months, pfDef_heights, if_pos rfl]
  norm_num [dotQ, searchsorted, qinfLt, costRow, np_ceil_eval,
    Option.map, C1psqS, C1psqD, C1psqU, C1pcoS, C1pcoD, C1pcoU,
    show (("residential":String) = "retail") = False from by simp,
    show (("residential":String) = "industrial") = False from by simp,
    show pfDef.parcel_coverage = (4:ℚ)/5 from rfl,
    show pfDef.height_per_story = (12:ℚ) from rfl,
    show pfDef.profit_factor = (11:ℚ)/10 from rfl,
    show pfDef.max_retail_height = (2:ℚ) from rfl,
    show pfDef.max_industrial_height = (2:ℚ) from rfl,
    show pfDef.sqft_per_rate = (1000:ℚ) from rfl,
    show pfDef.construction_sqft_for_months = [QInf.val 10000, QInf.val 20000, QInf.val 50000, QInf.inf] from rfl]


/-- Reference row 19 (far 6) of the residential/deck table. -/
theorem C1refD19 :
    refRow pfDef "residential" [0, 0, 0, 1] PC.deck (6) =
      ⟨6, 10000, 48000, 48, 12000, 60000, 1/5, some (15/2), some (8), some (96), some (210), some (10080000), 1080000, some (11160000), some (1023/5), 24⟩ := by
  simp only [refRow, buildingBulkAt, storiesOf, buildingCost,
    constructionTime, pfDef_parcelSize, pfDef_parking_rates, pfDef_costs,
    pfDef_months, pfDef_heights, if_pos rfl]
  norm_num [dotQ, searchsorted, qinfLt, costRow, np_ceil_eval,
    Option.map, C1psqS, C1psqD, C1psqU, C1pcoS, C1pcoD, C1pcoU,
    show (("residential":String) = "retail") = False from by simp,
    show (("residential":String) = "industrial") = False from by simp,
    show pfDef.parcel_coverage = (4:ℚ)/5 from rfl,
    show pfDef.height_per_story = (12:ℚ) from rfl,
    show pfDef.profit_factor = (11:ℚ)/10 from rfl,
    show pfDef.max_retail_height = (2:ℚ) from rfl,
    show pfDef.max_industrial_height = (2:ℚ) from rfl,
    show pfDef.sqft_per_rate = (1000:ℚ) from rfl,
    show pfDef.construction_sqft_for_months = [QInf.val 10000, QInf.val 20000, QInf.val 50000, QInf.inf] from rfl]


/-- Reference row 20 (far 13/2) of the residential/deck table. -/
theorem C1refD20 :
    refRow pfDef "residential" [0, 0, 0, 1] PC.deck (13/2) =
      ⟨13/2, 10000, 52000, 52, 13000, 65000, 1/5, some (65/8), some (9), some (108), some (210), some (10920000), 1170000, some (12090000), some (1023/5), 24⟩ := by
  simp only [refRow, buildingBulkAt, storiesOf, buildingCost,
    constructionTime, pfDef_parcelSize, pfDef_parking_rates, pfDef_costs,
    pfDef_months, pfDef_heights, if_pos rfl]
  norm_num [dotQ, searchsorted, qinfLt, costRow, np_ceil_eval,
    Option.map, C1psqS, C1psqD, C1psqU, C1pcoS, C1pcoD, C1pcoU,
    show (("residential":String) = "retail") = False from by simp,
    show (("residential":String) = "industrial") = False from by simp,
    show pfDef.parcel_coverage = (4:ℚ)/5 from rfl,
    show pfDef.height_per_story = (12:ℚ) from rfl,
    show pfDef.profit_factor = (11:ℚ)/10 from rfl,
    show pfDef.max_retail_height = (2:ℚ) from rfl,
    show pfDef.max_industrial_height = (2:ℚ) from rfl,
    show pfDef.sqft_per_rate = (1000:ℚ) from rfl,
    show pfDef.construction_sqft_for_months = [QInf.val 10000, QInf.val 20000, QInf.val 50000, QInf.inf] from rfl]


/-- Reference row 21 (far 7) of the residential/deck table. -/
theorem C1refD21 :
    refRow pfDef "residential" [0, 0, 0, 1] PC.deck (7) =
      ⟨7, 10000, 56000, 56, 14000, 70000, 1/5, some (35/4), some (9), some (108), some (210), some (11760000), 1260000, some (13020000), some (1023/5), 24⟩ := by
  simp only [refRow, buildingBulkAt, storiesOf, buildingCost,
    constructionTime, pfDef_parcelSize, pfDef_parking_rates, pfDef_costs,
    pfDef_months, pfDef_heights, if_pos rfl]
  norm_num [dotQ, searchsorted, qinfLt, costRow, np_ceil_eval,
    Option.map, C1psqS, C1psqD, C1psqU, C1pcoS, C1pcoD, C1pcoU,
    show (("residential":String) = "retail") = False from by simp,
    show (("residential":String) = "industrial") = False from by simp,
    show pfDef.parcel_coverage = (4:ℚ)/5 from rfl,
    show pfDef.height_per_story = (12:ℚ) from rfl,
    show pfDef.profit_factor = (11:ℚ)/10 from rfl,
    show pfDef.max_retail_height = (2:ℚ) from rfl,
    show pfDef.max_industrial_height = (2:ℚ) from rfl,
    show pfDef.sqft_per_rate = (1000:ℚ) from rfl,
    show pfDef.construction_sqft_for_months = [QInf.val 10000, QInf.val 20000, QInf.val 50000, QInf.inf] from rfl]


/-- Reference row 22 (far 9) of the residential/deck table. -/
theorem C1refD22 :
    refRow pfDef "residential" [0, 0, 0, 1] PC.deck (9) =
      ⟨9, 10000, 72000, 72, 18000, 90000, 1/5, some (45/4), some (12), some (144), some (240), some (17280000), 1620000, some (18900000), some (231), 24⟩ := by
  simp only [refRow, buildingBulkAt, storiesOf, buildingCost,
    constructionTime, pfDef_parcelSize, pfDef_parking_rates, pfDef_costs,
    pfDef_months, pfDef_heights, if_pos rfl]
  norm_num [dotQ, searchsorted, qinfLt, costRow, np_ceil_eval,
    Option.map, C1psqS, C1psqD, C1psqU, C1pcoS, C1pcoD, C1pcoU,
    show (("residential":String) = "retail") = False from by simp,
    show (("residential":String) = "industrial") = False from by simp,
    show pfDef.parcel_coverage = (4:ℚ)/5 from rfl,
    show pfDef.height_per_story = (12:ℚ) from rfl,
    show pfDef.profit_factor = (11:ℚ)/10 from rfl,
    show pfDef.max_retail_height = (2:ℚ) from rfl,
    show pfDef.max_industrial_height = (2:ℚ) from rfl,
    show pfDef.sqft_per_rate = (1000:ℚ) from rfl,
    show pfDef.construction_sqft_for_months = [QInf.val 10000, QInf.val 20000, QInf.val 50000, QInf.inf] from rfl]


/-- Reference row 23 (far 11) of the residential/deck table. -/
theorem C1refD23 :
    refRow pfDef "residential" [0, 0, 0, 1] PC.deck (11) =
      ⟨11, 10000, 88000, 88, 22000, 110000, 1/5, some (55/4), some (14), some (168), some (240), some (21120000), 1980000, some (23100000), some (231), 24⟩ := by
  simp only [refRow, buildingBulkAt, storiesOf, buildingCost,
    constructionTime, pfDef_parcelSize, pfDef_parking_rates, pfDef_costs,
    pfDef_months, pfDef_heights, if_pos rfl]
  norm_num [dotQ, searchsorted, qinfLt, costRow, np_ceil_eval,
    Option.map, C1psqS, C1psqD, C1psqU, C1pcoS, C1pcoD, C1pcoU,
    show (("residential":String) = "retail") = False from by simp,
    show (("residential":String) = "industrial") = False from by simp,
    show pfDef.parcel_coverage = (4:ℚ)/5 from rfl,
    show pfDef.height_per_story = (12:ℚ) from rfl,
    show pfDef.profit_factor = (11:ℚ)/10 from rfl,
    show pfDef.max_retail_height = (2:ℚ) from rfl,
    show pfDef.max_industrial_height = (2:ℚ) from rfl,
    show pfDef.sqft_per_rate = (1000:ℚ) from rfl,
    show pfDef.construction_sqft_for_months = [QInf.val 10000, QInf.val 20000, QInf.val 50000, QInf.inf] from rfl]


/-- Reference row 0 (far 1/10) of the residential/underground table. -/
theorem C1refU0 :
    refRow pfDef "residential" [0, 0, 0, 1] PC.underground (1/10) =
      ⟨1/10, 10000, 1000, 1, 250, 1250, 1/5, some (1/8), some (1), some (12), some (170), some (170000), 27500, some (197500), some (869/5), 12⟩ := by
  have hne : ¬ (PC.underground = PC.deck) := by simp
  simp only [refRow, buildingBulkAt, storiesOf, buildingCost,
    constructionTime, pfDef_parcelSize, pfDef_parking_rates, pfDef_costs,
    pfDef_months, pfDef_heights, if_neg hne]
  norm_num [dotQ, searchsorted, qinfLt, costRow, np_ceil_eval,
    Option.map, C1psqS, C1psqD, C1psqU, C1pcoS, C1pcoD, C1pcoU,
    show (("residential":String) = "retail") = False from by simp,
    show (("residential":String) = "industrial") = False from by simp,
    show pfDef.parcel_coverage = (4:ℚ)/5 from rfl,
    show pfDef.height_per_story = (12:ℚ) from rfl,
    show pfDef.profit_factor = (11:ℚ)/10 from rfl,
    show pfDef.max_retail_height = (2:ℚ) from rfl,
    show pfDef.max_industrial_height = (2:ℚ) from rfl,
    show pfDef.sqft_per_rate = (1000:ℚ) from rfl,
    show pfDef.construction_sqft_for_months = [QInf.val 10000, QInf.val 20000, QInf.val 50000, QInf.inf] from rfl]


/-- Reference row 1 (far 1/4) of the residential/underground table. -/
theorem C1refU1 :
    refRow pfDef "residential" [0, 0, 0, 1] PC.underground (1/4) =
      ⟨1/4, 10000, 2500, 5/2, 625, 3125, 1/5, some (5/16), some (1), some (12), some (170), some (425000), 68750, some (493750), some (869/5), 12⟩ := by
  have hne : ¬ (PC.underground = PC.deck) := by simp
  simp only [refRow, buildingBulkAt, storiesOf, buildingCost,
    constructionTime, pfDef_parcelSize, pfDef_parking_rates, pfDef_costs,
    pfDef_months, pfDef_heights, if_neg hne]
  norm_num [dotQ, searchsorted, qinfLt, costRow, np_ceil_eval,
    Option.map, C1psqS, C1psqD, C1psqU, C1pcoS, C1pcoD, C1pcoU,
    show (("residential":String) = "retail") = False from by simp,
    show (("residential":String) = "industrial") = False from by simp,
    show pfDef.parcel_coverage = (4:ℚ)/5 from rfl,
    show pfDef.height_per_story = (12:ℚ) from rfl,
    show pfDef.profit_factor = (11:ℚ)/10 from rfl,
    show pfDef.max_retail_height = (2:ℚ) from rfl,
    show pfDef.max_industrial_height = (2:ℚ) from rfl,
    show pfDef.sqft_per_rate = (1000:ℚ) from rfl,
    show pfDef.construction_sqft_for_months = [QInf.val 10000, QInf.val 20000, QInf.val 50000, QInf.inf] from rfl]


/-- Reference row 2 (far 1/2) of the residential/underground table. -/
theorem C1refU2 :
    refRow pfDef "residential" [0, 0, 0, 1] PC.underground (1/2) =
      ⟨1/2, 10000, 5000, 5, 1250, 6250, 1/5, some (5/8), some (1), some (12), some (170), some (850000), 137500, some (987500), some (869/5), 12⟩ := by
  have hne : ¬ (PC.underground = PC.deck) := by simp
  simp only [refRow, buildingBulkAt, storiesOf, buildingCost,
    constructionTime, pfDef_parcelSize, pfDef_parking_rates, pfDef_costs,
    pfDef_months, pfDef_heights, if_neg hne]
  norm_num [dotQ, searchsorted, qinfLt, costRow, np_ceil_eval,
    Option.map, C1psqS, C1psqD, C1psqU, C1pcoS, C1pcoD, C1pcoU,
    show (("residential":String) = "retail") = False from by simp,
    show (("residential":String) = "industrial") = False from by simp,
    show pfDef.parcel_coverage = (4:ℚ)/5 from rfl,
    show pfDef.height_per_story = (12:ℚ) from rfl,
    show pfDef.profit_factor = (11:ℚ)/10 from rfl,
    show pfDef.max_retail_height = (2:ℚ) from rfl,
    show pfDef.max_industrial_height = (2:ℚ) from rfl,
    show pfDef.sqft_per_rate = (1000:ℚ) from rfl,
    show pfDef.construction_sqft_for_months = [QInf.val 10000, QInf.val 20000, QInf.val 50000, QInf.inf] from rfl]


/-- Reference row 3 (far 3/4) of the residential/underground table. -/
theorem C1refU3 :
    refRow pfDef "residential" [0, 0, 0, 1] PC.underground (3/4) =
      ⟨3/4, 10000, 7500, 15/2, 1875, 9375, 1/5, some (15/16), some (1), some (12), some (170), some (1275000), 206250, some (1481250), some (869/5), 12⟩ := by
  have hne : ¬ (PC.underground = PC.deck) := by simp
  simp only [refRow, buildingBulkAt, storiesOf, buildingCost,
    constructionTime, pfDef_parcelSize, pfDef_parking_rates, pfDef_costs,
    pfDef_months, pfDef_heights, if_neg hne]
  norm_num [dotQ, searchsorted, qinfLt, costRow, np_ceil_eval,
    Option.map, C1psqS, C1psqD, C1psqU, C1pcoS, C1pcoD, C1pcoU,
    show (("residential":String) = "retail") = False from by simp,
    show (("residential":String) = "industrial") = False from by simp,
    show pfDef.parcel_coverage = (4:ℚ)/5 from rfl,
    show pfDef.height_per_story = (12:ℚ) from rfl,
    show pfDef.profit_factor = (11:ℚ)/10 from rfl,
    show pfDef.max_retail_height = (2:ℚ) from rfl,
    show pfDef.max_industrial_height = (2:ℚ) from rfl,
    show pfDef.sqft_per_rate = (1000:ℚ) from rfl,
    show pfDef.construction_sqft_for_months = [QInf.val 10000, QInf.val 20000, QInf.val 50000, QInf.inf] from rfl]


/-- Reference row 4 (far 1) of the residential/underground table. -/
theorem C1refU4 :
    refRow pfDef "residential" [0, 0, 0, 1] PC.underground (1) =
      ⟨1, 10000, 10000, 10, 2500, 12500, 1/5, some (5/4), some (2), some (24), some (170), some (1700000), 275000, some (1975000), some (869/5), 14⟩ := by
  have hne : ¬ (PC.underground = PC.deck) := by simp
  simp only [refRow, buildingBulkAt, storiesOf, buildingCost,
    constructionTime, pfDef_parcelSize, pfDef_parking_rates, pfDef_costs,
    pfDef_months, pfDef_heights, if_neg hne]
  norm_num [dotQ, searchsorted, qinfLt, costRow, np_ceil_eval,
    Option.map, C1psqS, C1psqD, C1psqU, C1pcoS, C1pcoD, C1pcoU,
    show (("residential":String) = "retail") = False from by simp,
    show (("residential":String) = "industrial") = False from by simp,
    show pfDef.parcel_coverage = (4:ℚ)/5 from rfl,
    show pfDef.height_per_story = (12:ℚ) from rfl,
    show pfDef.profit_factor = (11:ℚ)/10 from rfl,
    show pfDef.max_retail_height = (2:ℚ) from rfl,
    show pfDef.max_industrial_height = (2:ℚ) from rfl,
    show pfDef.sqft_per_rate = (1000:ℚ) from rfl,
    show pfDef.construction_sqft_for_months = [QInf.val 10000, QInf.val 20000, QInf.val 50000, QInf.inf] from rfl]


/-- Reference row 5 (far 3/2) of the residential/underground table. -/
theorem C1refU5 :
    refRow pfDef "residential" [0, 0, 0, 1] PC.underground (3/2) =
      ⟨3/2, 10000, 15000, 15, 3750, 18750, 1/5, some (15/8), some (2), some (24), some (190), some (2850000), 412500, some (3262500), some (957/5), 14⟩ := by
  have hne : ¬ (PC.underground = PC.deck) := by simp
  simp only [refRow, buildingBulkAt, storiesOf, buildingCost,
    constructionTime, pfDef_parcelSize, pfDef_parking_rates, pfDef_costs,
    pfDef_months, pfDef_heights, if_neg hne]
  norm_num [dotQ, searchsorted, qinfLt, costRow, np_ceil_eval,
    Option.map, C1psqS, C1psqD, C1psqU, C1pcoS, C1pcoD, C1pcoU,
    show (("residential":String) = "retail") = False from by simp,
    show (("residential":String) = "industrial") = False from by simp,
    show pfDef.parcel_coverage = (4:ℚ)/5 from rfl,
    show pfDef.height_per_story = (12:ℚ) from rfl,
    show pfDef.profit_factor = (11:ℚ)/10 from rfl,
    show pfDef.max_retail_height = (2:ℚ) from rfl,
    show pfDef.max_industrial_height = (2:ℚ) from rfl,
    show pfDef.sqft_per_rate = (1000:ℚ) from rfl,
    show pfDef.construction_sqft_for_months = [QInf.val 10000, QInf.val 20000, QInf.val 50000, QInf.inf] from rfl]


/-- Reference row 6 (far 9/5) of the residential/underground table. -/
theorem C1refU6 :
    refRow pfDef "residential" [0, 0, 0, 1] PC.underground (9/5) =
      ⟨9/5, 10000, 18000, 18, 4500, 22500, 1/5, some (9/4), some (3), some (36), some (190), some (3420000), 495000, some (3915000), some (957/5), 18⟩ := by
  have hne : ¬ (PC.underground = PC.deck) := by simp
  simp only [refRow, buildingBulkAt, storiesOf, buildingCost,
    constructionTime, pfDef_parcelSize, pfDef_parking_rates, pfDef_costs,
    pfDef_months, pfDef_heights, if_neg hne]
  norm_num [dotQ, searchsorted, qinfLt, costRow, np_ceil_eval,
    Option.map, C1psqS, C1psqD, C1psqU, C1pcoS, C1pcoD, C1pcoU,
    show (("residential":String) = "retail") = False from by simp,
    show (("residential":String) = "industrial") = False from by simp,
    show pfDef.parcel_coverage = (4:ℚ)/5 from rfl,
    show pfDef.height_per_story = (12:ℚ) from rfl,
    show pfDef.profit_factor = (11:ℚ)/10 from rfl,
    show pfDef.max_retail_height = (2:ℚ) from rfl,
    show pfDef.max_industrial_height = (2:ℚ) from rfl,
    show pfDef.sqft_per_rate = (1000:ℚ) from rfl,
    show pfDef.construction_sqft_for_months = [QInf.val 10000, QInf.val 20000, QInf.val 50000, QInf.inf] from rfl]


/-- Reference row 7 (far 2) of the residential/underground table. -/
theorem C1refU7 :
    refRow pfDef "residential" [0, 0, 0, 1] PC.underground (2) =
      ⟨2, 10000, 20000, 20, 5000, 25000, 1/5, some (5/2), some (3), some (36), some (190), some (3800000), 550000, some (4350000), some (957/5), 18⟩ := by
  have hne : ¬ (PC.underground = PC.deck) := by simp
  simp only [refRow, buildingBulkAt, storiesOf, buildingCost,
    constructionTime, pfDef_parcelSize, pfDef_parking_rates, pfDef_costs,
    pfDef_months, pfDef_heights, if_neg hne]
  norm_num [dotQ, searchsorted, qinfLt, costRow, np_ceil_eval,
    Option.map, C1psqS, C1psqD, C1psqU, C1pcoS, C1pcoD, C1pcoU,
    show (("residential":String) = "retail") = False from by simp,
    show (("residential":String) = "industrial") = False from by simp,
    show pfDef.parcel_coverage = (4:ℚ)/5 from rfl,
    show pfDef.height_per_story = (12:ℚ) from rfl,
    show pfDef.profit_factor = (11:ℚ)/10 from rfl,
    show pfDef.max_retail_height = (2:ℚ) from rfl,
    show pfDef.max_industrial_height = (2:ℚ) from rfl,
    show pfDef.sqft_per_rate = (1000:ℚ) from rfl,
    show pfDef.construction_sqft_for_months = [QInf.val 10000, QInf.val 20000, QInf.val 50000, QInf.inf] from rfl]


/-- Reference row 8 (far 9/4) of the residential/underground table. -/
theorem C1refU8 :
    refRow pfDef "residential" [0, 0, 0, 1] PC.underground (9/4) =
      ⟨9/4, 10000, 22500, 45/2, 5625, 28125, 1/5, some (45/16), some (3), some (36), some (190), some (4275000), 618750, some (4893750), some (957/5), 18⟩ := by
  have hne : ¬ (PC.underground = PC.deck) := by simp
  simp only [refRow, buildingBulkAt, storiesOf, buildingCost,
    constructionTime, pfDef_parcelSize, pfDef_parking_rates, pfDef_costs,
    pfDef_months, pfDef_heights, if_neg hne]
  norm_num [dotQ, searchsorted, qinfLt, costRow, np_ceil_eval,
    Option.map, C1psqS, C1psqD, C1psqU, C1pcoS, C1pcoD, C1pcoU,
    show (("residential":String) = "retail") = False from by simp,
    show (("residential":String) = "industrial") = False from by simp,
    show pfDef.parcel_coverage = (4:ℚ)/5 from rfl,
    show pfDef.height_per_story = (12:ℚ) from rfl,
    show pfDef.profit_factor = (11:ℚ)/10 from rfl,
    show pfDef.max_retail_height = (2:ℚ) from rfl,
    show pfDef.max_industrial_height = (2:ℚ) from rfl,
    show pfDef.sqft_per_rate = (1000:ℚ) from rfl,
    show pfDef.construction_sqft_for_months = [QInf.val 10000, QInf.val 20000, QInf.val 50000, QInf.inf] from rfl]


/-- Reference row 9 (far 5/2) of the residential/underground table. -/
theorem C1refU9 :
    refRow pfDef "residential" [0, 0, 0, 1] PC.underground (5/2) =
      ⟨5/2, 10000, 25000, 25, 6250, 31250, 1/5, some (25/8), some (4), some (48), some (190), some (4750000), 687500, some (5437500), some (957/5), 18⟩ := by
  have hne : ¬ (PC.underground = PC.deck) := by simp
  simp only [refRow, buildingBulkAt, storiesOf, buildingCost,
    constructionTime, pfDef_parcelSize, pfDef_parking_rates, pfDef_costs,
    pfDef_months, pfDef_heights, if_neg hne]
  norm_num [dotQ, searchsorted, qinfLt, costRow, np_ceil_eval,
    Option.map, C1psqS, C1psqD, C1psqU, C1pcoS, C1pcoD, C1pcoU,
    show (("residential":String) = "retail") = False from by simp,
    show (("residential":String) = "industrial") = False from by simp,
    show pfDef.parcel_coverage = (4:ℚ)/5 from rfl,
    show pfDef.height_per_story = (12:ℚ) from rfl,
    show pfDef.profit_factor = (11:ℚ)/10 from rfl,
    show pfDef.max_retail_height = (2:ℚ) from rfl,
    show pfDef.max_industrial_height = (2:ℚ) from rfl,
    show pfDef.sqft_per_rate = (1000:ℚ) from rfl,
    show pfDef.construction_sqft_for_months = [QInf.val 10000, QInf.val 20000, QInf.val 50000, QInf.inf] from rfl]


/-- Reference row 10 (far 11/4) of the residential/underground table. -/
theorem C1refU10 :
    refRow pfDef "residential" [0, 0, 0, 1] PC.underground (11/4) =
      ⟨11/4, 10000, 27500, 55/2, 6875, 34375, 1/5, some (55/16), some (4), some (48), some (190), some (5225000), 756250, some (5981250), some (957/5), 18⟩ := by
  have hne : ¬ (PC.underground = PC.deck) := by simp
  simp only [refRow, buildingBulkAt, storiesOf, buildingCost,
    constructionTime, pfDef_parcelSize, pfDef_parking_rates, pfDef_costs,
    pfDef_months, pfDef_heights, if_neg hne]
  norm_num [dotQ, searchsorted, qinfLt, costRow, np_ceil_eval,
    Option.map, C1psqS, C1psqD, C1psqU, C1pcoS, C1pcoD, C1pcoU,
    show (("residential":String) = "retail") = False from by simp,
    show (("residential":String) = "industrial") = False from by simp,
    show pfDef.parcel_coverage = (4:ℚ)/5 from rfl,
    show pfDef.height_per_story = (12:ℚ) from rfl,
    show pfDef.profit_factor = (11:ℚ)/10 from rfl,
    show pfDef.max_retail_height = (2:ℚ) from rfl,
    show pfDef.max_industrial_height = (2:ℚ) from rfl,
    show pfDef.sqft_per_rate = (1000:ℚ) from rfl,
    show pfDef.construction_sqft_for_months = [QInf.val 10000, QInf.val 20000, QInf.val 50000, QInf.inf] from rfl]


/-- Reference row 11 (far 3) of the residential/underground table. -/
theorem C1refU11 :
    refRow pfDef "residential" [0, 0, 0, 1] PC.underground (3) =
      ⟨3, 10000, 30000, 30, 7500, 37500, 1/5, some (15/4), some (4), some (48), some (190), some (5700000), 825000, some (6525000), some (957/5), 18⟩ := by
  have hne : ¬ (PC.underground = PC.deck) := by simp
  simp only [refRow, buildingBulkAt, storiesOf, buildingCost,
    constructionTime, pfDef_parcelSize, pfDef_parking_rates, pfDef_costs,
    pfDef_months, pfDef_heights, if_neg hne]
  norm_num [dotQ, searchsorted, qinfLt, costRow, np_ceil_eval,
    Option.map, C1psqS, C1psqD, C1psqU, C1pcoS, C1pcoD, C1pcoU,
    show (("residential":String) = "retail") = False from by simp,
    show (("residential":String) = "industrial") = False from by simp,
    show pfDef.parcel_coverage = (4:ℚ)/5 from rfl,
    show pfDef.height_per_story = (12:ℚ) from rfl,
    show pfDef.profit_factor = (11:ℚ)/10 from rfl,
    show pfDef.max_retail_height = (2:ℚ) from rfl,
    show pfDef.max_industrial_height = (2:ℚ) from rfl,
    show pfDef.sqft_per_rate = (1000:ℚ) from rfl,
    show pfDef.construction_sqft_for_months = [QInf.val 10000, QInf.val 20000, QInf.val 50000, QInf.inf] from rfl]


/-- Reference row 12 (far 13/4) of the residential/underground table. -/
theorem C1refU12 :
    refRow pfDef "residential" [0, 0, 0, 1] PC.underground (13/4) =
      ⟨13/4, 10000, 32500, 65/2, 8125, 40625, 1/5, some (65/16), some (5), some (60), some (190), some (6175000), 893750, some (7068750), some (957/5), 18⟩ := by
  have hne : ¬ (PC.underground = PC.deck) := by simp
  simp only [refRow, buildingBulkAt, storiesOf, buildingCost,
    constructionTime, pfDef_parcelSize, pfDef_parking_rates, pfDef_costs,
    pfDef_months, pfDef_heights, if_neg hne]
  norm_num [dotQ, searchsorted, qinfLt, costRow, np_ceil_eval,
    Option.map, C1psqS, C1psqD, C1psqU, C1pcoS, C1pcoD, C1pcoU,
    show (("residential":String) = "retail") = False from by simp,
    show (("residential":String) = "industrial") = False from by simp,
    show pfDef.parcel_coverage = (4:ℚ)/5 from rfl,
    show pfDef.height_per_story = (12:ℚ) from rfl,
    show pfDef.profit_factor = (11:ℚ)/10 from rfl,
    show pfDef.max_retail_height = (2:ℚ) from rfl,
    show pfDef.max_industrial_height = (2:ℚ) from rfl,
    show pfDef.sqft_per_rate = (1000:ℚ) from rfl,
    show pfDef.construction_sqft_for_months = [QInf.val 10000, QInf.val 20000, QInf.val 50000, QInf.inf] from rfl]


/-- Reference row 13 (far 7/2) of the residential/underground table. -/
theorem C1refU13 :
    refRow pfDef "residential" [0, 0, 0, 1] PC.underground (7/2) =
      ⟨7/2, 10000, 35000, 35, 8750, 43750, 1/5, some (35/8), some (5), some (60), some (190), some (6650000), 962500, some (7612500), some (957/5), 18⟩ := by
  have hne : ¬ (PC.underground = PC.deck) := by simp
  simp only [refRow, buildingBulkAt, storiesOf, buildingCost,
    constructionTime, pfDef_parcelSize, pfDef_parking_rates, pfDef_costs,
    pfDef_months, pfDef_heights, if_neg hne]
  norm_num [dotQ, searchsorted, qinfLt, costRow, np_ceil_eval,
    Option.map, C1psqS, C1psqD, C1psqU, C1pcoS, C1pcoD, C1pcoU,
    show (("residential":String) = "retail") = False from by simp,
    show (("residential":String) = "industrial") = False from by simp,
    show pfDef.parcel_coverage = (4:ℚ)/5 from rfl,
    show pfDef.height_per_story = (12:ℚ) from rfl,
    show pfDef.profit_factor = (11:ℚ)/10 from rfl,
    show pfDef.max_retail_height = (2:ℚ) from rfl,
    show pfDef.max_industrial_height = (2:ℚ) from rfl,
    show pfDef.sqft_per_rate = (1000:ℚ) from rfl,
    show pfDef.construction_sqft_for_months = [QInf.val 10000, QInf.val 20000, QInf.val 50000, QInf.inf] from rfl]


/-- Reference row 14 (far 15/4) of the residential/underground table. -/
theorem C1refU14 :
    refRow pfDef "residential" [0, 0, 0, 1] PC.underground (15/4) =
      ⟨15/4, 10000, 37500, 75/2, 9375, 46875, 1/5, some (75/16), some (5), some (60), some (210), some (7875000), 1031250, some (8906250), some (209), 18⟩ := by
  have hne : ¬ (PC.underground = PC.deck) := by simp
  simp only [refRow, buildingBulkAt, storiesOf, buildingCost,
    constructionTime, pfDef_parcelSize, pfDef_parking_rates, pfDef_costs,
    pfDef_months, pfDef_heights, if_neg hne]
  norm_num [dotQ, searchsorted, qinfLt, costRow, np_ceil_eval,
    Option.map, C1psqS, C1psqD, C1psqU, C1pcoS, C1pcoD, C1pcoU,
    show (("residential":String) = "retail") = False from by simp,
    show (("residential":String) = "industrial") = False from by simp,
    show pfDef.parcel_coverage = (4:ℚ)/5 from rfl,
    show pfDef.height_per_story = (12:ℚ) from rfl,
    show pfDef.profit_factor = (11:ℚ)/10 from rfl,
    show pfDef.max_retail_height = (2:ℚ) from rfl,
    show pfDef.max_industrial_height = (2:ℚ) from rfl,
    show pfDef.sqft_per_rate = (1000:ℚ) from rfl,
    show pfDef.construction_sqft_for_months = [QInf.val 10000, QInf.val 20000, QInf.val 50000, QInf.inf] from rfl]


/-- Reference row 15 (far 4) of the residential/underground table. -/
theorem C1refU15 :
    refRow pfDef "residential" [0, 0, 0, 1] PC.underground (4) =
      ⟨4, 10000, 40000, 40, 10000, 50000, 1/5, some (5), some (5), some (60), some (210), some (8400000), 1100000, some (9500000), some (209), 18⟩ := by
  have hne : ¬ (PC.underground = PC.deck) := by simp
  simp only [refRow, buildingBulkAt, storiesOf, buildingCost,
    constructionTime, pfDef_parcelSize, pfDef_parking_rates, pfDef_costs,
    pfDef_months, pfDef_heights, if_neg hne]
  norm_num [dotQ, searchsorted, qinfLt, costRow, np_ceil_eval,
    Option.map, C1psqS, C1psqD, C1psqU, C1pcoS, C1pcoD, C1pcoU,
    show (("residential":String) = "retail") = False from by simp,
    show (("residential":String) = "industrial") = False from by simp,
    show pfDef.parcel_coverage = (4:ℚ)/5 from rfl,
    show pfDef.height_per_story = (12:ℚ) from rfl,
    show pfDef.profit_factor = (11:ℚ)/10 from rfl,
    show pfDef.max_retail_height = (2:ℚ) from rfl,
    show pfDef.max_industrial_height = (2:ℚ) from rfl,
    show pfDef.sqft_per_rate = (1000:ℚ) from rfl,
    show pfDef.construction_sqft_for_months = [QInf.val 10000, QInf.val 20000, QInf.val 50000, QInf.inf] from rfl]


/-- Reference row 16 (far 9/2) of the residential/underground table. -/
theorem C1refU16 :
    refRow pfDef "residential" [0, 0, 0, 1] PC.underground (9/2) =
      ⟨9/2, 10000, 45000, 45, 11250, 56250, 1/5, some (45/8), some (6), some (72), some (210), some (9450000), 1237500, some (10687500), some (209), 24⟩ := by
  have hne : ¬ (PC.underground = PC.deck) := by simp
  simp only [refRow, buildingBulkAt, storiesOf, buildingCost,
    constructionTime, pfDef_parcelSize, pfDef_parking_rates, pfDef_costs,
    pfDef_months, pfDef_heights, if_neg hne]
  norm_num [dotQ, searchsorted, qinfLt, costRow, np_ceil_eval,
    Option.map, C1psqS, C1psqD, C1psqU, C1pcoS, C1pcoD, C1pcoU,
    show (("residential":String) = "retail") = False from by simp,
    show (("residential":String) = "industrial") = False from by simp,
    show pfDef.parcel_coverage = (4:ℚ)/5 from rfl,
    show pfDef.height_per_story = (12:ℚ) from rfl,
    show pfDef.profit_factor = (11:ℚ)/10 from rfl,
    show pfDef.max_retail_height = (2:ℚ) from rfl,
    show pfDef.max_industrial_height = (2:ℚ) from rfl,
    show pfDef.sqft_per_rate = (1000:ℚ) from rfl,
    show pfDef.construction_sqft_for_months = [QInf.val 10000, QInf.val 20000, QInf.val 50000, QInf.inf] from rfl]


/-- Reference row 17 (far 5) of the residential/underground table. -/
theorem C1refU17 :
    refRow pfDef "residential" [0, 0, 0, 1] PC.underground (5) =
      ⟨5, 10000, 50000, 50, 12500, 62500, 1/5, some (25/4), some (7), some (84), some (210), some (10500000), 1375000, some (11875000), some (209), 24⟩ := by
  have hne : ¬ (PC.underground = PC.deck) := by simp
  simp only [refRow, buildingBulkAt, storiesOf, buildingCost,
    constructionTime, pfDef_parcelSize, pfDef_parking_rates, pfDef_costs,
    pfDef_months, pfDef_heights, if_neg hne]
  norm_num [dotQ, searchsorted, qinfLt, costRow, np_ceil_eval,
    Option.map, C1psqS, C1psqD, C1psqU, C1pcoS, C1pcoD, C1pcoU,
    show (("residential":String) = "retail") = False from by simp,
    show (("residential":String) = "industrial") = False from by simp,
    show pfDef.parcel_coverage = (4:ℚ)/5 from rfl,
    show pfDef.height_per_story = (12:ℚ) from rfl,
    show pfDef.profit_factor = (11:ℚ)/10 from rfl,
    show pfDef.max_retail_height = (2:ℚ) from rfl,
    show pfDef.max_industrial_height = (2:ℚ) from rfl,
    show pfDef.sqft_per_rate = (1000:ℚ) from rfl,
    show pfDef.construction_sqft_for_months = [QInf.val 10000, QInf.val 20000, QInf.val 50000, QInf.inf] from rfl]


/-- Reference row 18 (far 11/2) of the residential/underground table. -/
theorem C1refU18 :
    refRow pfDef "residential" [0, 0, 0, 1] PC.underground (11/2) =
      ⟨11/2, 10000, 55000, 55, 13750, 68750, 1/5, some (55/8), some (7), some (84), some (210), some (11550000), 1512500, some (13062500), some (209), 24⟩ := by
  have hne : ¬ (PC.underground = PC.deck) := by simp
  simp only [refRow, buildingBulkAt, storiesOf, buildingCost,
    constructionTime, pfDef_parcelSize, pfDef_parking_rates, pfDef_costs,
    pfDef_months, pfDef_heights, if_neg hne]
  norm_num [dotQ, searchsorted, qinfLt, costRow, np_ceil_eval,
    Option.map, C1psqS, C1psqD, C1psqU, C1pcoS, C1pcoD, C1pcoU,
    show (("residential":String) = "retail") = False from by simp,
    show (("residential":String) = "industrial") = False from by simp,
    show pfDef.parcel_coverage = (4:ℚ)/5 from rfl,
    show pfDef.height_per_story = (12:ℚ) from rfl,
    show pfDef.profit_factor = (11:ℚ)/10 from rfl,
    show pfDef.max_retail_height = (2:ℚ) from rfl,
    show pfDef.max_industrial_height = (2:ℚ) from rfl,
    show pfDef.sqft_per_rate = (1000:ℚ) from rfl,
    show pfDef.construction_sqft_for_months = [QInf.val 10000, QInf.val 20000, QInf.val 50000, QInf.inf] from rfl]


/-- Reference row 19 (far 6) of the residential/underground table. -/
theorem C1refU19 :
    refRow pfDef "residential" [0, 0, 0, 1] PC.underground (6) =
      ⟨6, 10000, 60000, 60, 15000, 75000, 1/5, some (15/2), some (8), some (96), some (210), some (12600000), 1650000, some (14250000), some (209), 24⟩ := by
  have hne : ¬ (PC.underground = PC.deck) := by simp
  simp only [refRow, buildingBulkAt, storiesOf, buildingCost,
    constructionTime, pfDef_parcelSize, pfDef_parking_rates, pfDef_costs,
    pfDef_months, pfDef_heights, if_neg hne]
  norm_num [dotQ, searchsorted, qinfLt, costRow, np_ceil_eval,
    Option.map, C1psqS, C1psqD, C1psqU, C1pcoS, C1pcoD, C1pcoU,
    show (("residential":String) = "retail") = False from by simp,
    show (("residential":String) = "industrial") = False from by simp,
    show pfDef.parcel_coverage = (4:ℚ)/5 from rfl,
    show pfDef.height_per_story = (12:ℚ) from rfl,
    show pfDef.profit_factor = (11:ℚ)/10 from rfl,
    show pfDef.max_retail_height = (2:ℚ) from rfl,
    show pfDef.max_industrial_height = (2:ℚ) from rfl,
    show pfDef.sqft_per_rate = (1000:ℚ) from rfl,
    show pfDef.construction_sqft_for_months = [QInf.val 10000, QInf.val 20000, QInf.val 50000, QInf.inf] from rfl]


/-- Reference row 20 (far 13/2) of the residential/underground table. -/
theorem C1refU20 :
    refRow pfDef "residential" [0, 0, 0, 1] PC.underground (13/2) =
      ⟨13/2, 10000, 65000, 65, 16250, 81250, 1/5, some (65/8), some (9), some (108), some (210), some (13650000), 1787500, some (15437500), some (209), 24⟩ := by
  have hne : ¬ (PC.underground = PC.deck) := by simp
  simp only [refRow, buildingBulkAt, storiesOf, buildingCost,
    constructionTime, pfDef_parcelSize, pfDef_parking_rates, pfDef_costs,
    pfDef_months, pfDef_heights, if_neg hne]
  norm_num [dotQ, searchsorted, qinfLt, costRow, np_ceil_eval,
    Option.map, C1psqS, C1psqD, C1psqU, C1pcoS, C1pcoD, C1pcoU,
    show (("residential":String) = "retail") = False from by simp,
    show (("residential":String) = "industrial") = False from by simp,
    show pfDef.parcel_coverage = (4:ℚ)/5 from rfl,
    show pfDef.height_per_story = (12:ℚ) from rfl,
    show pfDef.profit_factor = (11:ℚ)/10 from rfl,
    show pfDef.max_retail_height = (2:ℚ) from rfl,
    show pfDef.max_industrial_height = (2:ℚ) from rfl,
    show pfDef.sqft_per_rate = (1000:ℚ) from rfl,
    show pfDef.construction_sqft_for_months = [QInf.val 10000, QInf.val 20000, QInf.val 50000, QInf.inf] from rfl]


/-- Reference row 21 (far 7) of the residential/underground table. -/
theorem C1refU21 :
    refRow pfDef "residential" [0, 0, 0, 1] PC.underground (7) =
      ⟨7, 10000, 70000, 70, 17500, 87500, 1/5, some (35/4), some (9), some (108), some (210), some (14700000), 1925000, some (16625000), some (209), 24⟩ := by
  have hne : ¬ (PC.underground = PC.deck) := by simp
  simp only [refRow, buildingBulkAt, storiesOf, buildingCost,
    constructionTime, pfDef_parcelSize, pfDef_parking_rates, pfDef_costs,
    pfDef_months, pfDef_heights, if_neg hne]
  norm_num [dotQ, searchsorted, qinfLt, costRow, np_ceil_eval,
    Option.map, C1psqS, C1psqD, C1psqU, C1pcoS, C1pcoD, C1pcoU,
    show (("residential":String) = "retail") = False from by simp,
    show (("residential":String) = "industrial") = False from by simp,
    show pfDef.parcel_coverage = (4:ℚ)/5 from rfl,
    show pfDef.height_per_story = (12:ℚ) from rfl,
    show pfDef.profit_factor = (11:ℚ)/10 from rfl,
    show pfDef.max_retail_height = (2:ℚ) from rfl,
    show pfDef.max_industrial_height = (2:ℚ) from rfl,
    show pfDef.sqft_per_rate = (1000:ℚ) from rfl,
    show pfDef.construction_sqft_for_months = [QInf.val 10000, QInf.val 20000, QInf.val 50000, QInf.inf] from rfl]


/-- Reference row 22 (far 9) of the residential/underground table. -/
theorem C1refU22 :
    refRow pfDef "residential" [0, 0, 0, 1] PC.underground (9) =
      ⟨9, 10000, 90000, 90, 22500, 112500, 1/5, some (45/4), some (12), some (144), some (240), some (21600000), 2475000, some (24075000), some (1177/5), 24⟩ := by
  have hne : ¬ (PC.underground = PC.deck) := by simp
  simp only [refRow, buildingBulkAt, storiesOf, buildingCost,
    constructionTime, pfDef_parcelSize, pfDef_parking_rates, pfDef_costs,
    pfDef_months, pfDef_heights, if_neg hne]
  norm_num [dotQ, searchsorted, qinfLt, costRow, np_ceil_eval,
    Option.map, C1psqS, C1psqD, C1psqU, C1pcoS, C1pcoD, C1pcoU,
    show (("residential":String) = "retail") = False from by simp,
    show (("residential":String) = "industrial") = False from by simp,
    show pfDef.parcel_coverage = (4:ℚ)/5 from rfl,
    show pfDef.height_per_story = (12:ℚ) from rfl,
    show pfDef.profit_factor = (11:ℚ)/10 from rfl,
    show pfDef.max_retail_height = (2:ℚ) from rfl,
    show pfDef.max_industrial_height = (2:ℚ) from rfl,
    show pfDef.sqft_per_rate = (1000:ℚ) from rfl,
    show pfDef.construction_sqft_for_months = [QInf.val 10000, QInf.val 20000, QInf.val 50000, QInf.inf] from rfl]


/-- Reference row 23 (far 11) of the residential/underground table. -/
theorem C1refU23 :
    refRow pfDef "residential" [0, 0, 0, 1] PC.underground (11) =
      ⟨11, 10000, 110000, 110, 27500, 137500, 1/5, some (55/4), some (14), some (168), some (240), some (26400000), 3025000, some (29425000), some (1177/5), 24⟩ := by
  have hne : ¬ (PC.underground = PC.deck) := by simp
  simp only [refRow, buildingBulkAt, storiesOf, buildingCost,
    constructionTime, pfDef_parcelSize, pfDef_parking_rates, pfDef_costs,
    pfDef_months, pfDef_heights, if_neg hne]
  norm_num [dotQ, searchsorted, qinfLt, costRow, np_ceil_eval,
    Option.map, C1psqS, C1psqD, C1psqU, C1pcoS, C1pcoD, C1pcoU,
    show (("residential":String) = "retail") = False from by simp,
    show (("residential":String) = "industrial") = False from by simp,
    show pfDef.parcel_coverage = (4:ℚ)/5 from rfl,
    show pfDef.height_per_story = (12:ℚ) from rfl,
    show pfDef.profit_factor = (11:ℚ)/10 from rfl,
    show pfDef.max_retail_height = (2:ℚ) from rfl,
    show pfDef.max_industrial_height = (2:ℚ) from rfl,
    show pfDef.sqft_per_rate = (1000:ℚ) from rfl,
    show pfDef.construction_sqft_for_months = [QInf.val 10000, QInf.val 20000, QInf.val 50000, QInf.inf] from rfl]


/-- Evaluation of the residential/surface reference table. -/
theorem C1tblS : refTable pfDef "residential" PC.surface = tblC1S := by
  have hmix : lookupD pfDef.forms "residential" [] = [0, 0, 0, 1] := by
    rw [pfDef_forms]
    simp [lookupD]
  rw [refTable, hmix, pfDef_fars]
  simp only [List.map_cons, List.map_nil,
    C1refS0, C1refS1, C1refS2, C1refS3, C1refS4, C1refS5, C1refS6, C1refS7, C1refS8, C1refS9, C1refS10, C1refS11, C1refS12, C1refS13, C1refS14, C1refS15, C1refS16, C1refS17, C1refS18, C1refS19, C1refS20, C1refS21, C1refS22, C1refS23]
  rfl


/-- Evaluation of the residential/deck reference table. -/
theorem C1tblD : refTable pfDef "residential" PC.deck = tblC1D := by
  have hmix : lookupD pfDef.forms "residential" [] = [0, 0, 0, 1] := by
    rw [pfDef_forms]
    simp [lookupD]
  rw [refTable, hmix, pfDef_fars]
  simp only [List.map_cons, List.map_nil,
    C1refD0, C1refD1, C1refD2, C1refD3, C1refD4, C1refD5, C1refD6, C1refD7, C1refD8, C1refD9, C1refD10, C1refD11, C1refD12, C1refD13, C1refD14, C1refD15, C1refD16, C1refD17, C1refD18, C1refD19, C1refD20, C1refD21, C1refD22, C1refD23]
  rfl


/-- Evaluation of the residential/underground reference table. -/
theorem C1tblU : refTable pfDef "residential" PC.underground = tblC1U := by
  have hmix : lookupD pfDef.forms "residential" [] = [0, 0, 0, 1] := by
    rw [pfDef_forms]
    simp [lookupD]
  rw [refTable, hmix, pfDef_fars]
  simp only [List.map_cons, List.map_nil,
    C1refU0, C1refU1, C1refU2, C1refU3, C1refU4, C1refU5, C1refU6, C1refU7, C1refU8, C1refU9, C1refU10, C1refU11, C1refU12, C1refU13, C1refU14, C1refU15, C1refU16, C1refU17, C1refU18, C1refU19, C1refU20, C1refU21, C1refU22, C1refU23]
  rfl


/-- The profit cells of site 0 for the surface configuration. -/
theorem C1cellsS0 :
    tblC1S.map (mkCell pfDef dfC1 0 (some 2) (some 30)) =
      [⟨some (1/10), some (100), some (19690), some (119690), some (83783/20), some (2477583/20), some (42000), some ((-1637583/20)), 0, some (12), 12⟩,
       ⟨some (1/4), some (250), some (49225), some (149225), some (41783/8), some (1235583/8), some (105000), some ((-395583/8)), 0, some (12), 12⟩,
       ⟨some (1/2), some (500), some (98450), some (198450), some (27783/4), some (821583/4), some (210000), some (18417/4), 0, some (12), 12⟩,
       ⟨some (3/4), some (750), some (147675), some (247675), some (69349/8), some (2050749/8), some (315000), some (469251/8), 0, some (24), 12⟩,
       ⟨some (1), some (1000), some (218900), some (318900), some (22323/2), some (660123/2), some (420000), some (179877/2), 0, some (24), 12⟩,
       ⟨some (3/2), some (1500), some (328350), some (428350), some (659659/40), some (17793659/40), some (630000), some (7406341/40), 0, some (48), 14⟩,
       ⟨some (9/5), some (1800), some (433620), some (533620), some (2054437/100), some (55416437/100), some (756000), some (20183563/100), 0, some (60), 14⟩,
       ⟨none, none, none, none, none, none, none, none, 0, some (84), 14⟩,
       ⟨none, none, none, none, none, none, none, none, 0, none, 18⟩,
       ⟨none, none, none, none, none, none, none, none, 0, none, 18⟩,
       ⟨none, none, none, none, none, none, none, none, 0, none, 18⟩,
       ⟨none, none, none, none, none, none, none, none, 0, none, 18⟩,
       ⟨none, none, none, none, none, none, none, none, 0, none, 18⟩,
       ⟨none, none, none, none, none, none, none, none, 0, none, 18⟩,
       ⟨none, none, none, none, none, none, none, none, 0, none, 18⟩,
       ⟨none, none, none, none, none, none, none, none, 0, none, 18⟩,
       ⟨none, none, none, none, none, none, none, none, 0, none, 18⟩,
       ⟨none, none, none, none, none, none, none, none, 0, none, 18⟩,
       ⟨none, none, none, none, none, none, none, none, 0, none, 24⟩,
       ⟨none, none, none, none, none, none, none, none, 0, none, 24⟩,
       ⟨none, none, none, none, none, none, none, none, 0, none, 24⟩,
       ⟨none, none, none, none, none, none, none, none, 0, none, 24⟩,
       ⟨none, none, none, none, none, none, none, none, 0, none, 24⟩,
       ⟨none, none, none, none, none, none, none, none, 0, none, 24⟩] := by
  simp only [tblC1S, List.map_cons, List.map_nil]
  norm_num [mkCell, farCell, C1df_mh0, C1df_ps0, C1df_lc0,
    vAdd_some, vAdd_none_left, vAdd_none_right,
    vSub_some, vSub_none_left, vSub_none_right,
    vMul_some, vMul_none_left, vMul_none_right,
    vDiv_some_of_ne, vDiv_none_left, vDiv_none_right,
    vGtPlus_some, vGtPlus_none_left, vGtPlus_none_right,
    show pfDef.loan_to_cost_ratio = (7:ℚ)/10 from rfl,
    show pfDef.drawdown_factor = (3:ℚ)/5 from rfl,
    show pfDef.interest_rate = (1:ℚ)/20 from rfl,
    show pfDef.loan_fees = (1:ℚ)/50 from rfl,
    show pfDef.building_efficiency = (7:ℚ)/10 from rfl,
    show pfDef.cap_rate = (1:ℚ)/20 from rfl]


/-- The profit cells of site 1 for the surface configuration. -/
theorem C1cellsS1 :
    tblC1S.map (mkCell pfDef dfC1 1 (some 2) (some 20)) =
      [⟨some (1/10), some (100), some (19690), some (119690), some (83783/20), some (2477583/20), some (28000), some ((-1917583/20)), 0, some (12), 12⟩,
       ⟨some (1/4), some (250), some (49225), some (149225), some (41783/8), some (1235583/8), some (70000), some ((-675583/8)), 0, some (12), 12⟩,
       ⟨some (1/2), some (500), some (98450), some (198450), some (27783/4), some (821583/4), some (140000), some ((-261583/4)), 0, some (12), 12⟩,
       ⟨some (3/4), some (750), some (147675), some (247675), some (69349/8), some (2050749/8), some (210000), some ((-370749/8)), 0, some (24), 12⟩,
       ⟨some (1), some (1000), some (218900), some (318900), some (22323/2), some (660123/2), some (280000), some ((-100123/2)), 0, some (24), 12⟩,
       ⟨some (3/2), some (1500), some (328350), some (428350), some (659659/40), some (17793659/40), some (420000), some ((-993659/40)), 0, some (48), 14⟩,
       ⟨some (9/5), some (1800), some (433620), some (533620), some (2054437/100), some (55416437/100), some (504000), some ((-5016437/100)), 0, some (60), 14⟩,
       ⟨none, none, none, none, none, none, none, none, 0, some (84), 14⟩,
       ⟨none, none, none, none, none, none, none, none, 0, none, 18⟩,
       ⟨none, none, none, none, none, none, none, none, 0, none, 18⟩,
       ⟨none, none, none, none, none, none, none, none, 0, none, 18⟩,
       ⟨none, none, none, none, none, none, none, none, 0, none, 18⟩,
       ⟨none, none, none, none, none, none, none, none, 0, none, 18⟩,
       ⟨none, none, none, none, none, none, none, none, 0, none, 18⟩,
       ⟨none, none, none, none, none, none, none, none, 0, none, 18⟩,
       ⟨none, none, none, none, none, none, none, none, 0, none, 18⟩,
       ⟨none, none, none, none, none, none, none, none, 0, none, 18⟩,
       ⟨none, none, none, none, none, none, none, none, 0, none, 18⟩,
       ⟨none, none, none, none, none, none, none, none, 0, none, 24⟩,
       ⟨none, none, none, none, none, none, none, none, 0, none, 24⟩,
       ⟨none, none, none, none, none, none, none, none, 0, none, 24⟩,
       ⟨none, none, none, none, none, none, none, none, 0, none, 24⟩,
       ⟨none, none, none, none, none, none, none, none, 0, none, 24⟩,
       ⟨none, none, none, none, none, none, none, none, 0, none, 24⟩] := by
  simp only [tblC1S, List.map_cons, List.map_nil]
  norm_num [mkCell, farCell, C1df_mh1, C1df_ps1, C1df_lc1,
    vAdd_some, vAdd_none_left, vAdd_none_right,
    vSub_some, vSub_none_left, vSub_none_right,
    vMul_some, vMul_none_left, vMul_none_right,
    vDiv_some_of_ne, vDiv_none_left, vDiv_none_right,
    vGtPlus_some, vGtPlus_none_left, vGtPlus_none_right,
    show pfDef.loan_to_cost_ratio = (7:ℚ)/10 from rfl,
    show pfDef.drawdown_factor = (3:ℚ)/5 from rfl,
    show pfDef.interest_rate = (1:ℚ)/20 from rfl,
    show pfDef.loan_fees = (1:ℚ)/50 from rfl,
    show pfDef.building_efficiency = (7:ℚ)/10 from rfl,
    show pfDef.cap_rate = (1:ℚ)/20 from rfl]


/-- The profit cells of site 2 for the surface configuration. -/
theorem C1cellsS2 :
    tblC1S.map (mkCell pfDef dfC1 2 (some 2) (some 10)) =
      [⟨some (1/10), some (100), some (19690), some (119690), some (83783/20), some (2477583/20), some (14000), some ((-2197583/20)), 0, some (12), 12⟩,
       ⟨some (1/4), some (250), some (49225), some (149225), some (41783/8), some (1235583/8), some (35000), some ((-955583/8)), 0, some (12), 12⟩,
       ⟨some (1/2), some (500), some (98450), some (198450), some (27783/4), some (821583/4), some (70000), some ((-541583/4)), 0, some (12), 12⟩,
       ⟨some (3/4), some (750), some (147675), some (247675), some (69349/8), some (2050749/8), some (105000), some ((-1210749/8)), 0, some (24), 12⟩,
       ⟨some (1), some (1000), some (218900), some (318900), some (22323/2), some (660123/2), some (140000), some ((-380123/2)), 0, some (24), 12⟩,
       ⟨some (3/2), some (1500), some (328350), some (428350), some (659659/40), some (17793659/40), some (210000), some ((-9393659/40)), 0, some (48), 14⟩,
       ⟨some (9/5), some (1800), some (433620), some (533620), some (2054437/100), some (55416437/100), some (252000), some ((-30216437/100)), 0, some (60), 14⟩,
       ⟨none, none, none, none, none, none, none, none, 0, some (84), 14⟩,
       ⟨none, none, none, none, none, none, none, none, 0, none, 18⟩,
       ⟨none, none, none, none, none, none, none, none, 0, none, 18⟩,
       ⟨none, none, none, none, none, none, none, none, 0, none, 18⟩,
       ⟨none, none, none, none, none, none, none, none, 0, none, 18⟩,
       ⟨none, none, none, none, none, none, none, none, 0, none, 18⟩,
       ⟨none, none, none, none, none, none, none, none, 0, none, 18⟩,
       ⟨none, none, none, none, none, none, none, none, 0, none, 18⟩,
       ⟨none, none, none, none, none, none, none, none, 0, none, 18⟩,
       ⟨none, none, none, none, none, none, none, none, 0, none, 18⟩,
       ⟨none, none, none, none, none, none, none, none, 0, none, 18⟩,
       ⟨none, none, none, none, none, none, none, none, 0, none, 24⟩,
       ⟨none, none, none, none, none, none, none, none, 0, none, 24⟩,
       ⟨none, none, none, none, none, none, none, none, 0, none, 24⟩,
       ⟨none, none, none, none, none, none, none, none, 0, none, 24⟩,
       ⟨none, none, none, none, none, none, none, none, 0, none, 24⟩,
       ⟨none, none, none, none, none, none, none, none, 0, none, 24⟩] := by
  simp only [tblC1S, List.map_cons, List.map_nil]
  norm_num [mkCell, farCell, C1df_mh2, C1df_ps2, C1df_lc2,
    vAdd_some, vAdd_none_left, vAdd_none_right,
    vSub_some, vSub_none_left, vSub_none_right,
    vMul_some, vMul_none_left, vMul_none_right,
    vDiv_some_of_ne, vDiv_none_left, vDiv_none_right,
    vGtPlus_some, vGtPlus_none_left, vGtPlus_none_right,
    show pfDef.loan_to_cost_ratio = (7:ℚ)/10 from rfl,
    show pfDef.drawdown_factor = (3:ℚ)/5 from rfl,
    show pfDef.interest_rate = (1:ℚ)/20 from rfl,
    show pfDef.loan_fees = (1:ℚ)/50 from rfl,
    show pfDef.building_efficiency = (7:ℚ)/10 from rfl,
    show pfDef.cap_rate = (1:ℚ)/20 from rfl]


/-- The profit cells of site 0 for the deck configuration. -/
theorem C1cellsD0 :
    tblC1D.map (mkCell pfDef dfC1 0 (some 2) (some 30)) =
      [⟨some (1/10), some (100), some (16940), some (116940), some (40929/10), some (1210329/10), some (33600), some ((-874329/10)), 1/5, some (12), 12⟩,
       ⟨some (1/4), some (250), some (42350), some (142350), some (19929/4), some (589329/4), some (84000), some ((-253329/4)), 1/5, some (12), 12⟩,
       ⟨some (1/2), some (500), some (84700), some (184700), some (12929/2), some (382329/2), some (168000), some ((-46329/2)), 1/5, some (12), 12⟩,
       ⟨some (3/4), some (750), some (127050), some (227050), some (31787/4), some (939987/4), some (252000), some (68013/4), 1/5, some (12), 12⟩,
       ⟨some (1), some (1000), some (169400), some (269400), some (9429), some (278829), some (336000), some (57171), 1/5, some (24), 12⟩,
       ⟨some (3/2), some (1500), some (280500), some (380500), some (58597/4), some (1580597/4), some (504000), some (435403/4), 1/5, some (24), 14⟩,
       ⟨some (9/5), some (1800), some (336600), some (436600), some (168091/10), some (4534091/10), some (604800), some (1513909/10), 1/5, some (36), 14⟩,
       ⟨some (2), some (2000), some (374000), some (474000), some (18249), some (492249), some (672000), some (179751), 1/5, some (36), 14⟩,
       ⟨none, none, none, none, none, none, none, none, 1/5, some (36), 18⟩,
       ⟨none, none, none, none, none, none, none, none, 1/5, some (48), 18⟩,
       ⟨none, none, none, none, none, none, none, none, 1/5, some (48), 18⟩,
       ⟨none, none, none, none, none, none, none, none, 1/5, some (48), 18⟩,
       ⟨none, none, none, none, none, none, none, none, 1/5, some (60), 18⟩,
       ⟨none, none, none, none, none, none, none, none, 1/5, some (60), 18⟩,
       ⟨none, none, none, none, none, none, none, none, 1/5, some (60), 18⟩,
       ⟨none, none, none, none, none, none, none, none, 1/5, some (60), 18⟩,
       ⟨none, none, none, none, none, none, none, none, 1/5, some (72), 18⟩,
       ⟨none, none, none, none, none, none, none, none, 1/5, some (84), 18⟩,
       ⟨none, none, none, none, none, none, none, none, 1/5, some (84), 24⟩,
       ⟨none, none, none, none, none, none, none, none, 1/5, some (96), 24⟩,
       ⟨none, none, none, none, none, none, none, none, 1/5, some (108), 24⟩,
       ⟨none, none, none, none, none, none, none, none, 1/5, some (108), 24⟩,
       ⟨none, none, none, none, none, none, none, none, 1/5, some (144), 24⟩,
       ⟨none, none, none, none, none, none, none, none, 1/5, some (168), 24⟩] := by
  simp only [tblC1D, List.map_cons, List.map_nil]
  norm_num [mkCell, farCell, C1df_mh0, C1df_ps0, C1df_lc0,
    vAdd_some, vAdd_none_left, vAdd_none_right,
    vSub_some, vSub_none_left, vSub_none_right,
    vMul_some, vMul_none_left, vMul_none_right,
    vDiv_some_of_ne, vDiv_none_left, vDiv_none_right,
    vGtPlus_some, vGtPlus_none_left, vGtPlus_none_right,
    show pfDef.loan_to_cost_ratio = (7:ℚ)/10 from rfl,
    show pfDef.drawdown_factor = (3:ℚ)/5 from rfl,
    show pfDef.interest_rate = (1:ℚ)/20 from rfl,
    show pfDef.loan_fees = (1:ℚ)/50 from rfl,
    show pfDef.building_efficiency = (7:ℚ)/10 from rfl,
    show pfDef.cap_rate = (1:ℚ)/20 from rfl]


/-- The profit cells of site 1 for the deck configuration. -/
theorem C1cellsD1 :
    tblC1D.map (mkCell pfDef dfC1 1 (some 2) (some 20)) =
      [⟨some (1/10), some (100), some (16940), some (116940), some (40929/10), some (1210329/10), some (22400), some ((-986329/10)), 1/5, some (12), 12⟩,
       ⟨some (1/4), some (250), some (42350), some (142350), some (19929/4), some (589329/4), some (56000), some ((-365329/4)), 1/5, some (12), 12⟩,
       ⟨some (1/2), some (500), some (84700), some (184700), some (12929/2), some (382329/2), some (112000), some ((-158329/2)), 1/5, some (12), 12⟩,
       ⟨some (3/4), some (750), some (127050), some (227050), some (31787/4), some (939987/4), some (168000), some ((-267987/4)), 1/5, some (12), 12⟩,
       ⟨some (1), some (1000), some (169400), some (269400), some (9429), some (278829), some (224000), some ((-54829)), 1/5, some (24), 12⟩,
       ⟨some (3/2), some (1500), some (280500), some (380500), some (58597/4), some (1580597/4), some (336000), some ((-236597/4)), 1/5, some (24), 14⟩,
       ⟨some (9/5), some (1800), some (336600), some (436600), some (168091/10), some (4534091/10), some (403200), some ((-502091/10)), 1/5, some (36), 14⟩,
       ⟨some (2), some (2000), some (374000), some (474000), some (18249), some (492249), some (448000), some ((-44249)), 1/5, some (36), 14⟩,
       ⟨none, none, none, none, none, none, none, none, 1/5, some (36), 18⟩,
       ⟨none, none, none, none, none, none, none, none, 1/5, some (48), 18⟩,
       ⟨none, none, none, none, none, none, none, none, 1/5, some (48), 18⟩,
       ⟨none, none, none, none, none, none, none, none, 1/5, some (48), 18⟩,
       ⟨none, none, none, none, none, none, none, none, 1/5, some (60), 18⟩,
       ⟨none, none, none, none, none, none, none, none, 1/5, some (60), 18⟩,
       ⟨none, none, none, none, none, none, none, none, 1/5, some (60), 18⟩,
       ⟨none, none, none, none, none, none, none, none, 1/5, some (60), 18⟩,
       ⟨none, none, none, none, none, none, none, none, 1/5, some (72), 18⟩,
       ⟨none, none, none, none, none, none, none, none, 1/5, some (84), 18⟩,
       ⟨none, none, none, none, none, none, none, none, 1/5, some (84), 24⟩,
       ⟨none, none, none, none, none, none, none, none, 1/5, some (96), 24⟩,
       ⟨none, none, none, none, none, none, none, none, 1/5, some (108), 24⟩,
       ⟨none, none, none, none, none, none, none, none, 1/5, some (108), 24⟩,
       ⟨none, none, none, none, none, none, none, none, 1/5, some (144), 24⟩,
       ⟨none, none, none, none, none, none, none, none, 1/5, some (168), 24⟩] := by
  simp only [tblC1D, List.map_cons, List.map_nil]
  norm_num [mkCell, farCell, C1df_mh1, C1df_ps1, C1df_lc1,
    vAdd_some, vAdd_none_left, vAdd_none_right,
    vSub_some, vSub_none_left, vSub_none_right,
    vMul_some, vMul_none_left, vMul_none_right,
    vDiv_some_of_ne, vDiv_none_left, vDiv_none_right,
    vGtPlus_some, vGtPlus_none_left, vGtPlus_none_right,
    show pfDef.loan_to_cost_ratio = (7:ℚ)/10 from rfl,
    show pfDef.drawdown_factor = (3:ℚ)/5 from rfl,
    show pfDef.interest_rate = (1:ℚ)/20 from rfl,
    show pfDef.loan_fees = (1:ℚ)/50 from rfl,
    show pfDef.building_efficiency = (7:ℚ)/10 from rfl,
    show pfDef.cap_rate = (1:ℚ)/20 from rfl]


/-- The profit cells of site 2 for the deck configuration. -/
theorem C1cellsD2 :
    tblC1D.map (mkCell pfDef dfC1 2 (some 2) (some 10)) =
      [⟨some (1/10), some (100), some (16940), some (116940), some (40929/10), some (1210329/10), some (11200), some ((-1098329/10)), 1/5, some (12), 12⟩,
       ⟨some (1/4), some (250), some (42350), some (142350), some (19929/4), some (589329/4), some (28000), some ((-477329/4)), 1/5, some (12), 12⟩,
       ⟨some (1/2), some (500), some (84700), some (184700), some (12929/2), some (382329/2), some (56000), some ((-270329/2)), 1/5, some (12), 12⟩,
       ⟨some (3/4), some (750), some (127050), some (227050), some (31787/4), some (939987/4), some (84000), some ((-603987/4)), 1/5, some (12), 12⟩,
       ⟨some (1), some (1000), some (169400), some (269400), some (9429), some (278829), some (112000), some ((-166829)), 1/5, some (24), 12⟩,
       ⟨some (3/2), some (1500), some (280500), some (380500), some (58597/4), some (1580597/4), some (168000), some ((-908597/4)), 1/5, some (24), 14⟩,
       ⟨some (9/5), some (1800), some (336600), some (436600), some (168091/10), some (4534091/10), some (201600), some ((-2518091/10)), 1/5, some (36), 14⟩,
       ⟨some (2), some (2000), some (374000), some (474000), some (18249), some (492249), some (224000), some ((-268249)), 1/5, some (36), 14⟩,
       ⟨none, none, none, none, none, none, none, none, 1/5, some (36), 18⟩,
       ⟨none, none, none, none, none, none, none, none, 1/5, some (48), 18⟩,
       ⟨none, none, none, none, none, none, none, none, 1/5, some (48), 18⟩,
       ⟨none, none, none, none, none, none, none, none, 1/5, some (48), 18⟩,
       ⟨none, none, none, none, none, none, none, none, 1/5, some (60), 18⟩,
       ⟨none, none, none, none, none, none, none, none, 1/5, some (60), 18⟩,
       ⟨none, none, none, none, none, none, none, none, 1/5, some (60), 18⟩,
       ⟨none, none, none, none, none, none, none, none, 1/5, some (60), 18⟩,
       ⟨none, none, none, none, none, none, none, none, 1/5, some (72), 18⟩,
       ⟨none, none, none, none, none, none, none, none, 1/5, some (84), 18⟩,
       ⟨none, none, none, none, none, none, none, none, 1/5, some (84), 24⟩,
       ⟨none, none, none, none, none, none, none, none, 1/5, some (96), 24⟩,
       ⟨none, none, none, none, none, none, none, none, 1/5, some (108), 24⟩,
       ⟨none, none, none, none, none, none, none, none, 1/5, some (108), 24⟩,
       ⟨none, none, none, none, none, none, none, none, 1/5, some (144), 24⟩,
       ⟨none, none, none, none, none, none, none, none, 1/5, some (168), 24⟩] := by
  simp only [tblC1D, List.map_cons, List.map_nil]
  norm_num [mkCell, farCell, C1df_mh2, C1df_ps2, C1df_lc2,
    vAdd_some, vAdd_none_left, vAdd_none_right,
    vSub_some, vSub_none_left, vSub_none_right,
    vMul_some, vMul_none_left, vMul_none_right,
    vDiv_some_of_ne, vDiv_none_left, vDiv_none_right,
    vGtPlus_some, vGtPlus_none_left, vGtPlus_none_right,
    show pfDef.loan_to_cost_ratio = (7:ℚ)/10 from rfl,
    show pfDef.drawdown_factor = (3:ℚ)/5 from rfl,
    show pfDef.interest_rate = (1:ℚ)/20 from rfl,
    show pfDef.loan_fees = (1:ℚ)/50 from rfl,
    show pfDef.building_efficiency = (7:ℚ)/10 from rfl,
    show pfDef.cap_rate = (1:ℚ)/20 from rfl]


/-- The profit cells of site 0 for the underground configuration. -/
theorem C1cellsU0 :
    tblC1U.map (mkCell pfDef dfC1 0 (some 2) (some 30)) =
      [⟨some (1/10), some (100), some (17380), some (117380), some (41083/10), some (1214883/10), some (33600), some ((-878883/10)), 1/5, some (12), 12⟩,
       ⟨some (1/4), some (250), some (43450), some (143450), some (20083/4), some (593883/4), some (84000), some ((-257883/4)), 1/5, some (12), 12⟩,
       ⟨some (1/2), some (500), some (86900), some (186900), some (13083/2), some (386883/2), some (168000), some ((-50883/2)), 1/5, some (12), 12⟩,
       ⟨some (3/4), some (750), some (130350), some (230350), some (32249/4), some (953649/4), some (252000), some (54351/4), 1/5, some (12), 12⟩,
       ⟨some (1), some (1000), some (173800), some (273800), some (105413/10), some (2843413/10), some (336000), some (516587/10), 1/5, some (24), 14⟩,
       ⟨some (3/2), some (1500), some (287100), some (387100), some (298067/20), some (8040067/20), some (504000), some (2039933/20), 1/5, some (24), 14⟩,
       ⟨some (9/5), some (1800), some (344520), some (444520), some (1011283/50), some (23237283/50), some (604800), some (7002717/50), 1/5, some (36), 18⟩,
       ⟨some (2), some (2000), some (382800), some (482800), some (109837/5), some (2523837/5), some (672000), some (836163/5), 1/5, some (36), 18⟩,
       ⟨none, none, none, none, none, none, none, none, 1/5, some (36), 18⟩,
       ⟨none, none, none, none, none, none, none, none, 1/5, some (48), 18⟩,
       ⟨none, none, none, none, none, none, none, none, 1/5, some (48), 18⟩,
       ⟨none, none, none, none, none, none, none, none, 1/5, some (48), 18⟩,
       ⟨none, none, none, none, none, none, none, none, 1/5, some (60), 18⟩,
       ⟨none, none, none, none, none, none, none, none, 1/5, some (60), 18⟩,
       ⟨none, none, none, none, none, none, none, none, 1/5, some (60), 18⟩,
       ⟨none, none, none, none, none, none, none, none, 1/5, some (60), 18⟩,
       ⟨none, none, none, none, none, none, none, none, 1/5, some (72), 24⟩,
       ⟨none, none, none, none, none, none, none, none, 1/5, some (84), 24⟩,
       ⟨none, none, none, none, none, none, none, none, 1/5, some (84), 24⟩,
       ⟨none, none, none, none, none, none, none, none, 1/5, some (96), 24⟩,
       ⟨none, none, none, none, none, none, none, none, 1/5, some (108), 24⟩,
       ⟨none, none, none, none, none, none, none, none, 1/5, some (108), 24⟩,
       ⟨none, none, none, none, none, none, none, none, 1/5, some (144), 24⟩,
       ⟨none, none, none, none, none, none, none, none, 1/5, some (168), 24⟩] := by
  simp only [tblC1U, List.map_cons, List.map_nil]
  norm_num [mkCell, farCell, C1df_mh0, C1df_ps0, C1df_lc0,
    vAdd_some, vAdd_none_left, vAdd_none_right,
    vSub_some, vSub_none_left, vSub_none_right,
    vMul_some, vMul_none_left, vMul_none_right,
    vDiv_some_of_ne, vDiv_none_left, vDiv_none_right,
    vGtPlus_some, vGtPlus_none_left, vGtPlus_none_right,
    show pfDef.loan_to_cost_ratio = (7:ℚ)/10 from rfl,
    show pfDef.drawdown_factor = (3:ℚ)/5 from rfl,
    show pfDef.interest_rate = (1:ℚ)/20 from rfl,
    show pfDef.loan_fees = (1:ℚ)/50 from rfl,
    show pfDef.building_efficiency = (7:ℚ)/10 from rfl,
    show pfDef.cap_rate = (1:ℚ)/20 from rfl]


/-- The profit cells of site 1 for the underground configuration. -/
theorem C1cellsU1 :
    tblC1U.map (mkCell pfDef dfC1 1 (some 2) (some 20)) =
      [⟨some (1/10), some (100), some (17380), some (117380), some (41083/10), some (1214883/10), some (22400), some ((-990883/10)), 1/5, some (12), 12⟩,
       ⟨some (1/4), some (250), some (43450), some (143450), some (20083/4), some (593883/4), some (56000), some ((-369883/4)), 1/5, some (12), 12⟩,
       ⟨some (1/2), some (500), some (86900), some (186900), some (13083/2), some (386883/2), some (112000), some ((-162883/2)), 1/5, some (12), 12⟩,
       ⟨some (3/4), some (750), some (130350), some (230350), some (32249/4), some (953649/4), some (168000), some ((-281649/4)), 1/5, some (12), 12⟩,
       ⟨some (1), some (1000), some (173800), some (273800), some (105413/10), some (2843413/10), some (224000), some ((-603413/10)), 1/5, some (24), 14⟩,
       ⟨some (3/2), some (1500), some (287100), some (387100), some (298067/20), some (8040067/20), some (336000), some ((-1320067/20)), 1/5, some (24), 14⟩,
       ⟨some (9/5), some (1800), some (344520), some (444520), some (1011283/50), some (23237283/50), some (403200), some ((-3077283/50)), 1/5, some (36), 18⟩,
       ⟨some (2), some (2000), some (382800), some (482800), some (109837/5), some (2523837/5), some (448000), some ((-283837/5)), 1/5, some (36), 18⟩,
       ⟨none, none, none, none, none, none, none, none, 1/5, some (36), 18⟩,
       ⟨none, none, none, none, none, none, none, none, 1/5, some (48), 18⟩,
       ⟨none, none, none, none, none, none, none, none, 1/5, some (48), 18⟩,
       ⟨none, none, none, none, none, none, none, none, 1/5, some (48), 18⟩,
       ⟨none, none, none, none, none, none, none, none, 1/5, some (60), 18⟩,
       ⟨none, none, none, none, none, none, none, none, 1/5, some (60), 18⟩,
       ⟨none, none, none, none, none, none, none, none, 1/5, some (60), 18⟩,
       ⟨none, none, none, none, none, none, none, none, 1/5, some (60), 18⟩,
       ⟨none, none, none, none, none, none, none, none, 1/5, some (72), 24⟩,
       ⟨none, none, none, none, none, none, none, none, 1/5, some (84), 24⟩,
       ⟨none, none, none, none, none, none, none, none, 1/5, some (84), 24⟩,
       ⟨none, none, none, none, none, none, none, none, 1/5, some (96), 24⟩,
       ⟨none, none, none, none, none, none, none, none, 1/5, some (108), 24⟩,
       ⟨none, none, none, none, none, none, none, none, 1/5, some (108), 24⟩,
       ⟨none, none, none, none, none, none, none, none, 1/5, some (144), 24⟩,
       ⟨none, none, none, none, none, none, none, none, 1/5, some (168), 24⟩] := by
  simp only [tblC1U, List.map_cons, List.map_nil]
  norm_num [mkCell, farCell, C1df_mh1, C1df_ps1, C1df_lc1,
    vAdd_some, vAdd_none_left, vAdd_none_right,
    vSub_some, vSub_none_left, vSub_none_right,
    vMul_some, vMul_none_left, vMul_none_right,
    vDiv_some_of_ne, vDiv_none_left, vDiv_none_right,
    vGtPlus_some, vGtPlus_none_left, vGtPlus_none_right,
    show pfDef.loan_to_cost_ratio = (7:ℚ)/10 from rfl,
    show pfDef.drawdown_factor = (3:ℚ)/5 from rfl,
    show pfDef.interest_rate = (1:ℚ)/20 from rfl,
    show pfDef.loan_fees = (1:ℚ)/50 from rfl,
    show pfDef.building_efficiency = (7:ℚ)/10 from rfl,
    show pfDef.cap_rate = (1:ℚ)/20 from rfl]


/-- The profit cells of site 2 for the underground configuration. -/
theorem C1cellsU2 :
    tblC1U.map (mkCell pfDef dfC1 2 (some 2) (some 10)) =
      [⟨some (1/10), some (100), some (17380), some (117380), some (41083/10), some (1214883/10), some (11200), some ((-1102883/10)), 1/5, some (12), 12⟩,
       ⟨some (1/4), some (250), some (43450), some (143450), some (20083/4), some (593883/4), some (28000), some ((-481883/4)), 1/5, some (12), 12⟩,
       ⟨some (1/2), some (500), some (86900), some (186900), some (13083/2), some (386883/2), some (56000), some ((-274883/2)), 1/5, some (12), 12⟩,
       ⟨some (3/4), some (750), some (130350), some (230350), some (32249/4), some (953649/4), some (84000), some ((-617649/4)), 1/5, some (12), 12⟩,
       ⟨some (1), some (1000), some (173800), some (273800), some (105413/10), some (2843413/10), some (112000), some ((-1723413/10)), 1/5, some (24), 14⟩,
       ⟨some (3/2), some (1500), some (287100), some (387100), some (298067/20), some (8040067/20), some (168000), some ((-4680067/20)), 1/5, some (24), 14⟩,
       ⟨some (9/5), some (1800), some (344520), some (444520), some (1011283/50), some (23237283/50), some (201600), some ((-13157283/50)), 1/5, some (36), 18⟩,
       ⟨some (2), some (2000), some (382800), some (482800), some (109837/5), some (2523837/5), some (224000), some ((-1403837/5)), 1/5, some (36), 18⟩,
       ⟨none, none, none, none, none, none, none, none, 1/5, some (36), 18⟩,
       ⟨none, none, none, none, none, none, none, none, 1/5, some (48), 18⟩,
       ⟨none, none, none, none, none, none, none, none, 1/5, some (48), 18⟩,
       ⟨none, none, none, none, none, none, none, none, 1/5, some (48), 18⟩,
       ⟨none, none, none, none, none, none, none, none, 1/5, some (60), 18⟩,
       ⟨none, none, none, none, none, none, none, none, 1/5, some (60), 18⟩,
       ⟨none, none, none, none, none, none, none, none, 1/5, some (60), 18⟩,
       ⟨none, none, none, none, none, none, none, none, 1/5, some (60), 18⟩,
       ⟨none, none, none, none, none, none, none, none, 1/5, some (72), 24⟩,
       ⟨none, none, none, none, none, none, none, none, 1/5, some (84), 24⟩,
       ⟨none, none, none, none, none, none, none, none, 1/5, some (84), 24⟩,
       ⟨none, none, none, none, none, none, none, none, 1/5, some (96), 24⟩,
       ⟨none, none, none, none, none, none, none, none, 1/5, some (108), 24⟩,
       ⟨none, none, none, none, none, none, none, none, 1/5, some (108), 24⟩,
       ⟨none, none, none, none, none, none, none, none, 1/5, some (144), 24⟩,
       ⟨none, none, none, none, none, none, none, none, 1/5, some (168), 24⟩] := by
  simp only [tblC1U, List.map_cons, List.map_nil]
  norm_num [mkCell, farCell, C1df_mh2, C1df_ps2, C1df_lc2,
    vAdd_some, vAdd_none_left, vAdd_none_right,
    vSub_some, vSub_none_left, vSub_none_right,
    vMul_some, vMul_none_left, vMul_none_right,
    vDiv_some_of_ne, vDiv_none_left, vDiv_none_right,
    vGtPlus_some, vGtPlus_none_left, vGtPlus_none_right,
    show pfDef.loan_to_cost_ratio = (7:ℚ)/10 from rfl,
    show pfDef.drawdown_factor = (3:ℚ)/5 from rfl,
    show pfDef.interest_rate = (1:ℚ)/20 from rfl,
    show pfDef.loan_fees = (1:ℚ)/50 from rfl,
    show pfDef.building_efficiency = (7:ℚ)/10 from rfl,
    show pfDef.cap_rate = (1:ℚ)/20 from rfl]


/-- Site-row evaluation for site 0, surface configuration. -/
theorem C1siteS0 :
    siteRow pfDef PC.surface dfC1 tblC1S [0, 0, 0, 1] 1 0 = C1rowS0 := by
  simp only [siteRow, C1wrent0, C1minmax0, C1cellsS0]
  norm_num [argmaxProfit, vLt_some, vLt_none_right, vLt_none_some,
    List.getD, dummyCell, C1rowS0, vMul_some, vDiv_some_of_ne,
    pfDef_hps, pfDef_pass_through,
    show dfC1.ids = ["a", "b", "c"] from rfl,
    show pfDef.building_efficiency = (7:ℚ)/10 from rfl]


/-- Site-row evaluation for site 1, surface configuration. -/
theorem C1siteS1 :
    siteRow pfDef PC.surface dfC1 tblC1S [0, 0, 0, 1] 1 1 = C1rowS1 := by
  simp only [siteRow, C1wrent1, C1minmax1, C1cellsS1]
  norm_num [argmaxProfit, vLt_some, vLt_none_right, vLt_none_some,
    List.getD, dummyCell, C1rowS1, vMul_some, vDiv_some_of_ne,
    pfDef_hps, pfDef_pass_through,
    show dfC1.ids = ["a", "b", "c"] from rfl,
    show pfDef.building_efficiency = (7:ℚ)/10 from rfl]


/-- Site-row evaluation for site 2, surface configuration. -/
theorem C1siteS2 :
    siteRow pfDef PC.surface dfC1 tblC1S [0, 0, 0, 1] 1 2 = C1rowS2 := by
  simp only [siteRow, C1wrent2, C1minmax2, C1cellsS2]
  norm_num [argmaxProfit, vLt_some, vLt_none_right, vLt_none_some,
    List.getD, dummyCell, C1rowS2, vMul_some, vDiv_some_of_ne,
    pfDef_hps, pfDef_pass_through,
    show dfC1.ids = ["a", "b", "c"] from rfl,
    show pfDef.building_efficiency = (7:ℚ)/10 from rfl]


/-- Site-row evaluation for site 0, deck configuration. -/
theorem C1siteD0 :
    siteRow pfDef PC.deck dfC1 tblC1D [0, 0, 0, 1] 1 0 = C1rowD0 := by
  simp only [siteRow, C1wrent0, C1minmax0, C1cellsD0]
  norm_num [argmaxProfit, vLt_some, vLt_none_right, vLt_none_some,
    List.getD, dummyCell, C1rowD0, vMul_some, vDiv_some_of_ne,
    pfDef_hps, pfDef_pass_through,
    show dfC1.ids = ["a", "b", "c"] from rfl,
    show pfDef.building_efficiency = (7:ℚ)/10 from rfl]


/-- Site-row evaluation for site 1, deck configuration. -/
theorem C1siteD1 :
    siteRow pfDef PC.deck dfC1 tblC1D [0, 0, 0, 1] 1 1 = C1rowD1 := by
  simp only [siteRow, C1wrent1, C1minmax1, C1cellsD1]
  norm_num [argmaxProfit, vLt_some, vLt_none_right, vLt_none_some,
    List.getD, dummyCell, C1rowD1, vMul_some, vDiv_some_of_ne,
    pfDef_hps, pfDef_pass_through,
    show dfC1.ids = ["a", "b", "c"] from rfl,
    show pfDef.building_efficiency = (7:ℚ)/10 from rfl]


/-- Site-row evaluation for site 2, deck configuration. -/
theorem C1siteD2 :
    siteRow pfDef PC.deck dfC1 tblC1D [0, 0, 0, 1] 1 2 = C1rowD2 := by
  simp only [siteRow, C1wrent2, C1minmax2, C1cellsD2]
  norm_num [argmaxProfit, vLt_some, vLt_none_right, vLt_none_some,
    List.getD, dummyCell, C1rowD2, vMul_some, vDiv_some_of_ne,
    pfDef_hps, pfDef_pass_through,
    show dfC1.ids = ["a", "b", "c"] from rfl,
    show pfDef.building_efficiency = (7:ℚ)/10 from rfl]


/-- Site-row evaluation for site 0, underground configuration. -/
theorem C1siteU0 :
    siteRow pfDef PC.underground dfC1 tblC1U [0, 0, 0, 1] 1 0 = C1rowU0 := by
  simp only [siteRow, C1wrent0, C1minmax0, C1cellsU0]
  norm_num [argmaxProfit, vLt_some, vLt_none_right, vLt_none_some,
    List.getD, dummyCell, C1rowU0, vMul_some, vDiv_some_of_ne,
    pfDef_hps, pfDef_pass_through,
    show dfC1.ids = ["a", "b", "c"] from rfl,
    show pfDef.building_efficiency = (7:ℚ)/10 from rfl]


/-- Site-row evaluation for site 1, underground configuration. -/
theorem C1siteU1 :
    siteRow pfDef PC.underground dfC1 tblC1U [0, 0, 0, 1] 1 1 = C1rowU1 := by
  simp only [siteRow, C1wrent1, C1minmax1, C1cellsU1]
  norm_num [argmaxProfit, vLt_some, vLt_none_right, vLt_none_some,
    List.getD, dummyCell, C1rowU1, vMul_some, vDiv_some_of_ne,
    pfDef_hps, pfDef_pass_through,
    show dfC1.ids = ["a", "b", "c"] from rfl,
    show pfDef.building_efficiency = (7:ℚ)/10 from rfl]


/-- Site-row evaluation for site 2, underground configuration. -/
theorem C1siteU2 :
    siteRow pfDef PC.underground dfC1 tblC1U [0, 0, 0, 1] 1 2 = C1rowU2 := by
  simp only [siteRow, C1wrent2, C1minmax2, C1cellsU2]
  norm_num [argmaxProfit, vLt_some, vLt_none_right, vLt_none_some,
    List.getD, dummyCell, C1rowU2, vMul_some, vDiv_some_of_ne,
    pfDef_hps, pfDef_pass_through,
    show dfC1.ids = ["a", "b", "c"] from rfl,
    show pfDef.building_efficiency = (7:ℚ)/10 from rfl]


/-- The per-configuration pass for surface parking keeps only the
profitable site. -/
theorem C1cfgS :
    lookupParkingCfg pfDef "residential" PC.surface dfC1 =
      Except.ok [C1rowS0] := by
  have hrr : lookupD pfDef.res_ratios "residential" 0 = 1 := by
    rw [pfDef_res_ratios]
    simp [lookupD]
  have hmix : lookupD pfDef.forms "residential" [] = [0, 0, 0, 1] := by
    rw [pfDef_forms]
    simp [lookupD]
  have hdua : duaCheck 1 dfC1 = Except.ok () := by
    simp [duaCheck, duaApplies, DF.hasCol, DF.colNames, dfC1]
  simp only [lookupParkingCfg, hrr, hmix, hdua, pfDef_only_built,
    if_true, show dfC1.ids.length = 3 from rfl, C1tblS]
  rw [show List.range 3 = [0, 1, 2] from rfl]
  have hk0 : (if vPos (minMaxFars pfDef 1 dfC1 0) ∧
      vPos (dfC1.cell "parcel_size" 0) then true else false) = true := by
    rw [C1minmax0, C1df_ps0]
    norm_num [vPos_some]
  have hk1 : (if vPos (minMaxFars pfDef 1 dfC1 1) ∧
      vPos (dfC1.cell "parcel_size" 1) then true else false) = true := by
    rw [C1minmax1, C1df_ps1]
    norm_num [vPos_some]
  have hk2 : (if vPos (minMaxFars pfDef 1 dfC1 2) ∧
      vPos (dfC1.cell "parcel_size" 2) then true else false) = true := by
    rw [C1minmax2, C1df_ps2]
    norm_num [vPos_some]
  simp only [List.filter_cons, List.filter_nil, hk0, hk1, hk2, if_true,
    List.map_cons, List.map_nil, C1siteS0, C1siteS1, C1siteS2]
  have hkeep0 : keepRow pfDef C1rowS0 = true := by
    rw [keepRow, if_pos pfDef_only_built]
    norm_num [C1rowS0, vPos_some]
  have hkeep1 : keepRow pfDef C1rowS1 = false := by
    rw [keepRow, if_pos pfDef_only_built]
    norm_num [C1rowS1, vPos_some]
  have hkeep2 : keepRow pfDef C1rowS2 = false := by
    rw [keepRow, if_pos pfDef_only_built]
    norm_num [C1rowS2, vPos_some]
  simp [List.filter_cons, hkeep0, hkeep1, hkeep2]


/-- The per-configuration pass for deck parking keeps only the
profitable site. -/
theorem C1cfgD :
    lookupParkingCfg pfDef "residential" PC.deck dfC1 =
      Except.ok [C1rowD0] := by
  have hrr : lookupD pfDef.res_ratios "residential" 0 = 1 := by
    rw [pfDef_res_ratios]
    simp [lookupD]
  have hmix : lookupD pfDef.forms "residential" [] = [0, 0, 0, 1] := by
    rw [pfDef_forms]
    simp [lookupD]
  have hdua : duaCheck 1 dfC1 = Except.ok () := by
    simp [duaCheck, duaApplies, DF.hasCol, DF.colNames, dfC1]
  simp only [lookupParkingCfg, hrr, hmix, hdua, pfDef_only_built,
    if_true, show dfC1.ids.length = 3 from rfl, C1tblD]
  rw [show List.range 3 = [0, 1, 2] from rfl]
  have hk0 : (if vPos (minMaxFars pfDef 1 dfC1 0) ∧
      vPos (dfC1.cell "parcel_size" 0) then true else false) = true := by
    rw [C1minmax0, C1df_ps0]
    norm_num [vPos_some]
  have hk1 : (if vPos (minMaxFars pfDef 1 dfC1 1) ∧
      vPos (dfC1.cell "parcel_size" 1) then true else false) = true := by
    rw [C1minmax1, C1df_ps1]
    norm_num [vPos_some]
  have hk2 : (if vPos (minMaxFars pfDef 1 dfC1 2) ∧
      vPos (dfC1.cell "parcel_size" 2) then true else false) = true := by
    rw [C1minmax2, C1df_ps2]
    norm_num [vPos_some]
  simp only [List.filter_cons, List.filter_nil, hk0, hk1, hk2, if_true,
    List.map_cons, List.map_nil, C1siteD0, C1siteD1, C1siteD2]
  have hkeep0 : keepRow pfDef C1rowD0 = true := by
    rw [keepRow, if_pos pfDef_only_built]
    norm_num [C1rowD0, vPos_some]
  have hkeep1 : keepRow pfDef C1rowD1 = false := by
    rw [keepRow, if_pos pfDef_only_built]
    norm_num [C1rowD1, vPos_some]
  have hkeep2 : keepRow pfDef C1rowD2 = false := by
    rw [keepRow, if_pos pfDef_only_built]
    norm_num [C1rowD2, vPos_some]
  simp [List.filter_cons, hkeep0, hkeep1, hkeep2]


/-- The per-configuration pass for underground parking keeps only the
profitable site. -/
theorem C1cfgU :
    lookupParkingCfg pfDef "residential" PC.underground dfC1 =
      Except.ok [C1rowU0] := by
  have hrr : lookupD pfDef.res_ratios "residential" 0 = 1 := by
    rw [pfDef_res_ratios]
    simp [lookupD]
  have hmix : lookupD pfDef.forms "residential" [] = [0, 0, 0, 1] := by
    rw [pfDef_forms]
    simp [lookupD]
  have hdua : duaCheck 1 dfC1 = Except.ok () := by
    simp [duaCheck, duaApplies, DF.hasCol, DF.colNames, dfC1]
  simp only [lookupParkingCfg, hrr, hmix, hdua, pfDef_only_built,
    if_true, show dfC1.ids.length = 3 from rfl, C1tblU]
  rw [show List.range 3 = [0, 1, 2] from rfl]
  have hk0 : (if vPos (minMaxFars pfDef 1 dfC1 0) ∧
      vPos (dfC1.cell "parcel_size" 0) then true else false) = true := by
    rw [C1minmax0, C1df_ps0]
    norm_num [vPos_some]
  have hk1 : (if vPos (minMaxFars pfDef 1 dfC1 1) ∧
      vPos (dfC1.cell "parcel_size" 1) then true else false) = true := by
    rw [C1minmax1, C1df_ps1]
    norm_num [vPos_some]
  have hk2 : (if vPos (minMaxFars pfDef 1 dfC1 2) ∧
      vPos (dfC1.cell "parcel_size" 2) then true else false) = true := by
    rw [C1minmax2, C1df_ps2]
    norm_num [vPos_some]
  simp only [List.filter_cons, List.filter_nil, hk0, hk1, hk2, if_true,
    List.map_cons, List.map_nil, C1siteU0, C1siteU1, C1siteU2]
  have hkeep0 : keepRow pfDef C1rowU0 = true := by
    rw [keepRow, if_pos pfDef_only_built]
    norm_num [C1rowU0, vPos_some]
  have hkeep1 : keepRow pfDef C1rowU1 = false := by
    rw [keepRow, if_pos pfDef_only_built]
    norm_num [C1rowU1, vPos_some]
  have hkeep2 : keepRow pfDef C1rowU2 = false := by
    rw [keepRow, if_pos pfDef_only_built]
    norm_num [C1rowU2, vPos_some]
  simp [List.filter_cons, hkeep0, hkeep1, hkeep2]


/-- The concatenated candidate pool over the three configurations. -/
theorem C1configsEval :
    lookupConfigs pfDef "residential" dfC1
      [PC.surface, PC.deck, PC.underground] =
      Except.ok [C1rowS0, C1rowD0, C1rowU0] := by
  simp [lookupConfigs, C1cfgS, C1cfgD, C1cfgU]


/-- The parking selector keeps the surface row, whose profit beats the
deck and underground rows of the same site. -/
theorem C1mpp :
    maxProfitParking [C1rowS0, C1rowD0, C1rowU0] = [C1rowS0] := by
  have hids : ([C1rowS0, C1rowD0, C1rowU0].map (fun r => r.id)) =
      ["a", "a", "a"] := rfl
  simp only [maxProfitParking, hids]
  rw [show (["a", "a", "a"] : List String).dedup = ["a"] by simp,
    show sortedStrings ["a"] = ["a"] from List.mergeSort_singleton _]
  have hcand : candRows [C1rowS0, C1rowD0, C1rowU0] "a" =
      [C1rowD0, C1rowS0, C1rowU0] := by
    simp [candRows, pcSorted, List.find?, C1rowS0, C1rowD0, C1rowU0]
  have hbest : bestRowFor [C1rowS0, C1rowD0, C1rowU0] "a" = some C1rowS0 := by
    simp only [bestRowFor, hcand, List.foldl_cons, List.foldl_nil]
    norm_num [pickBest, C1rowS0, C1rowD0, C1rowU0, vLt_some]
  simp [hbest]


/-- The full default-engine lookup on the scenario table returns exactly
the surface row of site a. -/
theorem C1lookupEval :
    (lookup pfDef "residential" dfC1).1 = Except.ok [C1rowS0] := by
  have hdfz : dfAfterZoning pfDef "residential" dfC1 = dfC1 := by
    simp [dfAfterZoning, pfDef_simple_zoning]
  show lookupRun pfDef "residential" (dfAfterZoning pfDef "residential" dfC1) = _
  rw [hdfz]
  simp only [lookupRun, pfDef_parking_configs, C1configsEval]
  norm_num [List.isEmpty, C1mpp, pfDef_res_to_yearly, pfDef_pass_through]


/-- C1: for the default engine and the three-site table (residential
rents 30/20/10, office 15, retail 12, industrial 12, land cost 100000,
parcel size 1000, max far 2, max height 80), the residential lookup
returns exactly one surviving row, whose profit-maximizing far is 1.8,
building area 1800, cost per area within (100, 400), total cost equal to
building cost plus land cost plus financing cost, revenue per area
within (200, 800), residential area equal to building area times the
building efficiency, story count strictly between the far and three
times the far, zero non-residential area, and positive profit. -/
theorem C1_default_lookup :
    (lookup pfDef "residential" dfC1).1 = Except.ok [C1rowS0] ∧
    C1rowS0.max_profit_far = some (9/5) ∧
    C1rowS0.building_sqft = some 1800 ∧
    vLt (some 100) (vDiv C1rowS0.building_cost C1rowS0.building_sqft) ∧
    vLt (vDiv C1rowS0.building_cost C1rowS0.building_sqft) (some 400) ∧
    C1rowS0.total_cost = vAdd (vAdd C1rowS0.building_cost
      (dfC1.cell "land_cost" 0)) C1rowS0.financing_cost ∧
    vLt (some 200) (vDiv C1rowS0.building_revenue C1rowS0.building_sqft) ∧
    vLt (vDiv C1rowS0.building_revenue C1rowS0.building_sqft) (some 800) ∧
    C1rowS0.residential_sqft = vMul C1rowS0.building_sqft
      (some pfDef.building_efficiency) ∧
    vLt C1rowS0.max_profit_far C1rowS0.stories ∧
    vLt C1rowS0.stories (vMul C1rowS0.max_profit_far (some 3)) ∧
    C1rowS0.non_residential_sqft = some 0 ∧
    vPos C1rowS0.max_profit := by
  refine ⟨C1lookupEval, ?_⟩
  norm_num [C1rowS0, C1df_lc0, vLt_some, vPos_some, vDiv_some_of_ne,
    vMul_some, vAdd_some,
    show pfDef.building_efficiency = (7:ℚ)/10 from rfl]

